import Mathlib

/-!
# M7Rnetworking: orders, payments, stores, products and affiliates

A shallow embedding of the models of `server/models` and of the handlers of
`server/routes/payments.js`, `orders.js`, `affiliates.js`, `stores.js` and
`products.js`.

Modelling conventions
* JavaScript `Number` values are exact rationals (`Num`); rounding of doubles is
  outside the model.
* A collection is a list of documents; `findById` returns the first document
  with the given `_id`, `findByIdAndUpdate` rewrites that document.
* An `ObjectId` is kept in its string form. The cast of a string of the request
  to an `ObjectId`, which throws on a malformed string, is modelled in
  `createOrder` and in the listing and report handlers (`isObjectId`); the
  handlers on one stored order, store, product or user are stated for the id of
  a document, and the short ids of the samples (`o1`, `s1`, `u1`) stand for such
  ids.
* `Date.now()`, `Math.random().toString(36)` and the `_id` of a new document are
  inputs of a request (`Tick`).
* The MD5 digest of `crypto` and the rendering `toFixed(2)` are parameters
  (`Env`). The schema validation that `save` runs before the pre-save hooks is
  `validateOrder` for an order and `validateStore` for the required fields of a
  store; a rejected `save` throws and the handler answers through its `catch`
  block.
-/

namespace M7R

/-! ## Data model -/

/-- A JavaScript `Number`, modelled as an exact rational. -/
abbrev Num := ℚ

/-- An `ObjectId`, in its string form. -/
abbrev ObjectId := String

/-- A `Date`, in milliseconds since the epoch. -/
abbrev Date := Nat

/-- One entry of `orderSchema.items`. -/
structure OrderItem where
  product : ObjectId
  name : String
  price : Num
  quantity : Num
  subtotal : Num
deriving DecidableEq, Repr

/-- The sub-record `orderSchema.pricing`. -/
structure Pricing where
  subtotal : Num
  shipping : Num := 0
  tax : Num := 0
  discount : Num := 0
  total : Num
  currency : String := "ZAR"
deriving DecidableEq, Repr

/-- The sub-record `orderSchema.payment`. -/
structure Payment where
  method : String
  status : String := "pending"
  transactionId : Option String := none
  payfastPaymentId : Option String := none
  paidAt : Option Date := none
  refundedAt : Option Date := none
  refundAmount : Option Num := none
deriving DecidableEq, Repr

/-- The sub-record `orderSchema.affiliate.commission`. -/
structure Commission where
  rate : Num
  amount : Num
  paid : Bool := false
  paidAt : Option Date := none
deriving DecidableEq, Repr

/-- The sub-record `orderSchema.affiliate`, present when a referrer is attached. -/
structure Affiliate where
  referrer : ObjectId
  commission : Commission
deriving DecidableEq, Repr

/-- The sub-record `orderSchema.customer`. -/
structure Customer where
  user : Option ObjectId := none
  email : Option String := none
  firstName : Option String := none
  lastName : Option String := none
  phone : Option String := none
deriving DecidableEq, Repr

/-- An order document (`orderSchema`); `orderNumber = ""` stands for an unset
order number. The address blocks of `shipping` and `billing` are not modelled. -/
structure Order where
  _id : ObjectId
  orderNumber : String := ""
  status : String := "pending"
  customer : Customer := {}
  items : List OrderItem
  pricing : Pricing
  payment : Payment
  store : ObjectId
  notes : Option String := none
  affiliate : Option Affiliate := none
  trackingNumber : Option String := none
  estimatedDelivery : Option Date := none
  createdAt : Date := 0
  updatedAt : Date := 0
deriving DecidableEq, Repr

/-! ## Order pre-save hooks -/

/-- The per-request inputs that the code reads from its environment. -/
structure Tick where
  /-- The value of `Date.now()`. -/
  now : Date
  /-- The value of `Math.random().toString(36)`. -/
  rand36 : String
  /-- The `_id` given to a document built with `new` during the request. -/
  newId : ObjectId
deriving DecidableEq, Repr

/-- The JavaScript `s.slice(-n)`: the last `n` characters of `s`. -/
def sliceLast (n : Nat) (s : String) : String :=
  String.mk (s.toList.drop (s.toList.length - n))

/-- The JavaScript `s.substr(start, len)` for non-negative arguments. -/
def substr (start len : Nat) (s : String) : String :=
  String.mk ((s.toList.drop start).take len)

/-- The JavaScript `s.toUpperCase()` on the characters of a base-36 rendering
(ASCII letters are raised, other characters kept). -/
def toUpperCase (s : String) : String :=
  String.mk (s.toList.map Char.toUpper)

/-- First pre-save hook of `orderSchema`: generate the order number when it is
unset, and stamp `updatedAt`. -/
def generateOrderNumber (t : Tick) (o : Order) : Order :=
  let o1 : Order :=
    if o.orderNumber = "" then
      let timestamp := toString t.now
      let random := toUpperCase (substr 2 4 t.rand36)
      { o with orderNumber := "M7R-" ++ sliceLast 6 timestamp ++ "-" ++ random }
    else o
  { o1 with updatedAt := t.now }

/-- The `reduce` of the totals hook: every item gets `subtotal = price * quantity`
and the running total is increased by it. -/
def reduceItems : List OrderItem → Num → Num × List OrderItem
  | [], total => (total, [])
  | item :: rest, total =>
    let item1 : OrderItem := { item with subtotal := item.price * item.quantity }
    let r := reduceItems rest (total + item1.subtotal)
    (r.1, item1 :: r.2)

/-- Second pre-save hook of `orderSchema` ("Calculate totals"). -/
def calculateTotals (o : Order) : Order :=
  let r := reduceItems o.items 0
  let subtotal := r.1
  { o with
    items := r.2
    pricing := { o.pricing with
      subtotal := subtotal
      total := subtotal + o.pricing.shipping + o.pricing.tax - o.pricing.discount } }

/-! ## Other documents and the database -/

/-- The sub-record `productSchema.price`. -/
structure Price where
  currency : String := "ZAR"
  amount : Num
deriving DecidableEq, Repr

/-- A product document (`productSchema`), with the fields the order flow reads
or writes. -/
structure Product where
  _id : ObjectId
  name : String
  price : Price
  isActive : Bool := true
  views : Num := 0
  sales : Num := 0
  revenue : Num := 0
  store : ObjectId
  creator : ObjectId
  description : String := ""
  isFeatured : Bool := false
  updatedAt : Date := 0
  category : String := ""
  type : String := ""
deriving DecidableEq, Repr

/-- One entry of `storeSchema.settings.shipping.rates`. -/
structure ShippingRate where
  name : Option String := none
  price : Option Num := none
deriving DecidableEq, Repr

/-- The sub-record `storeSchema.settings.shipping`. -/
structure ShippingSettings where
  enabled : Bool := true
  rates : List ShippingRate := []
deriving DecidableEq, Repr

/-- The sub-record `storeSchema.settings.taxes`. -/
structure TaxSettings where
  enabled : Bool := false
  rate : Option Num := none
  includeInPrice : Bool := true
deriving DecidableEq, Repr

/-- The sub-record `storeSchema.settings`; an unset currency is `""`. -/
structure StoreSettings where
  currency : String := "ZAR"
  shipping : ShippingSettings := {}
  taxes : TaxSettings := {}
deriving DecidableEq, Repr

/-- The sub-record `storeSchema.analytics`. -/
structure Analytics where
  visitors : Num := 0
  pageViews : Num := 0
  orders : Num := 0
  revenue : Num := 0
deriving DecidableEq, Repr

/-- One entry of `storeSchema.pages`; the content of the page builder is kept as
a string. -/
structure Page where
  name : Option String := none
  slug : Option String := none
  content : Option String := none
  isHomePage : Bool := false
  isPublished : Bool := false
deriving DecidableEq, Repr

/-- A store document (`storeSchema`), with the fields the order flow and the
store handlers read or write; an unset slug is `""`. -/
structure Store where
  _id : ObjectId
  name : String
  owner : ObjectId
  settings : StoreSettings := {}
  analytics : Analytics := {}
  products : List ObjectId := []
  slug : String := ""
  description : Option String := none
  pages : List Page := []
  isActive : Bool := true
  updatedAt : Date := 0
deriving DecidableEq, Repr

/-- The sub-record `userSchema.affiliate`. -/
structure UserAffiliate where
  isAffiliate : Bool := false
  referralCode : Option String := none
  totalEarnings : Num := 0
  pendingPayouts : Num := 0
deriving DecidableEq, Repr

/-- A user document (`userSchema`), with the fields the order flow and the
affiliate handlers read or write and the fields `toJSON` removes. -/
structure User where
  _id : ObjectId
  username : String
  affiliate : UserAffiliate := {}
  stores : List ObjectId := []
  email : String := ""
  password : String := ""
  isEmailVerified : Bool := false
  emailVerificationToken : Option String := none
  passwordResetToken : Option String := none
  passwordResetExpires : Option Date := none
  lastLogin : Option Date := none
  createdAt : Date := 0
  updatedAt : Date := 0
deriving DecidableEq, Repr

/-- The four collections. -/
structure Db where
  orders : List Order
  products : List Product
  stores : List Store
  users : List User
deriving DecidableEq, Repr

/-- `Model.findById`: the first document of the collection with this `_id`. -/
def findById {α : Type} (key : α → ObjectId) (c : List α) (id : ObjectId) : Option α :=
  c.find? (fun d => key d == id)

/-- `Model.findByIdAndUpdate`: apply the update to the first document with this
`_id`; nothing changes when there is none. -/
def findByIdAndUpdate {α : Type} (key : α → ObjectId) :
    List α → ObjectId → (α → α) → List α
  | [], _, _ => []
  | d :: rest, id, f =>
    if key d == id then f d :: rest else d :: findByIdAndUpdate key rest id f

/-- Writing a saved document back: it replaces the stored document with the same
`_id`, or is inserted when there is none. -/
def upsert {α : Type} (key : α → ObjectId) : List α → α → List α
  | [], d => [d]
  | e :: rest, d => if key e == key d then d :: rest else e :: upsert key rest d

/-! ## Environment and responses -/

/-- The configuration of the server and the library functions it calls. -/
structure Env where
  /-- `process.env.PAYFAST_MERCHANT_ID`, `none` when unset. -/
  merchantId : Option String
  /-- `process.env.PAYFAST_MERCHANT_KEY`, `none` when unset. -/
  merchantKey : Option String
  /-- `process.env.PAYFAST_PASSPHRASE`, `""` when unset. -/
  passphrase : String
  /-- `process.env.PAYFAST_SANDBOX === 'true'`. -/
  sandbox : Bool
  returnUrl : String
  cancelUrl : String
  notifyUrl : String
  /-- The hex MD5 digest computed by `crypto`. -/
  md5 : String → String
  /-- The rendering `x.toFixed(2)` of the runtime, computed on doubles. -/
  toFixed2 : Num → String
  /-- The schema validation that `save` runs on a store before the hooks, beyond
  its required fields. -/
  validStore : Store → Bool := fun _ => true
  /-- The schema validation that `save` runs on a product before the hooks. -/
  validProduct : Product → Bool := fun _ => true
  /-- The schema validation that `save` runs on a user before the hooks. -/
  validUser : User → Bool := fun _ => true

/-- A store as `populate('store', fields)` loads it: the `_id` and the selected
fields; a field that was not selected is absent. -/
structure StoreView where
  _id : ObjectId
  name : Option String := none
  slug : Option String := none
  owner : Option ObjectId := none
deriving DecidableEq, Repr

/-- The payment instructions returned by `create-order`. -/
inductive PaymentData
  | /-- No instructions (`{}`), for the manual method. -/
    empty
  | /-- The PayFast process URL and the signed parameter set. -/
    payfast (url : String) (data : List (String × Option String))
  | /-- The Stripe placeholder. -/
    stripe (clientSecret : String) (message : String)
deriving DecidableEq, Repr

/-- The body of a response. -/
inductive Body
  | /-- A plain-text body, `res.send(text)`. -/
    text (s : String)
  | /-- A JSON body that has only a `message` field. -/
    message (s : String)
  | /-- The JSON body of a created order. -/
    created (message : String) (id : ObjectId) (orderNumber : String) (total : Num)
      (currency : String) (payment : PaymentData)
  | /-- A JSON body with a `message`, an order and (for a refund) an amount. -/
    order (message : String) (o : Order) (refundAmount : Option Num)
  | /-- A JSON body with a `message` and a store. -/
    store (message : String) (s : Store)
  | /-- A JSON body with a `message` and a product. -/
    product (message : String) (p : Product)
  | /-- A JSON body with a `message` and the saved page, if it is found. -/
    page (message : String) (p : Option Page)
  | /-- The JSON body `{ order }` of a single order with its populated store; it
    has no `message`. -/
    orderView (o : Order) (store : StoreView)
  | /-- The JSON body of an accepted payout request. -/
    payout (message : String) (amount : Num) (paymentMethod : Option String)
      (status : String) (estimatedProcessingTime : String)
  | /-- The JSON body of a listing, a dashboard or a report, given by its top-level
    keys; the values are not modelled. -/
    json (keys : List String)
deriving DecidableEq, Repr

/-- An HTTP response. -/
structure Response where
  status : Nat
  body : Body
deriving DecidableEq, Repr

/-! ## JavaScript string helpers -/

/-- The UTF-16 code units of a string, the order `Array.prototype.sort` compares
strings by. -/
def utf16Units (s : String) : List Nat :=
  s.toList.flatMap fun c =>
    if c.toNat < 65536 then [c.toNat]
    else [55296 + (c.toNat - 65536) / 1024, 56320 + (c.toNat - 65536) % 1024]

/-- Lexicographic `<` on code-unit sequences. -/
def unitsLt : List Nat → List Nat → Bool
  | [], [] => false
  | [], _ :: _ => true
  | _ :: _, [] => false
  | a :: as, b :: bs => if a < b then true else if b < a then false else unitsLt as bs

/-- The JavaScript `a < b` on strings. -/
def jsStrLt (a b : String) : Bool := unitsLt (utf16Units a) (utf16Units b)

/-- Insert a key into a sorted list of keys, after the keys that are not
greater. -/
def insertKey (k : String) : List String → List String
  | [] => [k]
  | x :: xs => if jsStrLt k x then k :: x :: xs else x :: insertKey k xs

/-- `keys.sort()`: the keys in ascending order of their code units. -/
def sortKeys (keys : List String) : List String :=
  keys.foldl (fun acc k => insertKey k acc) []

/-- The characters removed by `String.prototype.trim` (white space and line
terminators). -/
def jsIsWhite (c : Char) : Bool :=
  let n := c.toNat
  (9 ≤ n && n ≤ 13) || n == 32 || n == 160 || n == 5760 || (8192 ≤ n && n ≤ 8202) ||
    n == 8232 || n == 8233 || n == 8239 || n == 8287 || n == 12288 || n == 65279

/-- The JavaScript `s.trim()`. -/
def jsTrim (s : String) : String :=
  String.mk ((s.toList.dropWhile jsIsWhite).reverse.dropWhile jsIsWhite).reverse

/-- The characters `encodeURIComponent` leaves as they are: letters, digits and
`- _ . ! ~ * ( )` and the apostrophe. -/
def isUnreserved (c : Char) : Bool :=
  c.isAlphanum || [45, 95, 46, 33, 126, 42, 39, 40, 41].contains c.toNat

/-- The UTF-8 bytes of a code point. -/
def utf8Bytes (n : Nat) : List Nat :=
  if n < 128 then [n]
  else if n < 2048 then [192 + n / 64, 128 + n % 64]
  else if n < 65536 then [224 + n / 4096, 128 + n / 64 % 64, 128 + n % 64]
  else [240 + n / 262144, 128 + n / 4096 % 64, 128 + n / 64 % 64, 128 + n % 64]

/-- One upper-case hexadecimal digit. -/
def hexDigit (n : Nat) : Char := "0123456789ABCDEF".toList.getD n (Char.ofNat 48)

/-- The escape `%XX` of a byte. -/
def percentByte (b : Nat) : List Char := [Char.ofNat 37, hexDigit (b / 16), hexDigit (b % 16)]

/-- The JavaScript `encodeURIComponent(s)`. -/
def encodeURIComponent (s : String) : String :=
  String.mk (s.toList.flatMap fun c =>
    if isUnreserved c then [c] else (utf8Bytes c.toNat).flatMap percentByte)

/-- The two-decimal rendering of an exact value: rounded to the nearest, away
from zero on a tie. It serves as `toFixed(2)` in the sample configuration. -/
def fixed2 (x : Num) : String :=
  let n := (|x| * 100 + 1 / 2).floor.toNat
  let frac := n % 100
  let s := toString (n / 100) ++ "." ++ (if frac < 10 then "0" else "") ++ toString frac
  if x < 0 then "-" ++ s else s

/-- The JavaScript `x || d` on an optional number: `d` when `x` is absent or 0. -/
def numOr (x : Option Num) (d : Num) : Num :=
  match x with
  | some v => if v = 0 then d else v
  | none => d

/-- The JavaScript `x || d` on an optional string: `d` when `x` is absent or
empty. -/
def strOr (x : Option String) (d : String) : String :=
  match x with
  | some v => if v = "" then d else v
  | none => d

/-! ## PayFast signature -/

/-- A flat parameter object: keys with their values, `none` for a value that is
`undefined` or `null`. -/
abbrev Fields := List (String × Option String)

/-- The body of the `forEach` in `generatePayFastSignature`: append
`key=value&` unless the value is the empty string; reading `toString` of an
absent value throws (`none`). -/
def appendParam (data : Fields) (acc : Option String) (key : String) : Option String :=
  match acc with
  | none => none
  | some paramString =>
    match data.lookup key with
    | some (some v) =>
      if v = "" then some paramString
      else some (paramString ++ key ++ "=" ++ encodeURIComponent (jsTrim v) ++ "&")
    | _ => none

/-- The function `generatePayFastSignature(data, passphrase)`, `none` when it
throws. -/
def generatePayFastSignature (md5 : String → String) (data : Fields)
    (passphrase : String) : Option String :=
  let sortedKeys := sortKeys (data.map Prod.fst)
  match sortedKeys.foldl (appendParam data) (some "") with
  | none => none
  | some paramString =>
    let paramString := String.mk paramString.toList.dropLast
    let paramString :=
      if passphrase = "" then paramString
      else paramString ++ "&passphrase=" ++ encodeURIComponent (jsTrim passphrase)
    some (md5 paramString)

/-! ## Saving an order -/

/-- The schema validation of an order (`orderSchema`), for the fields of the
model: `orderNumber`, the product and quantity of every item, `payment.method`
and `store` are required, a quantity is at least 1, and `status`,
`payment.method` and `payment.status` are in their enums. -/
def validateOrder (o : Order) : Bool :=
  o.orderNumber != "" &&
  ["pending", "processing", "shipped", "delivered", "cancelled", "refunded"].contains
    o.status &&
  o.items.all (fun i => i.product != "" && decide (1 ≤ i.quantity)) &&
  ["payfast", "stripe", "manual"].contains o.payment.method &&
  ["pending", "processing", "completed", "failed", "cancelled"].contains o.payment.status &&
  o.store != ""

/-- Modelled from the spec: order numbers are unique. The schema declares
`unique: true` on `orderNumber`, and the database, which enforces the index,
rejects the write of an order whose number another stored order carries. -/
def duplicateOrderNumber (orders : List Order) (o : Order) : Bool :=
  orders.any fun p => p._id != o._id && p.orderNumber == o.orderNumber

/-- The call `order.save()`: the schema validation, which Mongoose runs before
the pre-save hooks, then the two hooks, then the write, which the unique index
on `orderNumber` may reject. The result is the saved document and the new
collection, `none` when `save` throws. -/
def saveOrder (_env : Env) (t : Tick) (orders : List Order) (o : Order) :
    Option (Order × List Order) :=
  if validateOrder o then
    let o1 := calculateTotals (generateOrderNumber t o)
    if duplicateOrderNumber orders o1 then none
    else some (o1, upsert Order._id orders o1)
  else none

/-! ## POST /api/payments/create-order -/

/-- One requested line of `req.body.items`. -/
structure ItemReq where
  productId : ObjectId
  quantity : Num
deriving DecidableEq, Repr

/-- The object `req.body.customer`. -/
structure CustomerReq where
  email : Option String := none
  firstName : Option String := none
  lastName : Option String := none
  phone : Option String := none
deriving DecidableEq, Repr

/-- The body of a create-order request; an absent `items` is the empty list, an
absent `storeId` or `paymentMethod` the empty string. -/
structure CreateOrderBody where
  items : List ItemReq
  customer : Option CustomerReq
  paymentMethod : String
  storeId : String
  referralCode : Option String := none
deriving DecidableEq, Repr

/-- Whether Mongoose casts a string of a request to an `ObjectId`: 24
hexadecimal characters. A query by `_id` with another string throws a
`CastError`, which the handlers below answer through their `catch` block. -/
def isObjectId (s : String) : Bool :=
  s.length == 24 &&
    s.toList.all fun c =>
      c.isDigit || (97 ≤ c.toNat && c.toNat ≤ 102) || (65 ≤ c.toNat && c.toNat ≤ 70)

/-- The answer of the handler to a line whose product is missing or inactive. -/
def badProduct (productId : String) : Response :=
  ⟨400, .message ("Product " ++ productId ++ " not found or inactive")⟩

/-- The loop over the requested items: look the product up (a malformed id
throws), stop with the answer 400 when it is missing or inactive, else add
`price.amount * quantity` to the subtotal and push the snapshot of the line. -/
def resolveItems (products : List Product) :
    List ItemReq → Num → List OrderItem → Except Response (Num × List OrderItem)
  | [], subtotal, orderItems => .ok (subtotal, orderItems)
  | item :: rest, subtotal, orderItems =>
    if isObjectId item.productId then
      match findById Product._id products item.productId with
      | none => .error (badProduct item.productId)
      | some product =>
        if product.isActive then
          let itemTotal := product.price.amount * item.quantity
          resolveItems products rest (subtotal + itemTotal)
            (orderItems ++ [{ product := product._id, name := product.name,
                              price := product.price.amount, quantity := item.quantity,
                              subtotal := itemTotal }])
        else .error (badProduct item.productId)
    else .error ⟨500, .message "Server error"⟩

/-- The shipping cost of an order: the price of the first rate of the store when
shipping is enabled. -/
def shippingCost (store : Store) : Num :=
  if store.settings.shipping.enabled then
    numOr (store.settings.shipping.rates.head?.bind fun r => r.price) 0
  else 0

/-- The tax rate applied, in percent. -/
def taxRate (store : Store) : Num :=
  if store.settings.taxes.enabled then numOr store.settings.taxes.rate 0 else 0

/-- The tax amount on a subtotal. -/
def taxAmount (store : Store) (subtotal : Num) : Num :=
  if store.settings.taxes.includeInPrice then 0 else subtotal * (taxRate store / 100)

/-- The affiliate block of a new order: the user holding the referral code, with a
5% commission on the total. -/
def resolveAffiliate (users : List User) (referralCode : Option String) (total : Num) :
    Option Affiliate :=
  match referralCode with
  | none => none
  | some code =>
    if code = "" then none
    else
      match users.find? (fun u => u.affiliate.referralCode == some code) with
      | none => none
      | some referrer =>
        some { referrer := referrer._id,
               commission := { rate := 5 / 100, amount := total * (5 / 100) } }

/-- The parameter set sent to PayFast for a saved order, before signing. -/
def payfastData (env : Env) (customer : CustomerReq) (store : Store) (storeId : String)
    (order : Order) (total : Num) : Fields :=
  [("merchant_id", env.merchantId),
   ("merchant_key", env.merchantKey),
   ("return_url", some env.returnUrl),
   ("cancel_url", some env.cancelUrl),
   ("notify_url", some env.notifyUrl),
   ("name_first", customer.firstName),
   ("name_last", customer.lastName),
   ("email_address", customer.email),
   ("m_payment_id", some order._id),
   ("amount", some (env.toFixed2 total)),
   ("item_name", some ("Order " ++ order.orderNumber)),
   ("item_description", some ("Order from " ++ store.name)),
   ("custom_str1", some order._id),
   ("custom_str2", some storeId)]

/-- The document `new Order({...})` that the handler builds from the resolved
lines and the amounts it computed. -/
def newOrder (t : Tick) (user : Option ObjectId) (body : CreateOrderBody)
    (customer : CustomerReq) (store : Store) (subtotal : Num) (orderItems : List OrderItem)
    (affiliate : Option Affiliate) : Order :=
  { _id := t.newId
    customer := { user := user, email := customer.email, firstName := customer.firstName,
                  lastName := customer.lastName, phone := customer.phone }
    items := orderItems
    pricing := { subtotal := subtotal
                 shipping := shippingCost store
                 tax := taxAmount store subtotal
                 total := subtotal + shippingCost store + taxAmount store subtotal
                 currency := strOr (some store.settings.currency) "ZAR" }
    payment := { method := body.paymentMethod }
    store := body.storeId
    affiliate := affiliate
    createdAt := t.now
    updatedAt := t.now }

/-- The payment instructions for a saved order, `none` when signing throws. -/
def paymentDataFor (env : Env) (body : CreateOrderBody) (customer : CustomerReq)
    (store : Store) (saved : Order) (total : Num) : Option PaymentData :=
  if body.paymentMethod = "payfast" then
    let data := payfastData env customer store body.storeId saved total
    match generatePayFastSignature env.md5 data env.passphrase with
    | none => none
    | some signature =>
      let url :=
        if env.sandbox then "https://sandbox.payfast.co.za/eng/process"
        else "https://www.payfast.co.za/eng/process"
      some (.payfast url (data ++ [("signature", some signature)]))
  else if body.paymentMethod = "stripe" then
    some (.stripe "stripe_payment_intent_client_secret" "Stripe integration coming soon")
  else some .empty

/-- The handler of `POST /api/payments/create-order` up to `order.save()`: the
guards, the lookups and the document `new Order({...})` with the total the
handler computed, or the answer that ends the request early. `user` is the
identity the optional authentication resolved, if any. -/
def draftOrder (t : Tick) (db : Db) (user : Option ObjectId) (body : CreateOrderBody) :
    Except Response (CustomerReq × Store × Num × Order) :=
  match body.customer with
  | none => .error ⟨400, .message "Missing required fields"⟩
  | some customer =>
    if body.items.isEmpty || body.storeId == "" then
      .error ⟨400, .message "Missing required fields"⟩
    else if isObjectId body.storeId then
      match findById Store._id db.stores body.storeId with
      | none => .error ⟨404, .message "Store not found"⟩
      | some store =>
        match resolveItems db.products body.items 0 [] with
        | .error response => .error response
        | .ok (subtotal, orderItems) =>
          let total := subtotal + shippingCost store + taxAmount store subtotal
          let affiliate := resolveAffiliate db.users body.referralCode total
          .ok (customer, store, total,
            newOrder t user body customer store subtotal orderItems affiliate)
    else .error ⟨500, .message "Server error"⟩

/-- The handler of `POST /api/payments/create-order`: the document of
`draftOrder` is saved, and the payment instructions are built for the saved
order. -/
def createOrder (env : Env) (t : Tick) (db : Db) (user : Option ObjectId)
    (body : CreateOrderBody) : Response × Db :=
  match draftOrder t db user body with
  | .error response => (response, db)
  | .ok (customer, store, total, order) =>
    match saveOrder env t db.orders order with
    | none => (⟨500, .message "Server error"⟩, db)
    | some (saved, orders) =>
      match paymentDataFor env body customer store saved total with
      | none => (⟨500, .message "Server error"⟩, { db with orders := orders })
      | some paymentData =>
        (⟨201, .created "Order created successfully" saved._id saved.orderNumber
                saved.pricing.total saved.pricing.currency paymentData⟩,
          { db with orders := orders })

/-- The line the handler pushes for a requested item: the snapshot of the
product, when the id is well formed and the product exists and is active. -/
def snapshot (products : List Product) (item : ItemReq) : Option OrderItem :=
  if isObjectId item.productId then
    match findById Product._id products item.productId with
    | none => none
    | some product =>
      if product.isActive then
        some { product := product._id, name := product.name, price := product.price.amount,
               quantity := item.quantity, subtotal := product.price.amount * item.quantity }
      else none
  else none

/-! ## POST /api/payments/payfast/notify -/

/-- The update `$inc: { sales, revenue }` of a product for one line item. -/
def incProduct (item : OrderItem) (p : Product) : Product :=
  { p with sales := p.sales + item.quantity, revenue := p.revenue + item.subtotal }

/-- The update `$inc` of the analytics of a store for one order. -/
def incStore (order : Order) (s : Store) : Store :=
  { s with analytics := { s.analytics with
      orders := s.analytics.orders + 1
      revenue := s.analytics.revenue + order.pricing.total } }

/-- The update `$inc` of the balances of a referrer by a commission amount. -/
def incUser (amount : Num) (u : User) : User :=
  { u with affiliate := { u.affiliate with
      totalEarnings := u.affiliate.totalEarnings + amount
      pendingPayouts := u.affiliate.pendingPayouts + amount } }

/-- The loop "Update product sales" over the items of an order. -/
def updateProductSales (products : List Product) (items : List OrderItem) : List Product :=
  items.foldl (fun ps item => findByIdAndUpdate Product._id ps item.product (incProduct item))
    products

/-- The branch "Handle affiliate commission". -/
def creditAffiliate (users : List User) (order : Order) : List User :=
  match order.affiliate with
  | none => users
  | some a => findByIdAndUpdate User._id users a.referrer (incUser a.commission.amount)

/-- The order as the `COMPLETE` branch mutates it before saving. -/
def markCompleted (t : Tick) (data : Fields) (order : Order) : Order :=
  { order with
    payment := { order.payment with
      status := "completed"
      transactionId := (data.lookup "pf_payment_id").join
      payfastPaymentId := (data.lookup "pf_payment_id").join
      paidAt := some t.now }
    status := "processing" }

/-- The order as the other branch mutates it before saving. -/
def markFailed (order : Order) : Order :=
  { order with payment := { order.payment with status := "failed" }, status := "cancelled" }

/-- The handler of `POST /api/payments/payfast/notify`, on the parsed body. -/
def payfastNotify (env : Env) (t : Tick) (db : Db) (data : Fields) : Response × Db :=
  let signature := (data.lookup "signature").join
  let dataWithoutSignature := data.filter (fun kv => kv.1 != "signature")
  match generatePayFastSignature env.md5 dataWithoutSignature env.passphrase with
  | none => (⟨500, .text "Server error"⟩, db)
  | some calculatedSignature =>
    if signature ≠ some calculatedSignature then (⟨400, .text "Invalid signature"⟩, db)
    else
      match (data.lookup "custom_str1").join.bind (findById Order._id db.orders) with
      | none => (⟨404, .text "Order not found"⟩, db)
      | some order =>
        if (data.lookup "payment_status").join = some "COMPLETE" then
          let db1 : Db :=
            { db with
              products := updateProductSales db.products order.items
              stores := findByIdAndUpdate Store._id db.stores order.store (incStore order)
              users := creditAffiliate db.users order }
          match saveOrder env t db1.orders (markCompleted t data order) with
          | none => (⟨500, .text "Server error"⟩, db1)
          | some (_, orders) => (⟨200, .text "OK"⟩, { db1 with orders := orders })
        else
          match saveOrder env t db.orders (markFailed order) with
          | none => (⟨500, .text "Server error"⟩, db)
          | some (_, orders) => (⟨200, .text "OK"⟩, { db with orders := orders })

/-! ## Order status update and refund -/

/-- The body of a status-update request; an absent `status` is the empty
string. -/
structure StatusBody where
  status : String
  trackingNumber : Option String := none
  notes : Option String := none
deriving DecidableEq, Repr

/-- The body of a refund request. -/
structure RefundBody where
  amount : Option Num := none
  reason : Option String := none
deriving DecidableEq, Repr

/-- Five days, in milliseconds. -/
def fiveDays : Nat := 5 * 24 * 60 * 60 * 1000

/-- The handler of `PUT /api/orders/:id/status` for the authenticated user
`userId`. A missing store makes the ownership test throw. -/
def updateOrderStatus (env : Env) (t : Tick) (db : Db) (userId : ObjectId) (id : ObjectId)
    (body : StatusBody) : Response × Db :=
  match findById Order._id db.orders id with
  | none => (⟨404, .message "Order not found"⟩, db)
  | some order =>
    match findById Store._id db.stores order.store with
    | none => (⟨500, .message "Server error"⟩, db)
    | some store =>
      if store.owner ≠ userId then (⟨403, .message "Not authorized"⟩, db)
      else if ¬ ["pending", "processing", "shipped", "delivered", "cancelled",
                 "refunded"].contains body.status then
        (⟨400, .message "Invalid status"⟩, db)
      else
        let order1 : Order :=
          { order with
            status := body.status
            trackingNumber :=
              if strOr body.trackingNumber "" = "" then order.trackingNumber
              else body.trackingNumber
            notes := if strOr body.notes "" = "" then order.notes else body.notes
            estimatedDelivery :=
              if body.status = "shipped" ∧ order.estimatedDelivery = none then
                some (t.now + fiveDays)
              else order.estimatedDelivery }
        match saveOrder env t db.orders order1 with
        | none => (⟨500, .message "Server error"⟩, db)
        | some (saved, orders) =>
          (⟨200, .order "Order status updated successfully" saved none⟩,
            { db with orders := orders })

/-- The handler of `PUT /api/payments/order/:orderId/status` for the
authenticated user `userId`. -/
def updatePaymentOrderStatus (env : Env) (t : Tick) (db : Db) (userId : ObjectId)
    (id : ObjectId) (body : StatusBody) : Response × Db :=
  match findById Order._id db.orders id with
  | none => (⟨404, .message "Order not found"⟩, db)
  | some order =>
    match findById Store._id db.stores order.store with
    | none => (⟨500, .message "Server error"⟩, db)
    | some store =>
      if store.owner ≠ userId then (⟨403, .message "Not authorized"⟩, db)
      else if ¬ ["pending", "processing", "shipped", "delivered",
                 "cancelled"].contains body.status then
        (⟨400, .message "Invalid status"⟩, db)
      else
        let order1 : Order :=
          { order with
            status := body.status
            trackingNumber :=
              if strOr body.trackingNumber "" = "" then order.trackingNumber
              else body.trackingNumber }
        match saveOrder env t db.orders order1 with
        | none => (⟨500, .message "Server error"⟩, db)
        | some (saved, orders) =>
          (⟨200, .order "Order status updated successfully" saved none⟩,
            { db with orders := orders })

/-- The amount of a refund: `amount || order.pricing.total`. -/
def refundAmountOf (body : RefundBody) (order : Order) : Num :=
  numOr body.amount order.pricing.total

/-- The order as the refund handler mutates it before saving. -/
def markRefunded (t : Tick) (body : RefundBody) (order : Order) : Order :=
  { order with
    status := "refunded"
    payment := { order.payment with
      refundAmount := some (refundAmountOf body order)
      refundedAt := some t.now }
    notes := some ("Refund: " ++ strOr body.reason "No reason provided") }

/-- The handler of `POST /api/orders/:id/refund` for the authenticated user
`userId`. -/
def refundOrder (env : Env) (t : Tick) (db : Db) (userId : ObjectId) (id : ObjectId)
    (body : RefundBody) : Response × Db :=
  match findById Order._id db.orders id with
  | none => (⟨404, .message "Order not found"⟩, db)
  | some order =>
    match findById Store._id db.stores order.store with
    | none => (⟨500, .message "Server error"⟩, db)
    | some store =>
      if store.owner ≠ userId then (⟨403, .message "Not authorized"⟩, db)
      else if order.payment.status ≠ "completed" then
        (⟨400, .message "Cannot refund unpaid order"⟩, db)
      else if refundAmountOf body order > order.pricing.total then
        (⟨400, .message "Refund amount cannot exceed order total"⟩, db)
      else
        match saveOrder env t db.orders (markRefunded t body order) with
        | none => (⟨500, .message "Server error"⟩, db)
        | some (saved, orders) =>
          (⟨200, .order "Refund processed successfully" saved
                  (some (refundAmountOf body order))⟩,
            { db with orders := orders })

/-! ## Sequences of requests on orders -/

/-- A request that mutates an order. -/
inductive Request
  | /-- A payment notification. -/
    notify (data : Fields)
  | /-- A status update through `/api/orders`. -/
    updateStatus (userId id : ObjectId) (body : StatusBody)
  | /-- A status update through `/api/payments`. -/
    updatePaymentStatus (userId id : ObjectId) (body : StatusBody)
  | /-- A refund request. -/
    refund (userId id : ObjectId) (body : RefundBody)
deriving DecidableEq, Repr

/-- Serve one request. -/
def handle (env : Env) (t : Tick) (db : Db) : Request → Response × Db
  | .notify data => payfastNotify env t db data
  | .updateStatus userId id body => updateOrderStatus env t db userId id body
  | .updatePaymentStatus userId id body => updatePaymentOrderStatus env t db userId id body
  | .refund userId id body => refundOrder env t db userId id body

/-- Serve a sequence of requests one after the other, each with its own `Tick`. -/
def run (env : Env) (db : Db) : List (Tick × Request) → Db
  | [] => db
  | (t, r) :: rest => run env (handle env t db r).2 rest

/-- The `payment.status` of the order with this `_id`, if it is stored. -/
def paymentStatus (db : Db) (id : ObjectId) : Option String :=
  (findById Order._id db.orders id).map fun o => o.payment.status

/-! ## Sample data -/

/-- A server configuration; the digest is replaced by the identity. -/
def env0 : Env :=
  { merchantId := some "10000100"
    merchantKey := some "46f0cd694581a"
    passphrase := "secret"
    sandbox := true
    returnUrl := "http://front/payment/success"
    cancelUrl := "http://front/payment/cancel"
    notifyUrl := "http://back/api/payments/payfast/notify"
    md5 := fun s => s
    toFixed2 := fixed2 }

/-- The product "Widget", priced 50.00. -/
def widget : Product :=
  { _id := "p1", name := "Widget", price := { amount := 50 }, store := "s1", creator := "u1",
    description := "A widget", category := "physical", type := "physical" }

/-- The store "Acme" of user `u1`: no shipping rate, taxes disabled. -/
def acme : Store := { _id := "s1", name := "Acme", owner := "u1", slug := "acme" }

/-- The affiliate user `u2`, with a referral code. -/
def referrer0 : User :=
  { _id := "u2", username := "ref", email := "ref@m7r.test", password := "$2a$12$refhash",
    affiliate := { isAffiliate := true, referralCode := some "ref1234" } }

/-- The user `u1`, owner of the sample stores. -/
def owner0 : User :=
  { _id := "u1", username := "owner", email := "owner@m7r.test",
    password := "$2a$12$ownerhash" }

/-- A database with the store, its product, its owner and the affiliate. -/
def db0 : Db :=
  { orders := []
    products := [widget]
    stores := [acme]
    users := [owner0, referrer0] }

/-- The inputs of the first request. -/
def t0 : Tick := { now := 1700000123456, rand36 := "0.4fzyo82mvyr", newId := "o1" }

/-- The customer of the sample order. -/
def customer0 : CustomerReq :=
  { email := some "a@b.c", firstName := some "Ann", lastName := some "Bee" }

/-- The total quantity of the lines of an order that reference a product. -/
def soldQuantity (items : List OrderItem) (pid : ObjectId) : Num :=
  ((items.filter fun i => i.product == pid).map fun i => i.quantity).sum

/-- The total of the subtotals of the lines of an order that reference a
product. -/
def soldRevenue (items : List OrderItem) (pid : ObjectId) : Num :=
  ((items.filter fun i => i.product == pid).map fun i => i.subtotal).sum

/-- A parameter set together with the signature the provider computes for it. -/
def signed (env : Env) (data : Fields) : Fields :=
  data ++ [("signature", generatePayFastSignature env.md5 data env.passphrase)]

/-- The stored order `o1`: 2 × Widget for a guest, paid through PayFast, referred
by `u2`. -/
def order1 : Order :=
  { _id := "o1"
    orderNumber := "M7R-123456-4FZY"
    customer := { email := some "a@b.c", firstName := some "Ann", lastName := some "Bee" }
    items := [{ product := "p1", name := "Widget", price := 50, quantity := 2,
                subtotal := 100 }]
    pricing := { subtotal := 100, total := 100 }
    payment := { method := "payfast" }
    store := "s1"
    affiliate := some { referrer := "u2", commission := { rate := 5 / 100, amount := 5 } }
    createdAt := 1700000123456
    updatedAt := 1700000123456 }

/-- The sample database with the stored order `o1`. -/
def db1 : Db := { db0 with orders := [order1] }

/-- The inputs of a second request. -/
def t1 : Tick := { now := 1700000200000, rand36 := "0.8kq2zj1c9", newId := "x1" }

/-- The inputs of a third request. -/
def t2 : Tick := { now := 1700000300000, rand36 := "0.c3p0r2d2", newId := "x2" }

/-- The fields of a completion notification for `o1`, unsigned. -/
def note0 : Fields :=
  [("custom_str1", some "o1"), ("payment_status", some "COMPLETE"),
   ("pf_payment_id", some "777")]

/-- The completion notification for `o1`, correctly signed. -/
def noteComplete : Fields := signed env0 note0

/-- A correctly signed notification for `o1` that reports a failed payment. -/
def noteFailed : Fields :=
  signed env0 [("custom_str1", some "o1"), ("payment_status", some "FAILED"),
               ("pf_payment_id", some "778")]

/-- The completion notification for `o1` with a forged signature. -/
def noteForged : Fields := note0 ++ [("signature", some "forged")]

/-- A stored order `o1` with two lines on the same product (2 and 1 Widget) and
no referrer. -/
def order2 : Order :=
  { order1 with
    items := [{ product := "p1", name := "Widget", price := 50, quantity := 2,
                subtotal := 100 },
              { product := "p1", name := "Widget", price := 50, quantity := 1,
                subtotal := 50 }]
    pricing := { subtotal := 150, total := 150 }
    affiliate := none }

/-- The sample database with the stored two-line order `o1`. -/
def db2 : Db := { db0 with orders := [order2] }

/-- The database after the completion notification for `o1` was processed
once. -/
def dbPaid : Db := (payfastNotify env0 t1 db1 noteComplete).2

/-- The database after the same notification was processed a second time. -/
def dbPaidTwice : Db := (payfastNotify env0 t2 dbPaid noteComplete).2

/-- The signature of the completion notification for `o1` under `env0`. -/
def sig0 : String := "custom_str1=o1&payment_status=COMPLETE&pf_payment_id=777&passphrase=secret"

/-- The inputs of a fourth request. -/
def t3 : Tick := { now := 1700000400000, rand36 := "0.zz9plural", newId := "x3" }

/-- The database after the owner `u1` was refunded the paid order `o1` in
full. -/
def dbRefunded : Db := (refundOrder env0 t2 dbPaid "u1" "o1" {}).2

/-- The database after the owner `u1` put the note "gift wrap" on the paid
order `o1` through a status update. -/
def dbNoted : Db :=
  (updateOrderStatus env0 t2 dbPaid "u1" "o1"
    { status := "processing", notes := some "gift wrap" }).2

/-- The store "Bolt" of user `u1`: shipping enabled with a first rate of 60, taxes
enabled at 15 percent and not included in the prices. -/
def bolt : Store :=
  { _id := "s2", name := "Bolt", owner := "u1", slug := "bolt"
    settings := { shipping := { enabled := true,
                                rates := [{ name := some "Courier", price := some 60 },
                                          { name := some "Express", price := some 120 }] }
                  taxes := { enabled := true, rate := some 15, includeInPrice := false } } }

/-- The pattern `M7R-<6 digits>-<4 alphanumerics>`: the literal `M7R-`, six
decimal digits, `-`, and four characters that are decimal digits or upper-case
letters. -/
def orderNumberFormat (s : String) : Bool :=
  let cs := s.toList
  cs.length == 15 && cs.take 4 == ['M', '7', 'R', '-'] &&
    ((cs.drop 4).take 6).all Char.isDigit && (cs.drop 10).take 1 == ['-'] &&
    (cs.drop 11).all fun c => c.isDigit || c.isUpper

/-- The characters of a base-36 rendering after the point. -/
def base36Chars : List Char := "0123456789abcdefghijklmnopqrstuvwxyz".toList

/-- A new order document without order number. -/
def draft0 : Order :=
  { _id := "o9", items := [], pricing := { subtotal := 0, total := 0 },
    payment := { method := "manual" }, store := "s1" }

/-- The inputs of a request in which `Math.random()` returns 0.5, whose base-36
rendering is `0.i`. -/
def tHalf : Tick := { now := 1700000123456, rand36 := "0.i", newId := "o9" }

/-- The inputs of a request in which `Math.random()` returns 0, whose base-36
rendering is `0`. -/
def tZero : Tick := { now := 1700000123456, rand36 := "0", newId := "o9" }

/-- No two stored orders with different `_id` carry the same order number. -/
def uniqueOrderNumbers (orders : List Order) : Prop :=
  ∀ a ∈ orders, ∀ b ∈ orders, a._id ≠ b._id → a.orderNumber ≠ b.orderNumber

instance (orders : List Order) : Decidable (uniqueOrderNumbers orders) := by
  unfold uniqueOrderNumbers
  infer_instance

/-- A request that creates or mutates an order. -/
inductive Action
  | /-- An order creation, with the identity the optional authentication
    resolved. -/
    create (user : Option ObjectId) (body : CreateOrderBody)
  | /-- A notification, status update or refund. -/
    request (r : Request)
deriving DecidableEq, Repr

/-- Serve one action. -/
def act (env : Env) (t : Tick) (db : Db) : Action → Response × Db
  | .create user body => createOrder env t db user body
  | .request r => handle env t db r

/-- Serve a sequence of actions one after the other, each with its own `Tick`. -/
def runActions (env : Env) (db : Db) : List (Tick × Action) → Db
  | [] => db
  | (t, a) :: rest => runActions env (act env t db a).2 rest

/-! ## The signature, in the words of the specification -/

/-- The JavaScript `a <= b` on strings: `b` is not before `a` in code-unit
order. -/
def jsStrLe (a b : String) : Prop := jsStrLt b a = false

instance : DecidableRel jsStrLe := fun a b => by
  unfold jsStrLe
  infer_instance

/-- The JavaScript `parts.join(sep)`. -/
def joinWith (sep : String) : List String → String
  | [] => ""
  | [a] => a
  | a :: rest => a ++ sep ++ joinWith sep rest

/-- A parameter object whose values are all strings. -/
def ofStrings (data : List (String × String)) : Fields :=
  data.map fun kv => (kv.1, some kv.2)

/-- The pair written for a key: `key=encodeURIComponent(trimmed value)`, nothing
for a key whose value is the empty string. -/
def paramOf (data : List (String × String)) (key : String) : Option String :=
  match data.lookup key with
  | some v => if v = "" then none else some (key ++ "=" ++ encodeURIComponent (jsTrim v))
  | none => none

/-- The signature as the specification words it: the MD5 digest of the pairs of
the keys in ascending order, joined with `&`, followed by `&passphrase=` and the
encoded trimmed passphrase exactly when the passphrase is not empty. -/
def signatureSpec (md5 : String → String) (data : List (String × String))
    (passphrase : String) : String :=
  let keys := (data.map Prod.fst).insertionSort jsStrLe
  let joined := joinWith "&" (keys.filterMap (paramOf data))
  md5 (if passphrase = "" then joined
       else joined ++ "&passphrase=" ++ encodeURIComponent (jsTrim passphrase))

/-- The parameter string of the code before its last character is removed: every
pair followed by `&`. -/
def trailing : List String → String
  | [] => ""
  | p :: ps => p ++ "&" ++ trailing ps

/-- A parameter set as a form would send it, keys not in order. -/
def params0 : List (String × String) :=
  [("payment_status", "COMPLETE"), ("amount", " 100.00 "), ("custom_str2", ""),
   ("item_name", "Order M7R & co")]

/-- The same parameter set with the keys inserted in another order. -/
def params1 : List (String × String) :=
  [("item_name", "Order M7R & co"), ("custom_str2", ""), ("payment_status", "COMPLETE"),
   ("amount", " 100.00 ")]

/-! ## Store and product handlers -/

/-- The JavaScript `s.toLowerCase()` as far as a slug can tell: the letters `A-Z`
are lowered, the Kelvin sign becomes `k` and the dotted capital I becomes `i`
followed by a combining dot; every other character has a lower case outside
`a-z0-9` and is kept. -/
def toLowerCase (s : String) : String :=
  String.mk (s.toList.flatMap fun c =>
    if c.toNat = 8490 then ['k']
    else if c.toNat = 304 then ['i', Char.ofNat 775]
    else [c.toLower])

/-- A character of the class `[a-z0-9]`. -/
def isSlugChar (c : Char) : Bool := c.isLower || c.isDigit

/-- The scan of `s.replace(/[^a-z0-9]+/g, '-')`: `inRun` tells that the previous
character was outside `[a-z0-9]`, so that its run already gave a dash. -/
def replaceRunsFrom : Bool → List Char → List Char
  | _, [] => []
  | inRun, c :: rest =>
    if isSlugChar c then c :: replaceRunsFrom false rest
    else if inRun then replaceRunsFrom true rest
    else '-' :: replaceRunsFrom true rest

/-- The JavaScript `s.replace(/[^a-z0-9]+/g, '-')` on a list of characters: every
maximal run of other characters becomes one dash. -/
def replaceRuns (l : List Char) : List Char := replaceRunsFrom false l

/-- The JavaScript `s.replace(/(^-|-$)+/g, '')` on a list of characters without
two dashes in a row: one leading and one trailing dash are removed. -/
def stripDashes (l : List Char) : List Char :=
  let l1 := match l with
    | '-' :: rest => rest
    | _ => l
  match l1.reverse with
  | '-' :: rest => rest.reverse
  | _ => l1

/-- The slug derived from a store name. -/
def slugify (name : String) : String :=
  String.mk (stripDashes (replaceRuns (toLowerCase name).toList))

/-- The slug derived from a page name (dashes at the ends are kept). -/
def pageSlugOf (name : String) : String :=
  String.mk (replaceRuns (toLowerCase name).toList)

/-- The required fields of a store (`storeSchema`): `name`, `slug` and
`owner`. -/
def validateStore (s : Store) : Bool :=
  s.name != "" && s.slug != "" && s.owner != ""

/-- Modelled from the spec: a store has a unique slug. The schema declares
`unique: true` on `slug`, and the database, which enforces the index, rejects
the write of a store whose slug another stored store carries. -/
def duplicateSlug (stores : List Store) (s : Store) : Bool :=
  stores.any fun p => p._id != s._id && p.slug == s.slug

/-- The call `store.save()`: the schema validation, which Mongoose runs before
the pre-save hooks (the required fields, and the rest of the schema as
`Env.validStore`), then the hooks (`updatedAt`, and the slug generated from the
name when the name was modified and the slug is empty), then the write, which
the unique index on `slug` may reject. -/
def saveStore (env : Env) (t : Tick) (stores : List Store) (nameModified : Bool)
    (s : Store) : Option (Store × List Store) :=
  if validateStore s && env.validStore s then
    let s1 : Store := { s with updatedAt := t.now }
    let s2 : Store :=
      if nameModified && s1.slug == "" then { s1 with slug := slugify s1.name } else s1
    if duplicateSlug stores s2 then none
    else some (s2, upsert Store._id stores s2)
  else none

/-- The object `settings` sent with a store update. -/
structure SettingsPatch where
  currency : Option String := none
  shipping : Option ShippingSettings := none
  taxes : Option TaxSettings := none
deriving DecidableEq, Repr

/-- The body of a store update, with the fields of the model. -/
structure StoreUpdateBody where
  name : Option String := none
  description : Option String := none
  settings : Option SettingsPatch := none
deriving DecidableEq, Repr

/-- The loop over `updateFields` of the store update, for the fields sent as
strings; the name goes through the `trim` setter of the schema. -/
def applyStoreFields (store : Store) (body : StoreUpdateBody) : Store :=
  let s1 : Store :=
    match body.name with
    | some n => { store with name := jsTrim n }
    | none => store
  match body.description with
  | some d => { s1 with description := some d }
  | none => s1

/-- The handler of `PUT /api/stores/:id` for the authenticated user `userId`. The
slug is compared with the name after the fields were assigned. A `settings`
object of the body is assigned as `{ ...store.settings, ...req.body.settings }`:
the spread of the nested path of the document copies its internals, not its
fields, and `save` rejects the result. -/
def updateStore (env : Env) (t : Tick) (db : Db) (userId id : ObjectId)
    (body : StoreUpdateBody) : Response × Db :=
  match findById Store._id db.stores id with
  | none => (⟨404, .message "Store not found"⟩, db)
  | some store =>
    if store.owner ≠ userId then (⟨403, .message "Not authorized to update this store"⟩, db)
    else
      let store1 := applyStoreFields store body
      let store2 : Store :=
        if strOr body.name "" ≠ "" ∧ body.name ≠ some store1.name then
          let newSlug := slugify (strOr body.name "")
          match db.stores.find? (fun s => s.slug == newSlug && s._id != store1._id) with
          | none => { store1 with slug := newSlug }
          | some _ => store1
        else store1
      let saved :=
        if body.settings.isSome then none
        else saveStore env t db.stores (store2.name != store.name) store2
      match saved with
      | none => (⟨500, .message "Server error"⟩, db)
      | some (saved, stores) =>
        (⟨200, .store "Store updated successfully" saved⟩, { db with stores := stores })

/-- The call `Model.findByIdAndDelete`: the first document with this `_id` is
removed. -/
def findByIdAndDelete {α : Type} (key : α → ObjectId) : List α → ObjectId → List α
  | [], _ => []
  | d :: rest, id => if key d == id then rest else d :: findByIdAndDelete key rest id

/-- The handler of `DELETE /api/stores/:id` for the authenticated user
`userId`. -/
def deleteStore (db : Db) (userId id : ObjectId) : Response × Db :=
  match findById Store._id db.stores id with
  | none => (⟨404, .message "Store not found"⟩, db)
  | some store =>
    if store.owner ≠ userId then (⟨403, .message "Not authorized to delete this store"⟩, db)
    else
      (⟨200, .message "Store deleted successfully"⟩,
        { db with
          users := (findByIdAndUpdate User._id db.users userId fun u =>
            { u with stores := u.stores.filter fun s => s != store._id })
          stores := (findByIdAndDelete Store._id db.stores id) })

/-- The body of a page-save request. -/
structure PageBody where
  name : Option String := none
  slug : Option String := none
  content : Option String := none
  isHomePage : Bool := false
deriving DecidableEq, Repr

/-- The assignment `pages[i] = page` at the first index whose page carries the
slug. -/
def replaceFirst (pageSlug : String) (page : Page) : List Page → List Page
  | [] => []
  | p :: rest =>
    if p.slug == some pageSlug then page :: rest else p :: replaceFirst pageSlug page rest

/-- The page list after a page was saved under `pageSlug`. When a page carries
the slug, the object `{ ...page, name, content, isHomePage, isPublished }` is
written in its place: the spread of the stored page, a Mongoose subdocument,
copies none of its fields, so the page written has no slug. Otherwise a new page
with the slug is pushed. -/
def putPage (pages : List Page) (pageSlug : String) (body : PageBody) : List Page :=
  if pages.any (fun p => p.slug == some pageSlug) then
    replaceFirst pageSlug
      { name := body.name, slug := none, content := body.content,
        isHomePage := body.isHomePage, isPublished := true } pages
  else
    pages ++ [{ name := body.name, slug := some pageSlug, content := body.content,
                isHomePage := body.isHomePage, isPublished := true }]

/-- The slug a page-save request names: `slug || name.toLowerCase().replace(...)`;
without slug and without name the computation throws (`none`). -/
def pageSlugFor (body : PageBody) : Option String :=
  if strOr body.slug "" ≠ "" then body.slug else body.name.map pageSlugOf

/-- The handler of `POST /api/stores/:id/pages` for the authenticated user
`userId`. -/
def savePage (env : Env) (t : Tick) (db : Db) (userId id : ObjectId) (body : PageBody) :
    Response × Db :=
  match findById Store._id db.stores id with
  | none => (⟨404, .message "Store not found"⟩, db)
  | some store =>
    if store.owner ≠ userId then (⟨403, .message "Not authorized to edit this store"⟩, db)
    else
      let pages1 :=
        if body.isHomePage then store.pages.map fun p => { p with isHomePage := false }
        else store.pages
      match pageSlugFor body with
      | none => (⟨500, .message "Server error"⟩, db)
      | some pageSlug =>
        let store1 : Store := { store with pages := putPage pages1 pageSlug body }
        match saveStore env t db.stores false store1 with
        | none => (⟨500, .message "Server error"⟩, db)
        | some (saved, stores) =>
          (⟨200, .page "Page saved successfully"
                  (saved.pages.find? fun p => p.slug == some pageSlug)⟩,
            { db with stores := stores })

/-- The body of a product update, with the fields of the model. -/
structure ProductUpdateBody where
  name : Option String := none
  description : Option String := none
  price : Option Price := none
  isActive : Option Bool := none
  isFeatured : Option Bool := none
deriving DecidableEq, Repr

/-- The call `product.save()`: schema validation, then the hook that stamps
`updatedAt`, then the write. -/
def saveProduct (env : Env) (t : Tick) (products : List Product) (p : Product) :
    Option (Product × List Product) :=
  if env.validProduct p then
    let p1 : Product := { p with updatedAt := t.now }
    some (p1, upsert Product._id products p1)
  else none

/-- The loop over `updateFields` of the product update; the name goes through
the `trim` setter of the schema. -/
def applyProductFields (product : Product) (body : ProductUpdateBody) : Product :=
  { product with
    name := (body.name.map jsTrim).getD product.name
    description := body.description.getD product.description
    price := body.price.getD product.price
    isActive := body.isActive.getD product.isActive
    isFeatured := body.isFeatured.getD product.isFeatured }

/-- The handler of `PUT /api/products/:id` for the authenticated user
`userId`. -/
def updateProduct (env : Env) (t : Tick) (db : Db) (userId id : ObjectId)
    (body : ProductUpdateBody) : Response × Db :=
  match findById Product._id db.products id with
  | none => (⟨404, .message "Product not found"⟩, db)
  | some product =>
    if product.creator ≠ userId then
      (⟨403, .message "Not authorized to update this product"⟩, db)
    else
      match saveProduct env t db.products (applyProductFields product body) with
      | none => (⟨500, .message "Server error"⟩, db)
      | some (saved, products) =>
        (⟨200, .product "Product updated successfully" saved⟩,
          { db with products := products })

/-- The handler of `DELETE /api/products/:id` for the authenticated user
`userId`. -/
def deleteProduct (db : Db) (userId id : ObjectId) : Response × Db :=
  match findById Product._id db.products id with
  | none => (⟨404, .message "Product not found"⟩, db)
  | some product =>
    if product.creator ≠ userId then
      (⟨403, .message "Not authorized to delete this product"⟩, db)
    else
      (⟨200, .message "Product deleted successfully"⟩,
        { db with
          stores := (findByIdAndUpdate Store._id db.stores product.store fun s =>
            { s with products := s.products.filter fun p => p != product._id })
          products := (findByIdAndDelete Product._id db.products id) })

/-! ## Home pages, product creation, users as JSON, order read, payout -/

/-- The pages of a list that are marked as the home page. -/
def homePages (pages : List Page) : List Page := pages.filter fun p => p.isHomePage

/-- The store "Acme" with the slug derived from its name. -/
def acmeCo : Store := { acme with slug := "acme" }

/-- The sample database in which the store "Acme" carries its slug. -/
def dbCo : Db := { db0 with stores := [acmeCo] }

/-- A store update that only renames the store. -/
def renameBody : StoreUpdateBody := { name := some "Acme Two" }

/-- The store "Acme" with an "about" page marked as the home page. -/
def acmePages : Store :=
  { acmeCo with pages := [{ name := some "About", slug := some "about", isHomePage := true,
                            isPublished := true },
                          { name := some "Shop", slug := some "shop", isPublished := true }] }

/-- The sample database in which the store "Acme" has two pages. -/
def dbPages : Db := { db0 with stores := [acmePages] }

/-- A page-save request that makes the existing page "shop" the home page. -/
def shopHome : PageBody := { name := some "Shop", slug := some "shop", isHomePage := true }

/-- A page-save request that makes a new page "News" the home page. -/
def newsHome : PageBody :=
  { name := some "News", content := some "<h1>News</h1>", isHomePage := true }

/-- The field `price` of a product request: a JSON number, or an object with an
optional currency and amount. -/
inductive PriceReq
  | /-- A number, such as `99.99`. -/
    number (n : Num)
  | /-- An object `{ currency, amount }`. -/
    object (currency : Option String) (amount : Option Num)
deriving DecidableEq, Repr

/-- The body of a product-creation request, with the fields the handler tests
and `stock`, which it does not read. -/
structure CreateProductBody where
  name : Option String := none
  description : Option String := none
  category : Option String := none
  type : Option String := none
  price : Option PriceReq := none
  storeId : Option String := none
  stock : Option Num := none
deriving DecidableEq, Repr

/-- The JavaScript `!price` on the price of a request: absent, or the number
0. -/
def priceMissing : Option PriceReq → Bool
  | none => true
  | some (.number n) => n == 0
  | some (.object _ _) => false

/-- The nested path `price` of a new product: a number cannot be set on the
nested path and an object needs its required `amount`, else `save` rejects the
document (`none`). -/
def priceOf : PriceReq → Option Price
  | .number _ => none
  | .object currency amount =>
    amount.map fun a => { currency := currency.getD "ZAR", amount := a }

/-- The handler of `POST /api/products` for the authenticated user `userId`. -/
def createProduct (env : Env) (t : Tick) (db : Db) (userId : ObjectId)
    (body : CreateProductBody) : Response × Db :=
  if strOr body.name "" = "" ∨ strOr body.description "" = "" ∨
      strOr body.category "" = "" ∨ strOr body.type "" = "" ∨
      priceMissing body.price = true ∨ strOr body.storeId "" = "" then
    (⟨400, .message "Please provide all required fields"⟩, db)
  else
    match findById Store._id db.stores (strOr body.storeId "") with
    | none => (⟨404, .message "Store not found"⟩, db)
    | some store =>
      if store.owner ≠ userId then
        (⟨403, .message "Not authorized to add products to this store"⟩, db)
      else
        match body.price.bind priceOf with
        | none => (⟨500, .message "Server error"⟩, db)
        | some price =>
          let product : Product :=
            { _id := t.newId
              name := jsTrim (strOr body.name "")
              description := strOr body.description ""
              category := strOr body.category ""
              type := strOr body.type ""
              price := price
              store := strOr body.storeId ""
              creator := userId }
          match saveProduct env t db.products product with
          | none => (⟨500, .message "Server error"⟩, db)
          | some (saved, products) =>
            let store1 : Store := { store with products := store.products ++ [saved._id] }
            match saveStore env t db.stores false store1 with
            | none => (⟨500, .message "Server error"⟩, { db with products := products })
            | some (_, stores) =>
              (⟨201, .product "Product created successfully" saved⟩,
                { db with products := products, stores := stores })

/-- The body the test "should create a new product with valid data" sends. -/
def testProductBody : CreateProductBody :=
  { name := some "Test Product"
    description := some "A test product description"
    price := some (.number (9999 / 100))
    category := some "Electronics"
    stock := some 10 }

/-- The body the test "should not create product with missing required fields"
sends. -/
def testMissingBody : CreateProductBody :=
  { description := some "A test product description"
    price := some (.number (9999 / 100)) }

/-- A complete product request for the store "Acme". -/
def gadgetBody : CreateProductBody :=
  { name := some "Gadget"
    description := some "A gadget"
    category := some "physical"
    type := some "physical"
    price := some (.object none (some 20))
    storeId := some "s1" }

/-- A value of a field of the plain object of a user. -/
inductive Value
  | /-- A string. -/
    str (s : String)
  | /-- A boolean. -/
    bool (b : Bool)
  | /-- A date. -/
    date (d : Date)
  | /-- A list of document ids. -/
    ids (l : List ObjectId)
  | /-- The sub-object `affiliate`. -/
    affiliate (a : UserAffiliate)
deriving DecidableEq, Repr

/-- The entry of an optional field: absent when the field is not set. -/
def optField (key : String) (v : Option Value) : List (String × Value) :=
  match v with
  | some x => [(key, x)]
  | none => []

/-- The call `this.toObject()` on a user: the plain object of the fields that are
set. -/
def toObject (u : User) : List (String × Value) :=
  [("_id", .str u._id), ("username", .str u.username), ("email", .str u.email),
   ("password", .str u.password), ("stores", .ids u.stores),
   ("affiliate", .affiliate u.affiliate), ("isEmailVerified", .bool u.isEmailVerified)] ++
  optField "emailVerificationToken" (u.emailVerificationToken.map .str) ++
  optField "passwordResetToken" (u.passwordResetToken.map .str) ++
  optField "passwordResetExpires" (u.passwordResetExpires.map .date) ++
  optField "lastLogin" (u.lastLogin.map .date) ++
  [("createdAt", .date u.createdAt), ("updatedAt", .date u.updatedAt)]

/-- The statement `delete obj[key]`. -/
def deleteKey (key : String) (obj : List (String × Value)) : List (String × Value) :=
  obj.filter fun kv => kv.1 != key

/-- The method `userSchema.methods.toJSON`. -/
def toJSON (u : User) : List (String × Value) :=
  deleteKey "passwordResetExpires"
    (deleteKey "passwordResetToken"
      (deleteKey "emailVerificationToken"
        (deleteKey "password" (toObject u))))

/-- The four keys that hold credentials. -/
def secretKeys : List String :=
  ["password", "emailVerificationToken", "passwordResetToken", "passwordResetExpires"]

/-- A user with a password hash and pending tokens. -/
def ann : User :=
  { _id := "u7", username := "ann", email := "ann@b.c", password := "$2a$12$hash",
    emailVerificationToken := some "evt", passwordResetToken := some "prt",
    passwordResetExpires := some 1700003600000 }

/-- The selection of `populate('store', fields)` on a store. -/
def selectStore (fields : List String) (s : Store) : StoreView :=
  { _id := s._id
    name := if fields.contains "name" then some s.name else none
    slug := if fields.contains "slug" then some s.slug else none
    owner := if fields.contains "owner" then some s.owner else none }

/-- The handler of `GET /api/orders/:id` for the authenticated user `userId`. The
store is populated with `name slug logo contact`; a missing store makes the
ownership test throw. The population of the products of the lines is left out:
it changes neither the test nor the status. -/
def getOrder (db : Db) (userId id : ObjectId) : Response :=
  match findById Order._id db.orders id with
  | none => ⟨404, .message "Order not found"⟩
  | some order =>
    match (findById Store._id db.stores order.store).map
        (selectStore ["name", "slug", "logo", "contact"]) with
    | none => ⟨500, .message "Server error"⟩
    | some store =>
      let isOrderOwner : Bool := order.customer.user == some userId
      let isStoreOwner : Bool := store.owner == some userId
      if !isOrderOwner && !isStoreOwner then
        ⟨403, .message "Not authorized to view this order"⟩
      else ⟨200, .orderView order store⟩

/-- The sample database in which the stored order `o1` belongs to the signed-in
user `u3`. -/
def dbOwned : Db :=
  { db0 with orders := [{ order1 with customer := { order1.customer with user := some "u3" } }] }

/-- The call `user.save()`: schema validation, then the hook that stamps
`updatedAt` (the password was not modified), then the write. -/
def saveUser (env : Env) (t : Tick) (users : List User) (u : User) :
    Option (User × List User) :=
  if env.validUser u then
    let u1 : User := { u with updatedAt := t.now }
    some (u1, upsert User._id users u1)
  else none

/-- The body of a payout request, with a numeric amount. -/
structure PayoutBody where
  amount : Option Num := none
  paymentMethod : Option String := none
deriving DecidableEq, Repr

/-- The handler of `POST /api/affiliates/request-payout` for the authenticated
user `userId`; reading the affiliate block of a missing user throws. -/
def requestPayout (env : Env) (t : Tick) (db : Db) (userId : ObjectId)
    (body : PayoutBody) : Response × Db :=
  match findById User._id db.users userId with
  | none => (⟨500, .message "Server error"⟩, db)
  | some user =>
    if user.affiliate.isAffiliate = false then
      (⟨403, .message "Affiliate program not enabled"⟩, db)
    else
      let amount := numOr body.amount 0
      if amount = 0 ∨ amount ≤ 0 then (⟨400, .message "Invalid payout amount"⟩, db)
      else if amount > user.affiliate.pendingPayouts then
        (⟨400, .message "Requested amount exceeds available balance"⟩, db)
      else if amount < 100 then (⟨400, .message "Minimum payout amount is R100"⟩, db)
      else
        let user1 : User :=
          { user with affiliate := { user.affiliate with
              pendingPayouts := user.affiliate.pendingPayouts - amount } }
        match saveUser env t db.users user1 with
        | none => (⟨500, .message "Server error"⟩, db)
        | some (_, users) =>
          (⟨200, .payout "Payout request submitted successfully" amount body.paymentMethod
                  "pending" "3-5 business days"⟩,
            { db with users := users })

/-- The affiliate `u2` with 500 earned and 250 pending. -/
def referrerPaid : User :=
  { referrer0 with affiliate := { referrer0.affiliate with
      totalEarnings := 500, pendingPayouts := 250 } }

/-- The sample database in which the affiliate has a balance. -/
def dbBalance : Db := { db0 with users := [owner0, referrerPaid] }

/-! ## Listings, reports and affiliate pages -/

/-- The handler of `GET /api/orders`: the page of the orders of the user. No step
of the model makes it throw. -/
def getOrders (_db : Db) (_userId : ObjectId) : Response :=
  ⟨200, .json ["orders", "totalPages", "currentPage", "total"]⟩

/-- The guard "Verify store ownership" of the store listings: the store must
exist and belong to the user; a malformed id makes the lookup throw. `none` lets
the request through. -/
def storeGuard (db : Db) (userId : ObjectId) (storeId : String) : Option Response :=
  if isObjectId storeId then
    match findById Store._id db.stores storeId with
    | none => some ⟨403, .message "Not authorized"⟩
    | some store =>
      if store.owner ≠ userId then some ⟨403, .message "Not authorized"⟩ else none
  else some ⟨500, .message "Server error"⟩

/-- The handler of `GET /api/orders/store/:storeId`. -/
def getStoreOrders (db : Db) (userId : ObjectId) (storeId : String) : Response :=
  match storeGuard db userId storeId with
  | some response => response
  | none => ⟨200, .json ["orders", "totalPages", "currentPage", "total", "summary"]⟩

/-- The handler of `GET /api/orders/analytics/overview`; `storeId` is the query
parameter, if it is given. -/
def getOrdersOverview (db : Db) (userId : ObjectId) (storeId : Option String) : Response :=
  if strOr storeId "" = "" then ⟨400, .message "Store ID is required"⟩
  else
    match storeGuard db userId (strOr storeId "") with
    | some response => response
    | none => ⟨200, .json ["overview", "dailyStats", "timeframe"]⟩

/-- The handler of `GET /api/payments/order/:orderId`. -/
def getPaymentOrder (db : Db) (orderId : String) : Response :=
  if isObjectId orderId then
    match findById Order._id db.orders orderId with
    | none => ⟨404, .message "Order not found"⟩
    | some _ => ⟨200, .json ["order"]⟩
  else ⟨500, .message "Server error"⟩

/-- The handler of `GET /api/payments/orders`. No step of the model makes it
throw. -/
def getPaymentOrders (_db : Db) (_userId : ObjectId) : Response :=
  ⟨200, .json ["orders", "totalPages", "currentPage", "total"]⟩

/-- The handler of `GET /api/payments/store/:storeId/orders`. -/
def getPaymentStoreOrders (db : Db) (userId : ObjectId) (storeId : String) : Response :=
  match storeGuard db userId storeId with
  | some response => response
  | none => ⟨200, .json ["orders", "totalPages", "currentPage", "total"]⟩

/-- The method `generateReferralCode` of a user. -/
def generateReferralCode (t : Tick) (u : User) : User :=
  { u with affiliate := { u.affiliate with
      referralCode := some (toLowerCase u.username ++ substr 2 4 t.rand36) } }

/-- The handler of `GET /api/affiliates/dashboard`: it enables the affiliate
program of the user, with a referral code when there is none, before it reports;
reading the affiliate block of a missing user throws. -/
def getDashboard (env : Env) (t : Tick) (db : Db) (userId : ObjectId) : Response × Db :=
  match findById User._id db.users userId with
  | none => (⟨500, .message "Server error"⟩, db)
  | some user =>
    if user.affiliate.isAffiliate then (⟨200, .json ["affiliate"]⟩, db)
    else
      let user1 : User := { user with affiliate := { user.affiliate with isAffiliate := true } }
      let user2 : User :=
        if strOr user1.affiliate.referralCode "" = "" then generateReferralCode t user1
        else user1
      match saveUser env t db.users user2 with
      | none => (⟨500, .message "Server error"⟩, db)
      | some (_, users) => (⟨200, .json ["affiliate"]⟩, { db with users := users })

/-- The guard of the affiliate pages: the user must have the affiliate program
enabled; reading the affiliate block of a missing user throws. `none` lets the
request through. -/
def affiliateGuard (db : Db) (userId : ObjectId) : Option Response :=
  match findById User._id db.users userId with
  | none => some ⟨500, .message "Server error"⟩
  | some user =>
    if user.affiliate.isAffiliate = false then
      some ⟨403, .message "Affiliate program not enabled"⟩
    else none

/-- The handler of `GET /api/affiliates/referrals`. -/
def getReferrals (db : Db) (userId : ObjectId) : Response :=
  match affiliateGuard db userId with
  | some response => response
  | none => ⟨200, .json ["referrals", "totalPages", "currentPage", "total"]⟩

/-- The handler of `GET /api/affiliates/commissions`. No step of the model makes
it throw. -/
def getCommissions (_db : Db) (_userId : ObjectId) : Response :=
  ⟨200, .json ["commissions", "totalPages", "currentPage", "total", "summary"]⟩

/-- The handler of `POST /api/affiliates/generate-link`. -/
def generateLink (db : Db) (userId : ObjectId) : Response :=
  match affiliateGuard db userId with
  | some response => response
  | none => ⟨200, .json ["link", "qrCode"]⟩

/-- The handler of `GET /api/affiliates/analytics`. -/
def getAffiliateAnalytics (db : Db) (userId : ObjectId) : Response :=
  match affiliateGuard db userId with
  | some response => response
  | none => ⟨200, .json ["timeframe", "referralAnalytics", "commissionAnalytics", "summary"]⟩

/-- A response body that is a JSON object with a `message` string. -/
def hasMessage : Body → Bool
  | .text _ => false
  | .message _ => true
  | .created _ _ _ _ _ _ => true
  | .order _ _ _ => true
  | .store _ _ => true
  | .product _ _ => true
  | .page _ _ => true
  | .orderView _ _ => false
  | .payout _ _ _ _ _ => true
  | .json keys => keys.contains "message"

/-- A request to one of the handlers of `orders.js`, `payments.js` and
`affiliates.js` other than the payment notification. -/
inductive ApiCall
  | /-- The route `GET /api/orders`. -/
    getOrders (userId : ObjectId)
  | /-- The route `GET /api/orders/:id`. -/
    getOrder (userId id : ObjectId)
  | /-- The route `GET /api/orders/store/:storeId`. -/
    getStoreOrders (userId : ObjectId) (storeId : String)
  | /-- The route `PUT /api/orders/:id/status`. -/
    orderStatus (userId id : ObjectId) (body : StatusBody)
  | /-- The route `POST /api/orders/:id/refund`. -/
    refund (userId id : ObjectId) (body : RefundBody)
  | /-- The route `GET /api/orders/analytics/overview`. -/
    getOrdersOverview (userId : ObjectId) (storeId : Option String)
  | /-- The route `POST /api/payments/create-order`. -/
    createOrder (user : Option ObjectId) (body : CreateOrderBody)
  | /-- The route `GET /api/payments/order/:orderId`. -/
    getPaymentOrder (orderId : String)
  | /-- The route `GET /api/payments/orders`. -/
    getPaymentOrders (userId : ObjectId)
  | /-- The route `GET /api/payments/store/:storeId/orders`. -/
    getPaymentStoreOrders (userId : ObjectId) (storeId : String)
  | /-- The route `PUT /api/payments/order/:orderId/status`. -/
    paymentOrderStatus (userId id : ObjectId) (body : StatusBody)
  | /-- The route `GET /api/affiliates/dashboard`. -/
    getDashboard (userId : ObjectId)
  | /-- The route `GET /api/affiliates/referrals`. -/
    getReferrals (userId : ObjectId)
  | /-- The route `GET /api/affiliates/commissions`. -/
    getCommissions (userId : ObjectId)
  | /-- The route `POST /api/affiliates/generate-link`. -/
    generateLink (userId : ObjectId)
  | /-- The route `POST /api/affiliates/request-payout`. -/
    requestPayout (userId : ObjectId) (body : PayoutBody)
  | /-- The route `GET /api/affiliates/analytics`. -/
    getAffiliateAnalytics (userId : ObjectId)
deriving DecidableEq, Repr

/-- The response to a call. -/
def respond (env : Env) (t : Tick) (db : Db) : ApiCall → Response
  | .getOrders userId => getOrders db userId
  | .getOrder userId id => getOrder db userId id
  | .getStoreOrders userId storeId => getStoreOrders db userId storeId
  | .orderStatus userId id body => (updateOrderStatus env t db userId id body).1
  | .refund userId id body => (refundOrder env t db userId id body).1
  | .getOrdersOverview userId storeId => getOrdersOverview db userId storeId
  | .createOrder user body => (createOrder env t db user body).1
  | .getPaymentOrder orderId => getPaymentOrder db orderId
  | .getPaymentOrders userId => getPaymentOrders db userId
  | .getPaymentStoreOrders userId storeId => getPaymentStoreOrders db userId storeId
  | .paymentOrderStatus userId id body => (updatePaymentOrderStatus env t db userId id body).1
  | .getDashboard userId => (getDashboard env t db userId).1
  | .getReferrals userId => getReferrals db userId
  | .getCommissions userId => getCommissions db userId
  | .generateLink userId => generateLink db userId
  | .requestPayout userId body => (requestPayout env t db userId body).1
  | .getAffiliateAnalytics userId => getAffiliateAnalytics db userId

/-! ## Sample data with well-formed ids -/

/-- The user who owns the shops of `dbHex`. -/
def ownerHex : User :=
  { _id := "650b00000000000000000001", username := "owner", email := "owner@m7r.test",
    password := "$2a$12$ownerhash" }

/-- An affiliate with the referral code `ref1234`. -/
def referrerHex : User :=
  { _id := "650b00000000000000000002", username := "ref", email := "ref@m7r.test",
    password := "$2a$12$refhash",
    affiliate := { isAffiliate := true, referralCode := some "ref1234" } }

/-- The store "Acme": no shipping rate, taxes disabled. -/
def acmeHex : Store :=
  { _id := "650a00000000000000000001", name := "Acme", owner := "650b00000000000000000001",
    slug := "acme" }

/-- The store "Bolt": shipping enabled with a first rate of 60, taxes enabled at
15 percent and not included in the prices. -/
def boltHex : Store :=
  { _id := "650a00000000000000000002", name := "Bolt", owner := "650b00000000000000000001",
    slug := "bolt", settings := bolt.settings }

/-- The product "Widget" of the store "Acme", priced 50.00. -/
def widgetHex : Product :=
  { _id := "650c00000000000000000001", name := "Widget", price := { amount := 50 },
    store := "650a00000000000000000001", creator := "650b00000000000000000001",
    description := "A widget", category := "physical", type := "physical" }

/-- A product of the store "Acme" that is no longer active. -/
def retiredHex : Product :=
  { widgetHex with _id := "650c00000000000000000002", name := "Retired", isActive := false }

/-- A database without orders, with two stores, two products and two users. -/
def dbHex : Db :=
  { orders := []
    products := [widgetHex, retiredHex]
    stores := [acmeHex, boltHex]
    users := [ownerHex, referrerHex] }

/-- The inputs of a request that builds the document `650d…01`. -/
def tHex : Tick :=
  { now := 1700000123456, rand36 := "0.4fzyo82mvyr", newId := "650d00000000000000000001" }

/-- A guest order for 2 × Widget in the store "Acme", paid through PayFast. -/
def reqAcme : CreateOrderBody :=
  { items := [{ productId := "650c00000000000000000001", quantity := 2 }]
    customer := some customer0
    paymentMethod := "payfast"
    storeId := "650a00000000000000000001" }

/-- The same order with the referral code of the affiliate. -/
def reqReferred : CreateOrderBody := { reqAcme with referralCode := some "ref1234" }

/-- The same order with a referral code that no user holds. -/
def reqUnknownCode : CreateOrderBody := { reqAcme with referralCode := some "nobody" }

/-- An order for 2 × Widget in the store "Bolt". -/
def reqBolt : CreateOrderBody :=
  { reqAcme with paymentMethod := "manual", storeId := "650a00000000000000000002" }

/-- An order for 3 × Widget in the store "Bolt". -/
def reqBoltThree : CreateOrderBody :=
  { reqBolt with items := [{ productId := "650c00000000000000000001", quantity := 3 }] }

/-- An order for 2 × Widget and 1 × Widget in the store "Acme". -/
def reqTwoLines : CreateOrderBody :=
  { reqAcme with items := [{ productId := "650c00000000000000000001", quantity := 2 },
                           { productId := "650c00000000000000000001", quantity := 1 }] }

/-- An order whose second line names a product that does not exist. -/
def reqMissing : CreateOrderBody :=
  { reqAcme with items := [{ productId := "650c00000000000000000001", quantity := 2 },
                           { productId := "650c00000000000000000009", quantity := 1 }] }

/-- The same order, naming a store that does not exist. -/
def reqMissingStore : CreateOrderBody :=
  { reqMissing with storeId := "650a00000000000000000009" }

/-- An order whose first line carries an id that is no `ObjectId` and whose second
line names the inactive product. -/
def reqMalformed : CreateOrderBody :=
  { reqAcme with items := [{ productId := "p1", quantity := 2 },
                           { productId := "650c00000000000000000002", quantity := 1 }] }

/-- The document the handler builds for `reqAcme`. -/
def draftAcme : Order :=
  { _id := "650d00000000000000000001"
    customer := { email := some "a@b.c", firstName := some "Ann", lastName := some "Bee" }
    items := [{ product := "650c00000000000000000001", name := "Widget", price := 50,
                quantity := 2, subtotal := 100 }]
    pricing := { subtotal := 100, total := 100 }
    payment := { method := "payfast" }
    store := "650a00000000000000000001"
    createdAt := 1700000123456
    updatedAt := 1700000123456 }

/-- A new order document that carries its own order number. -/
def orderNew : Order := { order1 with _id := "o2", orderNumber := "M7R-200000-8KQ2" }

/-- A new order document that carries the order number of `o1`. -/
def orderDup : Order := { order1 with _id := "o2" }

/-! ## Lemmas on the totals hook -/

theorem reduceItems_snd (items : List OrderItem) (total : Num) :
    (reduceItems items total).2 =
      items.map (fun i => { i with subtotal := i.price * i.quantity }) := by
  induction items generalizing total with
  | nil => rfl
  | cons item rest ih => simp [reduceItems, ih]

theorem reduceItems_fst (items : List OrderItem) (total : Num) :
    (reduceItems items total).1 =
      total + (items.map (fun i => i.price * i.quantity)).sum := by
  induction items generalizing total with
  | nil => simp [reduceItems]
  | cons item rest ih => simp [reduceItems, ih, add_assoc]

theorem calculateTotals_items (o : Order) :
    (calculateTotals o).items =
      o.items.map (fun i => { i with subtotal := i.price * i.quantity }) := by
  simp [calculateTotals, reduceItems_snd]

theorem calculateTotals_subtotal (o : Order) :
    (calculateTotals o).pricing.subtotal =
      (o.items.map (fun i => i.price * i.quantity)).sum := by
  simp [calculateTotals, reduceItems_fst]

theorem calculateTotals_idem (o : Order) :
    calculateTotals (calculateTotals o) = calculateTotals o := by
  have h1 : (reduceItems (reduceItems o.items 0).2 0).2 = (reduceItems o.items 0).2 := by
    rw [reduceItems_snd, reduceItems_snd, List.map_map]
    apply List.map_congr_left
    intro i _
    rfl
  have h2 : (reduceItems (reduceItems o.items 0).2 0).1 = (reduceItems o.items 0).1 := by
    rw [reduceItems_fst, reduceItems_fst, reduceItems_snd, List.map_map]
    rfl
  simp only [calculateTotals, h1, h2]

/-! ## Lemmas on collections -/

theorem findById_key {α : Type} (key : α → ObjectId) (c : List α) (id : ObjectId) (d : α)
    (h : findById key c id = some d) : key d = id := by
  have := List.find?_some h
  simpa using this

theorem findById_upsert {α : Type} (key : α → ObjectId) (c : List α) (d : α) (j : ObjectId) :
    findById key (upsert key c d) j = if j = key d then some d else findById key c j := by
  induction c with
  | nil =>
    by_cases h : j = key d
    · simp [upsert, findById, h]
    · have h2 : ¬ key d = j := fun e => h e.symm
      simp [upsert, findById, h, h2]
  | cons e rest ih =>
    unfold findById at ih ⊢
    by_cases he : key e = key d
    · by_cases h : j = key d
      · simp [upsert, he, h]
      · have h2 : ¬ key d = j := fun e => h e.symm
        simp [upsert, he, h, h2]
    · by_cases hj : key e = j
      · have h : ¬ j = key d := fun e2 => he (hj.trans e2)
        simp [upsert, he, hj, h]
      · simp [upsert, he, hj, ih]

theorem findById_findByIdAndUpdate {α : Type} (key : α → ObjectId) (f : α → α)
    (hf : ∀ d, key (f d) = key d) (c : List α) (id j : ObjectId) :
    findById key (findByIdAndUpdate key c id f) j =
      if j = id then (findById key c id).map f else findById key c j := by
  induction c with
  | nil => simp [findByIdAndUpdate, findById]
  | cons e rest ih =>
    unfold findById at ih ⊢
    by_cases he : key e = id
    · by_cases h : j = id
      · simp [findByIdAndUpdate, he, h, hf]
      · have h2 : ¬ id = j := fun e => h e.symm
        simp [findByIdAndUpdate, he, h, h2, hf]
    · by_cases hj : key e = j
      · have h : ¬ j = id := fun e2 => he (hj.trans e2)
        simp [findByIdAndUpdate, he, hj, h]
      · simp [findByIdAndUpdate, he, hj, ih]

/-! ## Lemmas on saving -/

theorem hooks_id (t : Tick) (o : Order) :
    (calculateTotals (generateOrderNumber t o))._id = o._id := by
  unfold calculateTotals generateOrderNumber
  split <;> rfl

theorem hooks_payment (t : Tick) (o : Order) :
    (calculateTotals (generateOrderNumber t o)).payment = o.payment := by
  unfold calculateTotals generateOrderNumber
  split <;> rfl

theorem hooks_status (t : Tick) (o : Order) :
    (calculateTotals (generateOrderNumber t o)).status = o.status := by
  unfold calculateTotals generateOrderNumber
  split <;> rfl

theorem hooks_store (t : Tick) (o : Order) :
    (calculateTotals (generateOrderNumber t o)).store = o.store := by
  unfold calculateTotals generateOrderNumber
  split <;> rfl

theorem hooks_affiliate (t : Tick) (o : Order) :
    (calculateTotals (generateOrderNumber t o)).affiliate = o.affiliate := by
  unfold calculateTotals generateOrderNumber
  split <;> rfl

theorem hooks_notes (t : Tick) (o : Order) :
    (calculateTotals (generateOrderNumber t o)).notes = o.notes := by
  unfold calculateTotals generateOrderNumber
  split <;> rfl

theorem hooks_items (t : Tick) (o : Order) :
    (calculateTotals (generateOrderNumber t o)).items =
      o.items.map (fun i => { i with subtotal := i.price * i.quantity }) := by
  rw [calculateTotals_items]
  unfold generateOrderNumber
  split <;> rfl

theorem hooks_pricing (t : Tick) (o : Order) :
    (calculateTotals (generateOrderNumber t o)).pricing =
      { o.pricing with
        subtotal := (o.items.map (fun i => i.price * i.quantity)).sum
        total := (o.items.map (fun i => i.price * i.quantity)).sum + o.pricing.shipping +
          o.pricing.tax - o.pricing.discount } := by
  have h1 : (generateOrderNumber t o).items = o.items := by
    unfold generateOrderNumber
    split <;> rfl
  have h2 : (generateOrderNumber t o).pricing = o.pricing := by
    unfold generateOrderNumber
    split <;> rfl
  simp only [calculateTotals, reduceItems_fst, h1, h2, zero_add]

theorem saveOrder_some (env : Env) (t : Tick) (orders : List Order) (o saved : Order)
    (orders1 : List Order) (h : saveOrder env t orders o = some (saved, orders1)) :
    saved = calculateTotals (generateOrderNumber t o) ∧
      orders1 = upsert Order._id orders saved := by
  unfold saveOrder at h
  split at h
  · simp only at h
    split at h
    · exact absurd h (by simp)
    · simp only [Option.some.injEq, Prod.mk.injEq] at h
      obtain ⟨h1, h2⟩ := h
      subst h1
      exact ⟨rfl, h2.symm⟩
  · exact absurd h (by simp)

theorem saveOrder_find (env : Env) (t : Tick) (orders : List Order) (o saved : Order)
    (orders1 : List Order) (h : saveOrder env t orders o = some (saved, orders1))
    (j : ObjectId) :
    findById Order._id orders1 j = if j = o._id then some saved else findById Order._id orders j := by
  obtain ⟨h1, h2⟩ := saveOrder_some env t orders o saved orders1 h
  rw [h2, findById_upsert, h1, hooks_id]

theorem rederive_consistent (lines : List OrderItem)
    (h : ∀ l ∈ lines, l.subtotal = l.price * l.quantity) :
    lines.map (fun i => ({ i with subtotal := i.price * i.quantity } : OrderItem)) = lines ∧
      (lines.map fun i => i.price * i.quantity) = lines.map fun i => i.subtotal := by
  induction lines with
  | nil => exact ⟨rfl, rfl⟩
  | cons a as ih =>
    have ha := h a (List.mem_cons_self _ _)
    obtain ⟨h1, h2⟩ := ih fun l hl => h l (List.mem_cons_of_mem _ hl)
    refine ⟨?_, ?_⟩
    · simp only [List.map_cons, h1, ← ha]
    · simp only [List.map_cons, h2, ha]

/-! ## Lemmas on the payment notification -/

theorem incProduct_id (item : OrderItem) (p : Product) : (incProduct item p)._id = p._id := rfl

theorem incStore_id (order : Order) (s : Store) : (incStore order s)._id = s._id := rfl

theorem incUser_id (amount : Num) (u : User) : (incUser amount u)._id = u._id := rfl

theorem updateProductSales_find (items : List OrderItem) (products : List Product)
    (pid : ObjectId) :
    findById Product._id (updateProductSales products items) pid =
      (findById Product._id products pid).map fun p =>
        { p with sales := p.sales + soldQuantity items pid,
                 revenue := p.revenue + soldRevenue items pid } := by
  induction items generalizing products with
  | nil =>
    cases h : findById Product._id products pid with
    | none => simp [updateProductSales, h]
    | some p => simp [updateProductSales, h, soldQuantity, soldRevenue]
  | cons i rest ih =>
    have hstep : updateProductSales products (i :: rest) =
        updateProductSales (findByIdAndUpdate Product._id products i.product (incProduct i))
          rest := rfl
    rw [hstep, ih, findById_findByIdAndUpdate Product._id (incProduct i) (incProduct_id i)]
    by_cases hp : pid = i.product
    · subst hp
      cases h : findById Product._id products i.product with
      | none => simp
      | some p =>
        simp [soldQuantity, soldRevenue, incProduct, add_assoc]
    · have hp2 : ¬ i.product = pid := fun e => hp e.symm
      cases h : findById Product._id products pid with
      | none => simp [hp, h]
      | some p => simp [hp, hp2, h, soldQuantity, soldRevenue]

/-- The outcome of the handler on a correctly signed `COMPLETE` notification
for a stored order. -/
theorem payfastNotify_complete (env : Env) (t : Tick) (db : Db) (data : Fields)
    (sig : String) (order : Order)
    (hcalc : generatePayFastSignature env.md5 (data.filter fun kv => kv.1 != "signature")
      env.passphrase = some sig)
    (hsig : (data.lookup "signature").join = some sig)
    (hid : (data.lookup "custom_str1").join.bind (findById Order._id db.orders) = some order)
    (hst : (data.lookup "payment_status").join = some "COMPLETE") :
    (payfastNotify env t db data).2.products = updateProductSales db.products order.items ∧
    (payfastNotify env t db data).2.stores =
      findByIdAndUpdate Store._id db.stores order.store (incStore order) ∧
    (payfastNotify env t db data).2.users = creditAffiliate db.users order ∧
    ((payfastNotify env t db data).1.status = 200 →
      ∃ saved, saveOrder env t db.orders (markCompleted t data order) =
        some (saved, (payfastNotify env t db data).2.orders)) ∧
    ((payfastNotify env t db data).1.status ≠ 200 →
      (payfastNotify env t db data).2.orders = db.orders) := by
  unfold payfastNotify
  simp only [hcalc, hsig, hid, hst, ne_eq, not_true_eq_false, if_false, if_true]
  cases hsave : saveOrder env t db.orders (markCompleted t data order) with
  | none => simp
  | some r =>
    obtain ⟨saved, orders⟩ := r
    simp

/-- The outcome of the handler on a correctly signed notification for a stored
order that does not report `COMPLETE`. -/
theorem payfastNotify_failed (env : Env) (t : Tick) (db : Db) (data : Fields)
    (sig : String) (order : Order)
    (hcalc : generatePayFastSignature env.md5 (data.filter fun kv => kv.1 != "signature")
      env.passphrase = some sig)
    (hsig : (data.lookup "signature").join = some sig)
    (hid : (data.lookup "custom_str1").join.bind (findById Order._id db.orders) = some order)
    (hst : (data.lookup "payment_status").join ≠ some "COMPLETE") :
    (payfastNotify env t db data).2.products = db.products ∧
    (payfastNotify env t db data).2.stores = db.stores ∧
    (payfastNotify env t db data).2.users = db.users ∧
    ((payfastNotify env t db data).1.status = 200 →
      ∃ saved, saveOrder env t db.orders (markFailed order) =
        some (saved, (payfastNotify env t db data).2.orders)) ∧
    ((payfastNotify env t db data).1.status ≠ 200 →
      (payfastNotify env t db data).2.orders = db.orders) := by
  unfold payfastNotify
  simp only [hcalc, hsig, hid, hst, ne_eq, not_true_eq_false, if_false]
  cases hsave : saveOrder env t db.orders (markFailed order) with
  | none => simp
  | some r =>
    obtain ⟨saved, orders⟩ := r
    simp

theorem bind_findById_key (c : List Order) (x : Option ObjectId) (order : Order)
    (h : x.bind (findById Order._id c) = some order) :
    x = some order._id ∧ findById Order._id c order._id = some order := by
  cases x with
  | none => exact absurd h (by simp)
  | some id =>
    simp only [Option.some_bind] at h
    have hk := findById_key Order._id c id order h
    rw [← hk] at h
    exact ⟨by rw [hk], h⟩

/-- What a correctly signed `COMPLETE` notification for a stored order does to
the products, the store, the referrer and, when the save is accepted, to the
order. -/
theorem payfastNotify_complete_effects (env : Env) (t : Tick) (db : Db) (data : Fields)
    (sig : String) (order : Order)
    (hcalc : generatePayFastSignature env.md5 (data.filter fun kv => kv.1 != "signature")
      env.passphrase = some sig)
    (hsig : (data.lookup "signature").join = some sig)
    (hid : (data.lookup "custom_str1").join.bind (findById Order._id db.orders) = some order)
    (hst : (data.lookup "payment_status").join = some "COMPLETE") :
    (∀ pid p, findById Product._id db.products pid = some p →
      findById Product._id (payfastNotify env t db data).2.products pid =
        some { p with sales := p.sales + soldQuantity order.items pid,
                      revenue := p.revenue + soldRevenue order.items pid }) ∧
    (∀ s, findById Store._id db.stores order.store = some s →
      findById Store._id (payfastNotify env t db data).2.stores order.store =
        some (incStore order s)) ∧
    (∀ a u, order.affiliate = some a → findById User._id db.users a.referrer = some u →
      findById User._id (payfastNotify env t db data).2.users a.referrer =
        some (incUser a.commission.amount u)) ∧
    ((payfastNotify env t db data).1.status = 200 →
      findById Order._id (payfastNotify env t db data).2.orders order._id =
        some (calculateTotals (generateOrderNumber t (markCompleted t data order)))) := by
  obtain ⟨hp, hs, hu, ho, _⟩ := payfastNotify_complete env t db data sig order hcalc hsig hid hst
  refine ⟨?_, ?_, ?_, ?_⟩
  · intro pid p hfind
    rw [hp, updateProductSales_find, hfind]
    rfl
  · intro s hfind
    rw [hs, findById_findByIdAndUpdate Store._id (incStore order) (incStore_id order), hfind]
    simp
  · intro a u ha hfind
    rw [hu]
    unfold creditAffiliate
    rw [ha]
    simp only
    rw [findById_findByIdAndUpdate User._id (incUser a.commission.amount)
      (incUser_id a.commission.amount), hfind]
    simp
  · intro hok
    obtain ⟨saved, hsave⟩ := ho hok
    have h1 := (saveOrder_some env t db.orders _ saved _ hsave).1
    have h2 := saveOrder_find env t db.orders _ saved _ hsave order._id
    rw [h2, ← h1]
    simp [markCompleted]

theorem soldQuantity_single (items : List OrderItem) (item : OrderItem)
    (h : (items.filter fun i => i.product == item.product) = [item]) :
    soldQuantity items item.product = item.quantity ∧
      soldRevenue items item.product = item.subtotal := by
  simp [soldQuantity, soldRevenue, h]

theorem rederive_sold (items : List OrderItem) (pid : ObjectId) :
    soldQuantity (items.map fun i => ({ i with subtotal := i.price * i.quantity } : OrderItem))
      pid = soldQuantity items pid := by
  induction items with
  | nil => rfl
  | cons a as ih =>
    unfold soldQuantity at ih ⊢
    by_cases h : a.product = pid
    · simp [List.filter_cons, h]
      simpa using ih
    · simp [List.filter_cons, h]
      simpa using ih

/-! ## Lemmas on `payment.status` along requests -/

theorem paymentStatus_orders (db db1 : Db) (h : db1.orders = db.orders) (id : ObjectId) :
    paymentStatus db1 id = paymentStatus db id := by
  unfold paymentStatus
  rw [h]

theorem paymentStatus_save (env : Env) (t : Tick) (orders orders1 : List Order) (order o saved : Order)
    (products : List Product) (stores : List Store) (users : List User) (db : Db)
    (hdb : db.orders = orders)
    (hsave : saveOrder env t orders o = some (saved, orders1))
    (hid : o._id = order._id) (id : ObjectId) (s : String)
    (hs : paymentStatus db id = some s) :
    paymentStatus { orders := orders1, products := products, stores := stores, users := users }
      id = some (if id = order._id then o.payment.status else s) := by
  unfold paymentStatus at hs ⊢
  rw [hdb] at hs
  have h1 := (saveOrder_some env t orders o saved orders1 hsave).1
  simp only [saveOrder_find env t orders o saved orders1 hsave id, hid]
  by_cases hc : id = order._id
  · simp only [hc, if_true, Option.map_some', h1, hooks_payment]
  · simp only [hc, if_false, hs]

theorem findById_self (orders : List Order) (id : ObjectId) (order : Order)
    (h : findById Order._id orders id = some order) :
    findById Order._id orders order._id = some order := by
  rw [findById_key Order._id orders id order h]
  exact h

theorem payfastNotify_status (env : Env) (t : Tick) (db : Db) (data : Fields) (id : ObjectId)
    (s : String) (hs : paymentStatus db id = some s) :
    ∃ s1, paymentStatus (payfastNotify env t db data).2 id = some s1 ∧
      (s1 = s ∨ s1 = "completed" ∨ s1 = "failed") := by
  unfold payfastNotify
  simp only
  split
  · exact ⟨s, hs, Or.inl rfl⟩
  · split
    · exact ⟨s, hs, Or.inl rfl⟩
    · split
      · exact ⟨s, hs, Or.inl rfl⟩
      · next order hbind =>
        obtain ⟨_, hfind⟩ := bind_findById_key db.orders _ order hbind
        split
        · split
          · exact ⟨s, hs, Or.inl rfl⟩
          · next saved orders1 hsave =>
            refine ⟨_, paymentStatus_save env t db.orders orders1 order _ saved _ _ _ db rfl
              hsave rfl id s hs, ?_⟩
            by_cases hc : id = order._id
            · simp [hc, markCompleted]
            · simp [hc]
        · split
          · exact ⟨s, hs, Or.inl rfl⟩
          · next saved orders1 hsave =>
            refine ⟨_, paymentStatus_save env t db.orders orders1 order _ saved _ _ _ db rfl
              hsave rfl id s hs, ?_⟩
            by_cases hc : id = order._id
            · simp [hc, markFailed]
            · simp [hc]

theorem updateOrderStatus_status (env : Env) (t : Tick) (db : Db) (userId oid : ObjectId)
    (body : StatusBody) (id : ObjectId) (s : String) (hs : paymentStatus db id = some s) :
    paymentStatus (updateOrderStatus env t db userId oid body).2 id = some s := by
  unfold updateOrderStatus
  split
  · exact hs
  · next order hfind0 =>
    have hfind := findById_self db.orders oid order hfind0
    split
    · exact hs
    · split
      · exact hs
      · split
        · exact hs
        · simp only
          split
          · exact hs
          · next saved orders1 hsave =>
            rw [paymentStatus_save env t db.orders orders1 order _ saved _ _ _ db rfl
              hsave rfl id s hs]
            by_cases hc : id = order._id
            · have h0 : paymentStatus db order._id = some order.payment.status := by
                simp [paymentStatus, hfind]
              rw [hc] at hs
              rw [h0] at hs
              simp only [hc, if_true]
              exact hs
            · simp [hc]

theorem updatePaymentOrderStatus_status (env : Env) (t : Tick) (db : Db)
    (userId oid : ObjectId) (body : StatusBody) (id : ObjectId) (s : String)
    (hs : paymentStatus db id = some s) :
    paymentStatus (updatePaymentOrderStatus env t db userId oid body).2 id = some s := by
  unfold updatePaymentOrderStatus
  split
  · exact hs
  · next order hfind0 =>
    have hfind := findById_self db.orders oid order hfind0
    split
    · exact hs
    · split
      · exact hs
      · split
        · exact hs
        · simp only
          split
          · exact hs
          · next saved orders1 hsave =>
            rw [paymentStatus_save env t db.orders orders1 order _ saved _ _ _ db rfl
              hsave rfl id s hs]
            by_cases hc : id = order._id
            · have h0 : paymentStatus db order._id = some order.payment.status := by
                simp [paymentStatus, hfind]
              rw [hc] at hs
              rw [h0] at hs
              simp only [hc, if_true]
              exact hs
            · simp [hc]

theorem refundOrder_status (env : Env) (t : Tick) (db : Db) (userId oid : ObjectId)
    (body : RefundBody) (id : ObjectId) (s : String) (hs : paymentStatus db id = some s) :
    paymentStatus (refundOrder env t db userId oid body).2 id = some s := by
  unfold refundOrder
  split
  · exact hs
  · next order hfind0 =>
    have hfind := findById_self db.orders oid order hfind0
    split
    · exact hs
    · split
      · exact hs
      · split
        · exact hs
        · split
          · exact hs
          · split
            · exact hs
            · next saved orders1 hsave =>
              rw [paymentStatus_save env t db.orders orders1 order _ saved _ _ _ db rfl
                hsave rfl id s hs]
              by_cases hc : id = order._id
              · have h0 : paymentStatus db order._id = some order.payment.status := by
                  simp [paymentStatus, hfind]
                rw [hc] at hs
                rw [h0] at hs
                simp only [hc, if_true]
                simpa [markRefunded] using hs
              · simp [hc]

/-! ## Lemmas on the refund -/

/-- A refund request that is answered 200 passed every check and saved the
order. -/
theorem refundOrder_ok (env : Env) (t : Tick) (db : Db) (userId id : ObjectId)
    (body : RefundBody) (hok : (refundOrder env t db userId id body).1.status = 200) :
    ∃ order store saved orders1,
      findById Order._id db.orders id = some order ∧
      findById Store._id db.stores order.store = some store ∧
      store.owner = userId ∧
      order.payment.status = "completed" ∧
      refundAmountOf body order ≤ order.pricing.total ∧
      saveOrder env t db.orders (markRefunded t body order) = some (saved, orders1) ∧
      (refundOrder env t db userId id body).2 = { db with orders := orders1 } := by
  unfold refundOrder at hok ⊢
  cases hfind : findById Order._id db.orders id with
  | none => simp [hfind] at hok
  | some order =>
    simp only [hfind] at hok ⊢
    cases hstore : findById Store._id db.stores order.store with
    | none => simp [hstore] at hok
    | some store =>
      simp only [hstore] at hok ⊢
      by_cases howner : store.owner = userId
      · by_cases hstatus : order.payment.status = "completed"
        · by_cases hle : refundAmountOf body order > order.pricing.total
          · simp [howner, hstatus, hle] at hok
          · cases hsave : saveOrder env t db.orders (markRefunded t body order) with
            | none => simp [howner, hstatus, hle, hsave] at hok
            | some r =>
              obtain ⟨saved, orders1⟩ := r
              refine ⟨order, store, saved, orders1, rfl, hstore, howner, hstatus,
                not_lt.1 hle, hsave, ?_⟩
              simp [howner, hstatus, hle, hsave]
        · simp [howner, hstatus] at hok
      · simp [howner] at hok

/-! ## Lemmas on the order number -/

theorem digitChar_isDigit (k : Nat) (h : k < 10) : (Nat.digitChar k).isDigit = true := by
  interval_cases k <;> decide

theorem toDigitsCore_isDigit (fuel n : Nat) (ds : List Char)
    (h : ∀ c ∈ ds, c.isDigit = true) : ∀ c ∈ Nat.toDigitsCore 10 fuel n ds, c.isDigit = true := by
  induction fuel generalizing n ds with
  | zero => simpa [Nat.toDigitsCore] using h
  | succ f ih =>
    have hd : ∀ c ∈ Nat.digitChar (n % 10) :: ds, c.isDigit = true := by
      intro c hc
      rcases List.mem_cons.1 hc with e | e
      · rw [e]
        exact digitChar_isDigit _ (Nat.mod_lt _ (by decide))
      · exact h c e
    unfold Nat.toDigitsCore
    simp only
    split
    · exact hd
    · exact ih _ _ hd

theorem toDigitsCore_length_ge (fuel n : Nat) (ds : List Char) (k : Nat)
    (hk : 10 ^ k ≤ n) (hf : n < fuel) :
    k + 1 + ds.length ≤ (Nat.toDigitsCore 10 fuel n ds).length := by
  induction fuel generalizing n ds k with
  | zero => exact absurd hf (Nat.not_lt_zero _)
  | succ f ih =>
    have hpos : 0 < n := lt_of_lt_of_le (pow_pos (by decide) k) hk
    have hlt : n / 10 < f := by
      have : n / 10 < n := Nat.div_lt_self hpos (by decide)
      omega
    unfold Nat.toDigitsCore
    simp only
    cases k with
    | zero =>
      split
      · simp only [List.length_cons]
        omega
      · next hne =>
        have h1 : 10 ^ 0 ≤ n / 10 := by
          simp only [pow_zero]
          exact Nat.pos_of_ne_zero hne
        have := ih (n / 10) (Nat.digitChar (n % 10) :: ds) 0 h1 hlt
        simp only [List.length_cons] at this
        omega
    | succ k1 =>
      have h1 : 10 ^ k1 ≤ n / 10 := by
        rw [pow_succ] at hk
        exact (Nat.le_div_iff_mul_le (by decide)).2 hk
      have hne : n / 10 ≠ 0 := by
        have : 0 < 10 ^ k1 := pow_pos (by decide) k1
        omega
      simp only [hne, if_false]
      have := ih (n / 10) (Nat.digitChar (n % 10) :: ds) k1 h1 hlt
      simp only [List.length_cons] at this
      omega

theorem toString_nat_toList (n : Nat) : (toString n).toList = Nat.toDigits 10 n := rfl

theorem base36_upper : ∀ c ∈ base36Chars, (c.toUpper.isDigit || c.toUpper.isUpper) = true := by
  decide

theorem format_of_parts (ds us : List Char) (hds : ds.length = 6)
    (hd : ∀ c ∈ ds, c.isDigit = true) (hus : us.length = 4)
    (hu : ∀ c ∈ us, (c.isDigit || c.isUpper) = true) :
    orderNumberFormat (String.mk (['M', '7', 'R', '-'] ++ ds ++ ['-'] ++ us)) = true := by
  match ds, hds with
  | [a, b, c, d, e, f], _ =>
    match us, hus with
    | [w, x, y, z], _ =>
      simp only [List.mem_cons, List.mem_singleton, forall_eq_or_imp, forall_eq,
        List.not_mem_nil, false_implies, implies_true, and_true] at hd hu
      obtain ⟨h1, h2, h3, h4, h5, h6⟩ := hd
      obtain ⟨g1, g2, g3, g4⟩ := hu
      simp [orderNumberFormat, h1, h2, h3, h4, h5, h6, g1, g2, g3, g4]

/-- The generated order number matches the pattern when the timestamp has at
least six digits and the base-36 rendering of the random draw has at least four
digits after the point. -/
theorem generateOrderNumber_format (t : Tick) (o : Order) (d : List Char)
    (ho : o.orderNumber = "") (hnow : 100000 ≤ t.now)
    (hr : t.rand36.toList = '0' :: '.' :: d) (hlen : 4 ≤ d.length)
    (hd : ∀ c ∈ d, c ∈ base36Chars) :
    orderNumberFormat (generateOrderNumber t o).orderNumber = true := by
  have hnum : (generateOrderNumber t o).orderNumber =
      String.mk (['M', '7', 'R', '-'] ++
        (Nat.toDigits 10 t.now).drop ((Nat.toDigits 10 t.now).length - 6) ++ ['-'] ++
        (d.take 4).map Char.toUpper) := by
    unfold generateOrderNumber
    simp only [ho, if_true]
    have h1 : (toString t.now).data = Nat.toDigits 10 t.now := rfl
    have h2 : t.rand36.data = '0' :: '.' :: d := hr
    apply String.ext
    simp [sliceLast, toUpperCase, substr, h1, h2, String.toList, String.length, List.map_take]
  rw [hnum]
  have hlen6 : 6 ≤ (Nat.toDigits 10 t.now).length := by
    have := toDigitsCore_length_ge (t.now + 1) t.now [] 5 (by simpa using hnow) (Nat.lt_succ_self _)
    simpa [Nat.toDigits] using this
  apply format_of_parts
  · simp only [List.length_drop]
    omega
  · intro c hc
    exact toDigitsCore_isDigit (t.now + 1) t.now [] (by simp) c (List.mem_of_mem_drop hc)
  · simp only [List.length_map, List.length_take]
    omega
  · intro c hc
    obtain ⟨x, hx, rfl⟩ := List.mem_map.1 hc
    exact base36_upper x (hd x (List.mem_of_mem_take hx))

/-! ## Lemmas on the orders collection along requests -/

theorem hooks_orderNumber (t : Tick) (o : Order) (h : o.orderNumber ≠ "") :
    (calculateTotals (generateOrderNumber t o)).orderNumber = o.orderNumber := by
  unfold calculateTotals generateOrderNumber
  simp [h]

/-- A notification either leaves the orders alone or saves a modified copy of a
stored order, with the same `_id` and order number. -/
theorem payfastNotify_orders (env : Env) (t : Tick) (db : Db) (data : Fields) :
    (payfastNotify env t db data).2.orders = db.orders ∨
    ∃ order o saved orders1,
      findById Order._id db.orders order._id = some order ∧ o._id = order._id ∧
      o.orderNumber = order.orderNumber ∧
      saveOrder env t db.orders o = some (saved, orders1) ∧
      (payfastNotify env t db data).2.orders = orders1 := by
  unfold payfastNotify
  simp only
  split
  · exact Or.inl rfl
  · split
    · exact Or.inl rfl
    · split
      · exact Or.inl rfl
      · next order hbind =>
        obtain ⟨_, hfind⟩ := bind_findById_key db.orders _ order hbind
        split
        · split
          · exact Or.inl rfl
          · next saved orders1 hsave =>
            refine Or.inr ⟨order, _, saved, orders1, hfind, ?_, ?_, hsave, rfl⟩ <;> rfl
        · split
          · exact Or.inl rfl
          · next saved orders1 hsave =>
            refine Or.inr ⟨order, _, saved, orders1, hfind, ?_, ?_, hsave, rfl⟩ <;> rfl

theorem updateOrderStatus_orders (env : Env) (t : Tick) (db : Db) (userId oid : ObjectId)
    (body : StatusBody) :
    (updateOrderStatus env t db userId oid body).2.orders = db.orders ∨
    ∃ order o saved orders1,
      findById Order._id db.orders order._id = some order ∧ o._id = order._id ∧
      o.orderNumber = order.orderNumber ∧
      saveOrder env t db.orders o = some (saved, orders1) ∧
      (updateOrderStatus env t db userId oid body).2.orders = orders1 := by
  unfold updateOrderStatus
  split
  · exact Or.inl rfl
  · next order hfind0 =>
    have hfind := findById_self db.orders oid order hfind0
    split
    · exact Or.inl rfl
    · split
      · exact Or.inl rfl
      · split
        · exact Or.inl rfl
        · simp only
          split
          · exact Or.inl rfl
          · next saved orders1 hsave =>
            refine Or.inr ⟨order, _, saved, orders1, hfind, ?_, ?_, hsave, rfl⟩ <;> rfl

theorem updatePaymentOrderStatus_orders (env : Env) (t : Tick) (db : Db)
    (userId oid : ObjectId) (body : StatusBody) :
    (updatePaymentOrderStatus env t db userId oid body).2.orders = db.orders ∨
    ∃ order o saved orders1,
      findById Order._id db.orders order._id = some order ∧ o._id = order._id ∧
      o.orderNumber = order.orderNumber ∧
      saveOrder env t db.orders o = some (saved, orders1) ∧
      (updatePaymentOrderStatus env t db userId oid body).2.orders = orders1 := by
  unfold updatePaymentOrderStatus
  split
  · exact Or.inl rfl
  · next order hfind0 =>
    have hfind := findById_self db.orders oid order hfind0
    split
    · exact Or.inl rfl
    · split
      · exact Or.inl rfl
      · split
        · exact Or.inl rfl
        · simp only
          split
          · exact Or.inl rfl
          · next saved orders1 hsave =>
            refine Or.inr ⟨order, _, saved, orders1, hfind, ?_, ?_, hsave, rfl⟩ <;> rfl

theorem refundOrder_orders (env : Env) (t : Tick) (db : Db) (userId oid : ObjectId)
    (body : RefundBody) :
    (refundOrder env t db userId oid body).2.orders = db.orders ∨
    ∃ order o saved orders1,
      findById Order._id db.orders order._id = some order ∧ o._id = order._id ∧
      o.orderNumber = order.orderNumber ∧
      saveOrder env t db.orders o = some (saved, orders1) ∧
      (refundOrder env t db userId oid body).2.orders = orders1 := by
  unfold refundOrder
  split
  · exact Or.inl rfl
  · next order hfind0 =>
    have hfind := findById_self db.orders oid order hfind0
    split
    · exact Or.inl rfl
    · split
      · exact Or.inl rfl
      · split
        · exact Or.inl rfl
        · split
          · exact Or.inl rfl
          · split
            · exact Or.inl rfl
            · next saved orders1 hsave =>
              refine Or.inr ⟨order, _, saved, orders1, hfind, ?_, ?_, hsave, rfl⟩ <;> rfl

/-- Every request on orders either leaves the collection alone or saves a
modified copy of a stored order, with the same `_id` and order number. -/
theorem handle_orders (env : Env) (t : Tick) (db : Db) (r : Request) :
    (handle env t db r).2.orders = db.orders ∨
    ∃ order o saved orders1,
      findById Order._id db.orders order._id = some order ∧ o._id = order._id ∧
      o.orderNumber = order.orderNumber ∧
      saveOrder env t db.orders o = some (saved, orders1) ∧
      (handle env t db r).2.orders = orders1 := by
  cases r with
  | notify data => exact payfastNotify_orders env t db data
  | updateStatus userId oid body => exact updateOrderStatus_orders env t db userId oid body
  | updatePaymentStatus userId oid body =>
    exact updatePaymentOrderStatus_orders env t db userId oid body
  | refund userId oid body => exact refundOrder_orders env t db userId oid body

theorem mem_upsert {α : Type} (key : α → ObjectId) (c : List α) (d x : α)
    (h : x ∈ upsert key c d) : x = d ∨ x ∈ c := by
  induction c with
  | nil =>
    simp only [upsert, List.mem_singleton] at h
    exact Or.inl h
  | cons e rest ih =>
    unfold upsert at h
    split at h
    · rcases List.mem_cons.1 h with e1 | e1
      · exact Or.inl e1
      · exact Or.inr (List.mem_cons_of_mem _ e1)
    · rcases List.mem_cons.1 h with e1 | e1
      · exact Or.inr (e1 ▸ List.mem_cons_self _ _)
      · rcases ih e1 with e2 | e2
        · exact Or.inl e2
        · exact Or.inr (List.mem_cons_of_mem _ e2)

/-- A save that is accepted keeps the order numbers distinct. -/
theorem saveOrder_unique (env : Env) (t : Tick) (orders orders1 : List Order)
    (o saved : Order) (h : uniqueOrderNumbers orders)
    (hsave : saveOrder env t orders o = some (saved, orders1)) :
    uniqueOrderNumbers orders1 := by
  have hcheck : ∀ p ∈ orders, p._id ≠ saved._id → p.orderNumber ≠ saved.orderNumber := by
    intro p hp hid hnum
    unfold saveOrder at hsave
    split at hsave
    · simp only at hsave
      split at hsave
      · exact absurd hsave (by simp)
      · next hany =>
        simp only [Option.some.injEq, Prod.mk.injEq] at hsave
        apply hany
        unfold duplicateOrderNumber
        rw [List.any_eq_true]
        refine ⟨p, hp, ?_⟩
        rw [hsave.1]
        simp [hid, hnum]
    · exact absurd hsave (by simp)
  obtain ⟨_, h2⟩ := saveOrder_some env t orders o saved orders1 hsave
  rw [h2]
  intro a ha b hb hab
  rcases mem_upsert Order._id orders saved a ha with ea | ea
  · rcases mem_upsert Order._id orders saved b hb with eb | eb
    · exact absurd (ea.trans eb.symm ▸ rfl) hab
    · rw [ea] at hab ⊢
      exact fun e => hcheck b eb (fun e2 => hab e2.symm) e.symm
  · rcases mem_upsert Order._id orders saved b hb with eb | eb
    · rw [eb] at hab ⊢
      exact hcheck a ea hab
    · exact h a ea b eb hab

theorem handle_orderNumber (env : Env) (t : Tick) (db : Db) (r : Request) (id : ObjectId)
    (x : Order) (hx : findById Order._id db.orders id = some x) (hne : x.orderNumber ≠ "") :
    ∃ o1, findById Order._id (handle env t db r).2.orders id = some o1 ∧
      o1.orderNumber = x.orderNumber := by
  rcases handle_orders env t db r with h | ⟨order, o, saved, orders1, hfind, hid, hnum, hsave, hres⟩
  · rw [h]
    exact ⟨x, hx, rfl⟩
  · rw [hres, saveOrder_find env t db.orders o saved orders1 hsave id, hid]
    by_cases hc : id = order._id
    · have hxo : x = order := by
        rw [hc, hfind] at hx
        exact (Option.some.inj hx).symm
      refine ⟨saved, by simp [hc], ?_⟩
      rw [(saveOrder_some env t db.orders o saved orders1 hsave).1, hxo]
      rw [hxo] at hne
      rw [hooks_orderNumber t o (hnum ▸ hne), hnum]
    · exact ⟨x, by simp [hc, hx], rfl⟩

theorem run_orderNumber (env : Env) (reqs : List (Tick × Request)) (db : Db) (id : ObjectId)
    (x : Order) (hx : findById Order._id db.orders id = some x) (hne : x.orderNumber ≠ "") :
    ∃ o1, findById Order._id (run env db reqs).orders id = some o1 ∧
      o1.orderNumber = x.orderNumber := by
  induction reqs generalizing db x with
  | nil => exact ⟨x, hx, rfl⟩
  | cons tr rest ih =>
    obtain ⟨t, r⟩ := tr
    obtain ⟨y, hy, hyx⟩ := handle_orderNumber env t db r id x hx hne
    obtain ⟨z, hz, hzy⟩ := ih (handle env t db r).2 y hy (hyx ▸ hne)
    exact ⟨z, hz, hzy.trans hyx⟩

/-! ## Lemmas on the order of keys -/

theorem unitsLt_irrefl (a : List Nat) : unitsLt a a = false := by
  induction a with
  | nil => rfl
  | cons x xs ih => simp [unitsLt, ih]

theorem unitsLt_trans (a b c : List Nat) (h1 : unitsLt a b = true) (h2 : unitsLt b c = true) :
    unitsLt a c = true := by
  induction a generalizing b c with
  | nil =>
    cases b with
    | nil => simp [unitsLt] at h1
    | cons y ys =>
      cases c with
      | nil => simp [unitsLt] at h2
      | cons z zs => simp [unitsLt]
  | cons x xs ih =>
    cases b with
    | nil => simp [unitsLt] at h1
    | cons y ys =>
      cases c with
      | nil => simp [unitsLt] at h2
      | cons z zs =>
        simp only [unitsLt] at h1 h2 ⊢
        by_cases hxy : x < y
        · by_cases hyz : y < z
          · simp [lt_trans hxy hyz]
          · simp only [hyz, if_false] at h2
            by_cases hzy : z < y
            · simp [hzy] at h2
            · have : y = z := by omega
              subst this
              simp [hxy]
        · simp only [hxy, if_false] at h1
          by_cases hyx : y < x
          · simp [hyx] at h1
          · have hxy2 : x = y := by omega
            subst hxy2
            simp only [hyx, if_false] at h1
            by_cases hxz : x < z
            · simp [hxz]
            · simp only [hxz, if_false] at h2 ⊢
              by_cases hzx : z < x
              · simp [hzx] at h2
              · simp only [hzx, if_false] at h2 ⊢
                exact ih ys zs h1 h2

theorem unitsLt_trichotomy (a b : List Nat) :
    unitsLt a b = true ∨ a = b ∨ unitsLt b a = true := by
  induction a generalizing b with
  | nil =>
    cases b with
    | nil => exact Or.inr (Or.inl rfl)
    | cons y ys => exact Or.inl rfl
  | cons x xs ih =>
    cases b with
    | nil => exact Or.inr (Or.inr rfl)
    | cons y ys =>
      simp only [unitsLt]
      by_cases hxy : x < y
      · simp [hxy]
      · by_cases hyx : y < x
        · simp [hyx]
        · have : x = y := by omega
          subst this
          simp only [hxy, if_false, List.cons.injEq, true_and]
          exact ih ys

theorem unitsLt_asymm (a b : List Nat) (h : unitsLt a b = true) : unitsLt b a = false := by
  cases hb : unitsLt b a with
  | false => rfl
  | true =>
    have := unitsLt_trans a b a h hb
    rw [unitsLt_irrefl] at this
    cases this

theorem char_valid (c : Char) : c.toNat < 55296 ∨ (57343 < c.toNat ∧ c.toNat < 1114112) := by
  have := c.valid
  simpa [UInt32.isValidChar, Nat.isValidChar] using this

theorem char_eq_of_toNat (a b : Char) (h : a.toNat = b.toNat) : a = b := by
  apply Char.ext
  exact UInt32.eq_of_val_eq (Fin.ext h)

theorem utf16Units_nil : utf16Units (String.mk []) = [] := rfl

theorem utf16Units_cons (c : Char) (l : List Char) :
    utf16Units (String.mk (c :: l)) =
      (if c.toNat < 65536 then [c.toNat]
        else [55296 + (c.toNat - 65536) / 1024, 56320 + (c.toNat - 65536) % 1024]) ++
        utf16Units (String.mk l) := by
  simp [utf16Units, String.toList]

theorem utf16Units_mk_inj (l1 l2 : List Char)
    (h : utf16Units (String.mk l1) = utf16Units (String.mk l2)) : l1 = l2 := by
  induction l1 generalizing l2 with
  | nil =>
    cases l2 with
    | nil => rfl
    | cons c r =>
      rw [utf16Units_nil, utf16Units_cons] at h
      split at h <;> simp at h
  | cons c1 r1 ih =>
    cases l2 with
    | nil =>
      rw [utf16Units_nil, utf16Units_cons] at h
      split at h <;> simp at h
    | cons c2 r2 =>
      rw [utf16Units_cons, utf16Units_cons] at h
      have v1 := char_valid c1
      have v2 := char_valid c2
      by_cases h1 : c1.toNat < 65536
      · by_cases h2 : c2.toNat < 65536
        · simp only [h1, h2, if_true, List.singleton_append, List.cons.injEq] at h
          rw [char_eq_of_toNat c1 c2 h.1, ih r2 h.2]
        · simp only [h1, h2, if_true, if_false, List.singleton_append, List.cons_append,
            List.nil_append, List.cons.injEq] at h
          omega
      · by_cases h2 : c2.toNat < 65536
        · simp only [h1, h2, if_true, if_false, List.singleton_append, List.cons_append,
            List.nil_append, List.cons.injEq] at h
          omega
        · simp only [h1, h2, if_false, List.cons_append, List.nil_append,
            List.cons.injEq] at h
          obtain ⟨e1, e2, e3⟩ := h
          have : c1.toNat = c2.toNat := by omega
          rw [char_eq_of_toNat c1 c2 this, ih r2 e3]

theorem utf16Units_inj (a b : String) (h : utf16Units a = utf16Units b) : a = b := by
  cases a with
  | mk l1 =>
    cases b with
    | mk l2 => rw [utf16Units_mk_inj l1 l2 h]

theorem jsStrLe_total (a b : String) : jsStrLe a b ∨ jsStrLe b a := by
  unfold jsStrLe jsStrLt
  cases h : unitsLt (utf16Units b) (utf16Units a) with
  | false => exact Or.inl rfl
  | true => exact Or.inr (unitsLt_asymm _ _ h)

theorem jsStrLe_trans (a b c : String) (h1 : jsStrLe a b) (h2 : jsStrLe b c) :
    jsStrLe a c := by
  unfold jsStrLe jsStrLt at h1 h2 ⊢
  cases h : unitsLt (utf16Units c) (utf16Units a) with
  | false => rfl
  | true =>
    rcases unitsLt_trichotomy (utf16Units a) (utf16Units b) with e | e | e
    · rw [unitsLt_trans _ _ _ h e] at h2
      cases h2
    · rw [← e, h] at h2
      cases h2
    · rw [e] at h1
      cases h1

theorem jsStrLe_antisymm (a b : String) (h1 : jsStrLe a b) (h2 : jsStrLe b a) : a = b := by
  unfold jsStrLe jsStrLt at h1 h2
  rcases unitsLt_trichotomy (utf16Units a) (utf16Units b) with e | e | e
  · rw [e] at h2
    cases h2
  · exact utf16Units_inj a b e
  · rw [e] at h1
    cases h1

theorem insertKey_perm (k : String) (l : List String) : (insertKey k l).Perm (k :: l) := by
  induction l with
  | nil => exact List.Perm.refl _
  | cons x xs ih =>
    unfold insertKey
    split
    · exact List.Perm.refl _
    · exact (List.Perm.cons x ih).trans (List.Perm.swap k x xs)

theorem insertKey_sorted (k : String) (l : List String) (h : l.Sorted jsStrLe) :
    (insertKey k l).Sorted jsStrLe := by
  induction l with
  | nil => simp [insertKey]
  | cons x xs ih =>
    have hx := List.rel_of_sorted_cons h
    have hxs := List.Sorted.of_cons h
    unfold insertKey
    split
    · next hlt =>
      have hkx : jsStrLe k x := unitsLt_asymm _ _ hlt
      refine List.sorted_cons.2 ⟨?_, h⟩
      intro y hy
      rcases List.mem_cons.1 hy with e | e
      · rw [e]
        exact hkx
      · exact jsStrLe_trans k x y hkx (hx y e)
    · next hlt =>
      have hxk : jsStrLe x k := by simpa [jsStrLe] using hlt
      refine List.sorted_cons.2 ⟨?_, ih hxs⟩
      intro y hy
      rcases List.mem_cons.1 ((insertKey_perm k xs).subset hy) with e | e
      · rw [e]
        exact hxk
      · exact hx y e

theorem foldl_insertKey (keys acc : List String) (h : acc.Sorted jsStrLe) :
    (keys.foldl (fun a k => insertKey k a) acc).Sorted jsStrLe ∧
      (keys.foldl (fun a k => insertKey k a) acc).Perm (keys ++ acc) := by
  induction keys generalizing acc with
  | nil => exact ⟨h, List.Perm.refl _⟩
  | cons k rest ih =>
    obtain ⟨h1, h2⟩ := ih (insertKey k acc) (insertKey_sorted k acc h)
    refine ⟨h1, h2.trans ?_⟩
    have : (rest ++ insertKey k acc).Perm (rest ++ k :: acc) :=
      List.Perm.append_left rest (insertKey_perm k acc)
    exact this.trans (List.perm_middle)

/-- The keys as the code sorts them are the keys in ascending order. -/
theorem sortKeys_eq (keys : List String) : sortKeys keys = keys.insertionSort jsStrLe := by
  haveI : IsTotal String jsStrLe := ⟨jsStrLe_total⟩
  haveI : IsTrans String jsStrLe := ⟨jsStrLe_trans⟩
  haveI : IsAntisymm String jsStrLe := ⟨jsStrLe_antisymm⟩
  obtain ⟨h1, h2⟩ := foldl_insertKey keys [] List.sorted_nil
  rw [List.append_nil] at h2
  exact List.eq_of_perm_of_sorted (h2.trans (List.perm_insertionSort jsStrLe keys).symm) h1
    (List.sorted_insertionSort jsStrLe keys)

/-- Sorting does not depend on the order in which the keys come. -/
theorem sortKeys_perm (k1 k2 : List String) (h : k1.Perm k2) : sortKeys k1 = sortKeys k2 := by
  haveI : IsTotal String jsStrLe := ⟨jsStrLe_total⟩
  haveI : IsTrans String jsStrLe := ⟨jsStrLe_trans⟩
  haveI : IsAntisymm String jsStrLe := ⟨jsStrLe_antisymm⟩
  rw [sortKeys_eq, sortKeys_eq]
  exact List.eq_of_perm_of_sorted
    (((List.perm_insertionSort jsStrLe k1).trans h).trans
      (List.perm_insertionSort jsStrLe k2).symm)
    (List.sorted_insertionSort jsStrLe k1) (List.sorted_insertionSort jsStrLe k2)

/-! ## Lemmas on the signature -/

theorem lookup_ofStrings (data : List (String × String)) (k : String) :
    (ofStrings data).lookup k = (data.lookup k).map some := by
  induction data with
  | nil => rfl
  | cons kv rest ih =>
    obtain ⟨k1, v1⟩ := kv
    unfold ofStrings at ih ⊢
    simp only [List.map_cons, List.lookup_cons]
    cases hk : k == k1 with
    | true => rfl
    | false => exact ih

theorem lookup_of_mem_keys (data : List (String × String)) (k : String)
    (h : k ∈ data.map Prod.fst) : ∃ v, data.lookup k = some v := by
  induction data with
  | nil => cases h
  | cons kv rest ih =>
    obtain ⟨k1, v1⟩ := kv
    simp only [List.lookup_cons]
    cases hk : k == k1 with
    | true => exact ⟨v1, rfl⟩
    | false =>
      simp only [List.map_cons, List.mem_cons] at h
      rcases h with e | e
      · rw [e] at hk
        simp at hk
      · exact ih e

theorem foldl_appendParam (data : List (String × String)) (keys : List String)
    (h : ∀ k ∈ keys, ∃ v, data.lookup k = some v) (acc : String) :
    keys.foldl (appendParam (ofStrings data)) (some acc) =
      some (acc ++ trailing (keys.filterMap (paramOf data))) := by
  induction keys generalizing acc with
  | nil => simp [trailing]
  | cons k rest ih =>
    obtain ⟨v, hv⟩ := h k (List.mem_cons_self _ _)
    have hrest : ∀ x ∈ rest, ∃ v, data.lookup x = some v :=
      fun x hx => h x (List.mem_cons_of_mem _ hx)
    simp only [List.foldl_cons]
    by_cases he : v = ""
    · have h1 : appendParam (ofStrings data) (some acc) k = some acc := by
        simp [appendParam, lookup_ofStrings, hv, he]
      have h2 : paramOf data k = none := by simp [paramOf, hv, he]
      rw [h1, ih hrest, List.filterMap_cons, h2]
    · have h1 : appendParam (ofStrings data) (some acc) k =
          some (acc ++ k ++ "=" ++ encodeURIComponent (jsTrim v) ++ "&") := by
        simp [appendParam, lookup_ofStrings, hv, he]
      have h2 : paramOf data k = some (k ++ "=" ++ encodeURIComponent (jsTrim v)) := by
        simp [paramOf, hv, he]
      rw [h1, ih hrest, List.filterMap_cons, h2]
      simp only [trailing, String.append_assoc]

theorem trailing_ne (p : String) (ps : List String) : (trailing (p :: ps)).data ≠ [] := by
  simp [trailing, String.data_append]

theorem dropLast_trailing (parts : List String) :
    String.mk (trailing parts).toList.dropLast = joinWith "&" parts := by
  induction parts with
  | nil => rfl
  | cons p ps ih =>
    cases ps with
    | nil =>
      apply String.ext
      simp [trailing, joinWith, String.toList, String.data_append]
    | cons q qs =>
      have hne := trailing_ne q qs
      have hsplit : (trailing (p :: q :: qs)).toList =
          (p.data ++ "&".data) ++ (trailing (q :: qs)).data := by
        show (p ++ "&" ++ trailing (q :: qs)).data = _
        simp [String.data_append]
      rw [hsplit, List.dropLast_append_of_ne_nil _ hne]
      have hj : joinWith "&" (p :: q :: qs) = p ++ "&" ++ joinWith "&" (q :: qs) := rfl
      rw [hj, ← ih]
      apply String.ext
      simp [String.data_append, String.toList]

theorem lookup_iff_mem (l : List (String × String)) (hn : (l.map Prod.fst).Nodup)
    (k v : String) : l.lookup k = some v ↔ (k, v) ∈ l := by
  induction l with
  | nil => simp
  | cons kv rest ih =>
    obtain ⟨k1, v1⟩ := kv
    simp only [List.map_cons, List.nodup_cons] at hn
    simp only [List.lookup_cons, List.mem_cons, Prod.mk.injEq]
    by_cases hk : k = k1
    · subst hk
      simp only [beq_self_eq_true, Option.some.injEq, true_and]
      constructor
      · intro e
        exact Or.inl e.symm
      · intro e
        rcases e with e | e
        · exact e.symm
        · exact absurd (List.mem_map.2 ⟨(k, v), e, rfl⟩) hn.1
    · have hb : (k == k1) = false := by simpa using hk
      simp only [hb, hk, false_and, false_or]
      exact ih hn.2

theorem lookup_perm (l1 l2 : List (String × String)) (hp : l1.Perm l2)
    (hn : (l1.map Prod.fst).Nodup) (k : String) : l1.lookup k = l2.lookup k := by
  have hn2 : (l2.map Prod.fst).Nodup := (hp.map Prod.fst).nodup_iff.1 hn
  apply Option.ext
  intro v
  simp only [Option.mem_def]
  rw [lookup_iff_mem l1 hn, lookup_iff_mem l2 hn2]
  exact hp.mem_iff

/-- The code computes the signature that the specification words. -/
theorem generatePayFastSignature_spec (md5 : String → String) (data : List (String × String))
    (passphrase : String) :
    generatePayFastSignature md5 (ofStrings data) passphrase =
      some (signatureSpec md5 data passphrase) := by
  have hkeys : (ofStrings data).map Prod.fst = data.map Prod.fst := by
    simp [ofStrings, List.map_map, Function.comp_def]
  have hpresent : ∀ k ∈ sortKeys (data.map Prod.fst), ∃ v, data.lookup k = some v := by
    intro k hk
    have hperm := (foldl_insertKey (data.map Prod.fst) [] List.sorted_nil).2
    rw [List.append_nil] at hperm
    exact lookup_of_mem_keys data k (hperm.subset hk)
  have hfold := foldl_appendParam data _ hpresent ""
  rw [String.empty_append, sortKeys_eq] at hfold
  unfold generatePayFastSignature signatureSpec
  simp only [hkeys, sortKeys_eq, hfold, dropLast_trailing]

/-! ## Lemmas on the signature round trip -/

theorem lookup_append_fresh (data : Fields) (k : String) (v : Option String)
    (h : ∀ kv ∈ data, kv.1 ≠ k) : (data ++ [(k, v)]).lookup k = some v := by
  induction data with
  | nil => simp [List.lookup]
  | cons a rest ih =>
    obtain ⟨ka, va⟩ := a
    have hne : ka ≠ k := h (ka, va) (List.mem_cons_self _ _)
    have hne2 : (k == ka) = false := by
      simpa using fun e : k = ka => hne e.symm
    simp only [List.cons_append, List.lookup, hne2]
    exact ih fun kv hkv => h kv (List.mem_cons_of_mem _ hkv)

theorem filter_append_fresh (data : Fields) (k : String) (v : Option String)
    (h : ∀ kv ∈ data, kv.1 ≠ k) :
    (data ++ [(k, v)]).filter (fun kv => kv.1 != k) = data := by
  rw [List.filter_append]
  have h1 : data.filter (fun kv => kv.1 != k) = data := by
    apply List.filter_eq_self.2
    intro kv hkv
    simpa using h kv hkv
  simp [h1]

theorem payfastNotify_verified (env : Env) (t : Tick) (db : Db) (data : Fields)
    (h : (data.lookup "signature").join =
      generatePayFastSignature env.md5 (data.filter fun kv => kv.1 != "signature")
        env.passphrase) :
    (payfastNotify env t db data).1.status ≠ 400 ∧
      (payfastNotify env t db data).1.body ≠ .text "Invalid signature" := by
  unfold payfastNotify
  simp only
  split
  · exact ⟨by simp, by simp⟩
  · next calc1 hcalc =>
    split
    · next hne =>
      exact absurd (h.trans hcalc) hne
    · split
      · exact ⟨by simp, by simp⟩
      · split
        · split
          · exact ⟨by simp, by simp⟩
          · exact ⟨by simp, by simp⟩
        · split
          · exact ⟨by simp, by simp⟩
          · exact ⟨by simp, by simp⟩

/-! ## Lemmas on the home page -/

theorem homePages_unset (pages : List Page) :
    homePages (pages.map fun p => { p with isHomePage := false }) = [] := by
  induction pages with
  | nil => rfl
  | cons a rest ih =>
    unfold homePages at ih ⊢
    simp only [List.map_cons, List.filter_cons, Bool.false_eq_true, if_false]
    exact ih

theorem homePages_replaceFirst_le (s : String) (page : Page) (pages : List Page)
    (hp : page.isHomePage = false) :
    (homePages (replaceFirst s page pages)).length ≤ (homePages pages).length := by
  induction pages with
  | nil => simp [replaceFirst]
  | cons a rest ih =>
    unfold homePages at ih ⊢
    unfold replaceFirst
    by_cases hk : (a.slug == some s) = true
    · simp only [hk, if_true, List.filter_cons, hp, Bool.false_eq_true, if_false]
      by_cases ha : a.isHomePage = true
      · simp only [ha, if_true, List.length_cons]
        omega
      · simp only [ha, Bool.false_eq_true, if_false]
        exact le_refl _
    · simp only [hk, Bool.false_eq_true, if_false, List.filter_cons]
      by_cases ha : a.isHomePage = true
      · simp only [ha, if_true, List.length_cons]
        omega
      · simp only [ha, Bool.false_eq_true, if_false]
        exact ih

theorem homePages_replaceFirst_one (s : String) (page : Page) (pages : List Page)
    (hnone : homePages pages = []) (hp : page.isHomePage = true)
    (hany : pages.any (fun p => p.slug == some s) = true) :
    homePages (replaceFirst s page pages) = [page] := by
  induction pages with
  | nil => simp at hany
  | cons a rest ih =>
    unfold homePages at hnone ih ⊢
    have ha : a.isHomePage = false := by
      by_cases h : a.isHomePage = true
      · simp [List.filter_cons, h] at hnone
      · simpa using h
    have hrest : List.filter (fun p => p.isHomePage) rest = [] := by
      simpa [List.filter_cons, ha] using hnone
    unfold replaceFirst
    by_cases hk : (a.slug == some s) = true
    · simp only [hk, if_true, List.filter_cons, hp, hrest]
    · have hany2 : rest.any (fun p => p.slug == some s) = true := by
        simpa [List.any_cons, hk] using hany
      simp only [hk, Bool.false_eq_true, if_false, List.filter_cons, ha]
      exact ih hrest hany2

theorem putPage_not_home (pages : List Page) (s : String) (body : PageBody)
    (h : body.isHomePage = false) :
    (homePages (putPage pages s body)).length ≤ (homePages pages).length := by
  unfold putPage
  split
  · exact homePages_replaceFirst_le s _ pages h
  · unfold homePages
    simp [List.filter_append, List.filter_cons, h]

theorem putPage_home (pages : List Page) (s : String) (body : PageBody)
    (h : body.isHomePage = true) (hnone : homePages pages = []) :
    (pages.any (fun p => p.slug == some s) = true →
      homePages (putPage pages s body) =
        [{ name := body.name, slug := none, content := body.content, isHomePage := true,
           isPublished := true }]) ∧
    (pages.any (fun p => p.slug == some s) = false →
      homePages (putPage pages s body) =
        [{ name := body.name, slug := some s, content := body.content, isHomePage := true,
           isPublished := true }] ∧
      (putPage pages s body).find? (fun p => p.slug == some s) =
        some { name := body.name, slug := some s, content := body.content, isHomePage := true,
               isPublished := true }) := by
  refine ⟨fun hany => ?_, fun hany => ?_⟩
  · unfold putPage
    rw [if_pos hany, h]
    exact homePages_replaceFirst_one s _ pages hnone rfl hany
  · unfold putPage
    have hany2 : ¬ pages.any (fun p => p.slug == some s) = true := by simp [hany]
    rw [if_neg hany2, h]
    refine ⟨?_, ?_⟩
    · unfold homePages at hnone ⊢
      simp [List.filter_append, List.filter_cons, hnone]
    · have hno : ∀ p ∈ pages, ¬ (p.slug == some s) = true := by
        intro p hp hps
        exact hany2 (List.any_eq_true.2 ⟨p, hp, hps⟩)
      rw [List.find?_append, List.find?_eq_none.2 hno]
      simp

theorem any_slug_unset (pages : List Page) (s : String) :
    (pages.map fun p => ({ p with isHomePage := false } : Page)).any
        (fun p => p.slug == some s) =
      pages.any fun p => p.slug == some s := by
  induction pages with
  | nil => rfl
  | cons a rest ih => simp [List.any_cons, ih]

theorem saveStore_plain (env : Env) (t : Tick) (stores : List Store) (s saved : Store)
    (stores1 : List Store) (h : saveStore env t stores false s = some (saved, stores1)) :
    saved = { s with updatedAt := t.now } ∧ stores1 = upsert Store._id stores saved := by
  unfold saveStore at h
  split at h
  · simp only [Bool.false_and, Bool.false_eq_true, if_false] at h
    split at h
    · exact absurd h (by simp)
    · simp only [Option.some.injEq, Prod.mk.injEq] at h
      obtain ⟨h1, h2⟩ := h
      subst h1
      exact ⟨rfl, h2.symm⟩
  · exact absurd h (by simp)

/-! ## Lemmas on the JSON form of a user -/

theorem toJSON_eq_filter (u : User) :
    toJSON u = (toObject u).filter fun kv => !secretKeys.contains kv.1 := by
  unfold toJSON deleteKey
  simp only [List.filter_filter]
  apply List.filter_congr
  intro kv _
  simp only [secretKeys, List.contains_cons, List.contains_nil, Bool.or_false]
  cases h1 : kv.1 == "password" <;> cases h2 : kv.1 == "emailVerificationToken" <;>
    cases h3 : kv.1 == "passwordResetToken" <;>
    cases h4 : kv.1 == "passwordResetExpires" <;> simp [bne, h1, h2, h3, h4]

theorem lookup_filter_key (obj : List (String × Value)) (p : String → Bool) (k : String)
    (hk : p k = true) : (obj.filter fun kv => p kv.1).lookup k = obj.lookup k := by
  induction obj with
  | nil => rfl
  | cons a rest ih =>
    obtain ⟨ka, va⟩ := a
    by_cases hka : k = ka
    · subst hka
      simp [List.filter_cons, hk, List.lookup]
    · have hne : (k == ka) = false := by simpa using hka
      by_cases hp : p ka = true
      · simp [List.filter_cons, hp, List.lookup, hne, ih]
      · simp [List.filter_cons, hp, List.lookup, hne, ih]

theorem filter_optField_secret (key : String) (v : Option Value)
    (h : secretKeys.contains key = true) :
    (optField key v).filter (fun kv => !secretKeys.contains kv.1) = [] := by
  cases v with
  | none => rfl
  | some x =>
    have hm : key ∈ secretKeys := by simpa using h
    simp [optField, List.filter_cons, hm]

/-! ## Lemmas on the payout request and on error bodies -/

theorem numOr_zero_some (x : Option Num) (h : numOr x 0 ≠ 0) : x = some (numOr x 0) := by
  cases x with
  | none => exact absurd rfl h
  | some v =>
    by_cases hv : v = 0
    · exact absurd (by simp [numOr, hv]) h
    · simp [numOr, hv]

theorem saveUser_some (env : Env) (t : Tick) (users : List User) (u saved : User)
    (users1 : List User) (h : saveUser env t users u = some (saved, users1)) :
    saved = { u with updatedAt := t.now } ∧ users1 = upsert User._id users saved := by
  unfold saveUser at h
  split at h
  · simp only [Option.some.injEq, Prod.mk.injEq] at h
    obtain ⟨h1, h2⟩ := h
    subst h1
    exact ⟨rfl, h2.symm⟩
  · exact absurd h (by simp)

theorem updateOrderStatus_error_body (env : Env) (t : Tick) (db : Db) (userId id : ObjectId)
    (body : StatusBody) (h : (updateOrderStatus env t db userId id body).1.status ≠ 200) :
    ∃ s, (updateOrderStatus env t db userId id body).1.body = .message s := by
  revert h
  unfold updateOrderStatus
  repeat' first
    | split
    | (dsimp only; split)
  all_goals first
    | exact fun _ => ⟨_, rfl⟩
    | exact fun h => absurd rfl h

theorem updatePaymentOrderStatus_error_body (env : Env) (t : Tick) (db : Db)
    (userId id : ObjectId) (body : StatusBody)
    (h : (updatePaymentOrderStatus env t db userId id body).1.status ≠ 200) :
    ∃ s, (updatePaymentOrderStatus env t db userId id body).1.body = .message s := by
  revert h
  unfold updatePaymentOrderStatus
  repeat' first
    | split
    | (dsimp only; split)
  all_goals first
    | exact fun _ => ⟨_, rfl⟩
    | exact fun h => absurd rfl h

theorem refundOrder_error_body (env : Env) (t : Tick) (db : Db) (userId id : ObjectId)
    (body : RefundBody) (h : (refundOrder env t db userId id body).1.status ≠ 200) :
    ∃ s, (refundOrder env t db userId id body).1.body = .message s := by
  revert h
  unfold refundOrder
  repeat' split
  all_goals first
    | exact fun _ => ⟨_, rfl⟩
    | exact fun h => absurd rfl h

theorem getOrder_error_body (db : Db) (userId id : ObjectId)
    (h : (getOrder db userId id).status ≠ 200) :
    ∃ s, (getOrder db userId id).body = .message s := by
  revert h
  unfold getOrder
  repeat' first
    | split
    | (dsimp only; split)
  all_goals first
    | exact fun _ => ⟨_, rfl⟩
    | exact fun h => absurd rfl h

theorem requestPayout_error_body (env : Env) (t : Tick) (db : Db) (userId : ObjectId)
    (body : PayoutBody) (h : (requestPayout env t db userId body).1.status ≠ 200) :
    ∃ s, (requestPayout env t db userId body).1.body = .message s := by
  revert h
  unfold requestPayout
  repeat' first
    | split
    | (dsimp only; split)
  all_goals first
    | exact fun _ => ⟨_, rfl⟩
    | exact fun h => absurd rfl h

theorem payfastNotify_text (env : Env) (t : Tick) (db : Db) (data : Fields) :
    ∃ s, (payfastNotify env t db data).1.body = .text s := by
  unfold payfastNotify
  repeat' first
    | split
    | (dsimp only; split)
  all_goals exact ⟨_, rfl⟩

/-! ## Lemmas on order creation -/

theorem saveOrder_unnumbered (env : Env) (t : Tick) (orders : List Order) (o : Order)
    (h : o.orderNumber = "") : saveOrder env t orders o = none := by
  unfold saveOrder validateOrder
  simp [h]

theorem saveOrder_numbered (env : Env) (t : Tick) (orders : List Order) (o saved : Order)
    (orders1 : List Order) (h : saveOrder env t orders o = some (saved, orders1)) :
    o.orderNumber ≠ "" := by
  intro he
  rw [saveOrder_unnumbered env t orders o he] at h
  exact absurd h (by simp)

theorem snapshot_some (products : List Product) (item : ItemReq) (line : OrderItem)
    (h : snapshot products item = some line) :
    ∃ p, isObjectId item.productId = true ∧
      findById Product._id products item.productId = some p ∧ p.isActive = true ∧
      line = { product := p._id, name := p.name, price := p.price.amount,
               quantity := item.quantity, subtotal := p.price.amount * item.quantity } := by
  unfold snapshot at h
  split at h
  · next hid =>
    split at h
    · exact absurd h (by simp)
    · next p hp =>
      split at h
      · next ha =>
        simp only [Option.some.injEq] at h
        exact ⟨p, hid, hp, ha, h.symm⟩
      · exact absurd h (by simp)
  · exact absurd h (by simp)

theorem lines_consistent (products : List Product) (items : List ItemReq)
    (lines : List OrderItem) (h : items.map (snapshot products) = lines.map some) :
    ∀ l ∈ lines, l.subtotal = l.price * l.quantity := by
  induction items generalizing lines with
  | nil =>
    cases lines with
    | nil => intro l hl; cases hl
    | cons a as => simp at h
  | cons item rest ih =>
    cases lines with
    | nil => simp at h
    | cons a as =>
      simp only [List.map_cons, List.cons.injEq] at h
      obtain ⟨p, _, _, _, hline⟩ := snapshot_some products item a h.1
      intro l hl
      rcases List.mem_cons.1 hl with e | e
      · subst e
        rw [hline]
      · exact ih as h.2 l e

theorem lines_forall₂ (products : List Product) (items : List ItemReq)
    (lines : List OrderItem) (h : items.map (snapshot products) = lines.map some) :
    List.Forall₂ (fun item line => ∃ p, findById Product._id products item.productId = some p ∧
      p.isActive = true ∧ line.product = p._id ∧ line.name = p.name ∧
      line.price = p.price.amount ∧ line.quantity = item.quantity ∧
      line.subtotal = p.price.amount * item.quantity) items lines := by
  induction items generalizing lines with
  | nil =>
    cases lines with
    | nil => exact List.Forall₂.nil
    | cons a as => simp at h
  | cons item rest ih =>
    cases lines with
    | nil => simp at h
    | cons a as =>
      simp only [List.map_cons, List.cons.injEq] at h
      obtain ⟨p, _, hp, ha, hline⟩ := snapshot_some products item a h.1
      refine List.Forall₂.cons ⟨p, hp, ha, ?_⟩ (ih as h.2)
      rw [hline]
      exact ⟨rfl, rfl, rfl, rfl, rfl⟩

/-- The loop succeeds exactly with the snapshots of all lines, added to the
lines and to the subtotal it started from. -/
theorem resolveItems_lines (products : List Product) (items : List ItemReq) (s : Num)
    (acc : List OrderItem) (s1 : Num) (lines : List OrderItem)
    (h : resolveItems products items s acc = .ok (s1, lines)) :
    ∃ new, items.map (snapshot products) = new.map some ∧ lines = acc ++ new ∧
      s1 = s + (new.map fun l => l.subtotal).sum := by
  induction items generalizing s acc with
  | nil =>
    simp only [resolveItems, Except.ok.injEq, Prod.mk.injEq] at h
    exact ⟨[], rfl, by simp [h.2], by simp [h.1]⟩
  | cons item rest ih =>
    unfold resolveItems at h
    by_cases hid : isObjectId item.productId = true
    · simp only [hid, if_true] at h
      cases hp : findById Product._id products item.productId with
      | none => simp [hp] at h
      | some p =>
        simp only [hp] at h
        by_cases ha : p.isActive = true
        · simp only [ha, if_true] at h
          obtain ⟨new, h1, h2, h3⟩ := ih _ _ h
          refine ⟨{ product := p._id, name := p.name, price := p.price.amount,
                    quantity := item.quantity,
                    subtotal := p.price.amount * item.quantity } :: new, ?_, ?_, ?_⟩
          · simp [snapshot, hid, hp, ha, h1]
          · simp [h2]
          · simp [h3, add_assoc]
        · simp [ha] at h
    · simp [hid] at h

/-- A line that names a missing or inactive product stops the loop with the
answer 400 or, when an id met before it is malformed, 500. -/
theorem resolveItems_bad (products : List Product) (items : List ItemReq) (item : ItemReq)
    (hmem : item ∈ items)
    (hbad : findById Product._id products item.productId = none ∨
      ∃ p, findById Product._id products item.productId = some p ∧ p.isActive = false)
    (s : Num) (acc : List OrderItem) :
    ∃ r, resolveItems products items s acc = .error r ∧
      (r = ⟨500, .message "Server error"⟩ ∨ ∃ bad ∈ items, r = badProduct bad.productId) ∧
      ((∀ i ∈ items, isObjectId i.productId = true) →
        ∃ bad ∈ items, r = badProduct bad.productId) := by
  induction items generalizing s acc with
  | nil => cases hmem
  | cons a rest ih =>
    unfold resolveItems
    by_cases hid : isObjectId a.productId = true
    · simp only [hid, if_true]
      cases hfa : findById Product._id products a.productId with
      | none =>
        exact ⟨_, rfl, Or.inr ⟨a, List.mem_cons_self _ _, rfl⟩,
          fun _ => ⟨a, List.mem_cons_self _ _, rfl⟩⟩
      | some p =>
        by_cases hact : p.isActive = true
        · simp only [hact, if_true]
          have hrest : item ∈ rest := by
            rcases List.mem_cons.1 hmem with e | e
            · subst e
              rcases hbad with h | ⟨q, hq, hqa⟩
              · rw [h] at hfa
                cases hfa
              · rw [hq] at hfa
                cases hfa
                rw [hqa] at hact
                cases hact
            · exact e
          obtain ⟨r, h1, h2, h3⟩ := ih hrest _ _
          refine ⟨r, h1, ?_, ?_⟩
          · rcases h2 with e | ⟨bad, hb, e⟩
            · exact Or.inl e
            · exact Or.inr ⟨bad, List.mem_cons_of_mem _ hb, e⟩
          · intro hall
            obtain ⟨bad, hb, e⟩ := h3 fun i hi => hall i (List.mem_cons_of_mem _ hi)
            exact ⟨bad, List.mem_cons_of_mem _ hb, e⟩
        · simp only [hact]
          exact ⟨_, rfl, Or.inr ⟨a, List.mem_cons_self _ _, rfl⟩,
            fun _ => ⟨a, List.mem_cons_self _ _, rfl⟩⟩
    · simp only [hid]
      exact ⟨_, rfl, Or.inl rfl,
        fun hall => absurd (hall a (List.mem_cons_self _ _)) hid⟩

/-- What a request that reaches `order.save()` went through. -/
theorem draftOrder_ok (t : Tick) (db : Db) (user : Option ObjectId) (body : CreateOrderBody)
    (customer : CustomerReq) (store : Store) (total : Num) (o : Order)
    (h : draftOrder t db user body = .ok (customer, store, total, o)) :
    body.customer = some customer ∧ body.items ≠ [] ∧ isObjectId body.storeId = true ∧
    findById Store._id db.stores body.storeId = some store ∧
    ∃ lines, body.items.map (snapshot db.products) = lines.map some ∧
      total = (lines.map fun l => l.subtotal).sum + shippingCost store +
        taxAmount store (lines.map fun l => l.subtotal).sum ∧
      o = newOrder t user body customer store (lines.map fun l => l.subtotal).sum lines
        (resolveAffiliate db.users body.referralCode total) := by
  unfold draftOrder at h
  cases hc : body.customer with
  | none => simp [hc] at h
  | some c =>
    simp only [hc] at h
    by_cases hif : (body.items.isEmpty || body.storeId == "") = true
    · simp [hif] at h
    · simp only [hif, Bool.false_eq_true, if_false] at h
      by_cases hid : isObjectId body.storeId = true
      · simp only [hid, if_true] at h
        cases hstore : findById Store._id db.stores body.storeId with
        | none => simp [hstore] at h
        | some st =>
          simp only [hstore] at h
          cases hr : resolveItems db.products body.items 0 [] with
          | error e => simp [hr] at h
          | ok r =>
            obtain ⟨subtotal, lines⟩ := r
            obtain ⟨new, hn1, hn2, hn3⟩ := resolveItems_lines db.products body.items 0 []
              subtotal lines hr
            rw [List.nil_append] at hn2
            rw [zero_add] at hn3
            subst hn2 hn3
            simp only [hr, Except.ok.injEq, Prod.mk.injEq] at h
            obtain ⟨h1, h2, h3, h4⟩ := h
            have hne : body.items ≠ [] := by
              intro he
              simp [he] at hif
            rw [← h1, ← h2, ← h3, ← h4]
            exact ⟨rfl, hne, hid, rfl, lines, hn1, rfl, rfl⟩
      · simp [hid] at h

theorem draftOrder_unnumbered (t : Tick) (db : Db) (user : Option ObjectId)
    (body : CreateOrderBody) (customer : CustomerReq) (store : Store) (total : Num) (o : Order)
    (h : draftOrder t db user body = .ok (customer, store, total, o)) : o.orderNumber = "" := by
  obtain ⟨_, _, _, _, lines, _, _, ho⟩ := draftOrder_ok t db user body customer store total o h
  rw [ho]
  rfl

/-- The handler never gets past `order.save()`: its document has no order
number, which the validation requires before the hook could generate it. -/
theorem createOrder_eq (env : Env) (t : Tick) (db : Db) (user : Option ObjectId)
    (body : CreateOrderBody) :
    createOrder env t db user body =
      (match draftOrder t db user body with
        | .error response => response
        | .ok _ => ⟨500, .message "Server error"⟩, db) := by
  unfold createOrder
  cases h : draftOrder t db user body with
  | error r => rfl
  | ok r =>
    obtain ⟨customer, store, total, o⟩ := r
    simp only [saveOrder_unnumbered env t db.orders o
      (draftOrder_unnumbered t db user body customer store total o h)]

theorem createOrder_db (env : Env) (t : Tick) (db : Db) (user : Option ObjectId)
    (body : CreateOrderBody) : (createOrder env t db user body).2 = db := by
  rw [createOrder_eq]

theorem createOrder_error_body (env : Env) (t : Tick) (db : Db) (user : Option ObjectId)
    (body : CreateOrderBody) :
    (createOrder env t db user body).1.status ≠ 201 ∧
      ∃ s, (createOrder env t db user body).1.body = .message s := by
  rw [createOrder_eq]
  cases h : draftOrder t db user body with
  | ok r => exact ⟨by simp, _, rfl⟩
  | error r =>
    simp only
    unfold draftOrder at h
    cases hc : body.customer with
    | none =>
      simp only [hc, Except.error.injEq] at h
      rw [← h]
      exact ⟨by simp, _, rfl⟩
    | some c =>
      simp only [hc] at h
      by_cases hif : (body.items.isEmpty || body.storeId == "") = true
      · simp only [hif, if_true, Except.error.injEq] at h
        rw [← h]
        exact ⟨by simp, _, rfl⟩
      · simp only [hif, Bool.false_eq_true, if_false] at h
        by_cases hid : isObjectId body.storeId = true
        · simp only [hid, if_true] at h
          cases hstore : findById Store._id db.stores body.storeId with
          | none =>
            simp only [hstore, Except.error.injEq] at h
            rw [← h]
            exact ⟨by simp, _, rfl⟩
          | some st =>
            simp only [hstore] at h
            cases hr : resolveItems db.products body.items 0 [] with
            | ok r2 => simp [hr] at h
            | error e =>
              simp only [hr, Except.error.injEq] at h
              subst h
              have key : ∀ (items : List ItemReq) (s : Num) (acc : List OrderItem) (e : Response),
                  resolveItems db.products items s acc = .error e →
                  e.status ≠ 201 ∧ ∃ m, e.body = .message m := by
                intro items
                induction items with
                | nil =>
                  intro s acc e he
                  simp [resolveItems] at he
                | cons a rest ih =>
                  intro s acc e he
                  unfold resolveItems at he
                  split at he
                  · split at he
                    · simp only [Except.error.injEq] at he
                      rw [← he]
                      exact ⟨by simp [badProduct], _, rfl⟩
                    · split at he
                      · exact ih _ _ e he
                      · simp only [Except.error.injEq] at he
                        rw [← he]
                        exact ⟨by simp [badProduct], _, rfl⟩
                  · simp only [Except.error.injEq] at he
                    rw [← he]
                    exact ⟨by simp, _, rfl⟩
              exact key body.items 0 [] e hr
        · simp only [hid, Bool.false_eq_true, if_false, Except.error.injEq] at h
          rw [← h]
          exact ⟨by simp, _, rfl⟩

theorem act_unique (env : Env) (t : Tick) (db : Db) (a : Action)
    (h : uniqueOrderNumbers db.orders) : uniqueOrderNumbers (act env t db a).2.orders := by
  cases a with
  | create user body =>
    simp only [act]
    rw [createOrder_db]
    exact h
  | request r =>
    rcases handle_orders env t db r with e | ⟨_, o, saved, orders1, _, _, _, hsave, hres⟩
    · simp only [act]
      rw [e]
      exact h
    · simp only [act]
      rw [hres]
      exact saveOrder_unique env t db.orders orders1 o saved h hsave

/-! ## Lemmas on accepted saves and signed notifications -/

theorem validateOrder_number (o : Order) (h : validateOrder o = true) : o.orderNumber ≠ "" := by
  intro he
  simp [validateOrder, he] at h

theorem validateOrder_statuses (o : Order) (status payStatus : String) (payment : Payment)
    (h : validateOrder o = true)
    (hs : ["pending", "processing", "shipped", "delivered", "cancelled",
      "refunded"].contains status = true)
    (hp : ["pending", "processing", "completed", "failed", "cancelled"].contains payStatus =
      true)
    (hpay : payment.method = o.payment.method) (hpst : payment.status = payStatus) :
    validateOrder { o with status := status, payment := payment } = true := by
  unfold validateOrder at h ⊢
  simp only [Bool.and_eq_true] at h ⊢
  obtain ⟨⟨⟨⟨⟨h1, _⟩, h3⟩, h4⟩, _⟩, h6⟩ := h
  refine ⟨⟨⟨⟨⟨h1, hs⟩, h3⟩, ?_⟩, ?_⟩, h6⟩
  · rw [hpay]
    exact h4
  · rw [hpst]
    exact hp

theorem saveOrder_accepts (env : Env) (t : Tick) (orders : List Order) (o : Order)
    (hv : validateOrder o = true)
    (hu : ∀ p ∈ orders, p._id ≠ o._id → p.orderNumber ≠ o.orderNumber) :
    saveOrder env t orders o =
      some (calculateTotals (generateOrderNumber t o),
        upsert Order._id orders (calculateTotals (generateOrderNumber t o))) := by
  have hne := validateOrder_number o hv
  have hdup : duplicateOrderNumber orders (calculateTotals (generateOrderNumber t o)) = false := by
    unfold duplicateOrderNumber
    rw [List.any_eq_false]
    intro p hp
    rw [hooks_id, hooks_orderNumber t o hne]
    by_cases hid : p._id = o._id
    · simp [hid]
    · have := hu p hp hid
      simp [this]
  unfold saveOrder
  simp [hv, hdup]

theorem lookup_append_other (data : Fields) (k : String) (v : Option String) (key : String)
    (h : key ≠ k) : (data ++ [(k, v)]).lookup key = data.lookup key := by
  induction data with
  | nil =>
    have : (key == k) = false := by simpa using h
    simp [List.lookup, this]
  | cons a rest ih =>
    obtain ⟨ka, va⟩ := a
    simp only [List.cons_append, List.lookup]
    cases key == ka with
    | true => rfl
    | false => exact ih

/-- A correctly signed notification for a stored, valid order, in a collection
with distinct order numbers, is answered 200 and sets `payment.status`. -/
theorem payfastNotify_sets (env : Env) (t : Tick) (db : Db) (data : Fields) (id : ObjectId)
    (order : Order) (hkey : ∀ kv ∈ data, kv.1 ≠ "signature")
    (hsig : generatePayFastSignature env.md5 data env.passphrase ≠ none)
    (hid : (data.lookup "custom_str1").join = some id)
    (hfind : findById Order._id db.orders id = some order)
    (hv : validateOrder order = true) (hu : uniqueOrderNumbers db.orders) :
    (payfastNotify env t db (signed env data)).1 = ⟨200, .text "OK"⟩ ∧
    paymentStatus (payfastNotify env t db (signed env data)).2 id =
      some (if (data.lookup "payment_status").join = some "COMPLETE" then "completed"
        else "failed") := by
  obtain ⟨sig, hsome⟩ := Option.ne_none_iff_exists'.1 hsig
  have hl := lookup_append_fresh data "signature"
    (generatePayFastSignature env.md5 data env.passphrase) hkey
  have hf := filter_append_fresh data "signature"
    (generatePayFastSignature env.md5 data env.passphrase) hkey
  have hc : ((signed env data).lookup "custom_str1").join = some id := by
    unfold signed
    rw [lookup_append_other data "signature" _ "custom_str1" (by decide)]
    exact hid
  have hp : ((signed env data).lookup "payment_status").join =
      (data.lookup "payment_status").join := by
    unfold signed
    rw [lookup_append_other data "signature" _ "payment_status" (by decide)]
  have hoid : order._id = id := findById_key Order._id db.orders id order hfind
  have hmem : order ∈ db.orders := List.mem_of_find?_eq_some hfind
  have huniq : ∀ (o1 : Order), o1._id = order._id → o1.orderNumber = order.orderNumber →
      ∀ p ∈ db.orders, p._id ≠ o1._id → p.orderNumber ≠ o1.orderNumber := by
    intro o1 h1 h2 p hp hne
    rw [h1] at hne
    rw [h2]
    exact hu p hp order hmem hne
  have hps : paymentStatus db id = some order.payment.status := by
    unfold paymentStatus
    rw [hfind]
    rfl
  have hsl : ((signed env data).lookup "signature").join = some sig := by
    unfold signed
    rw [hl, hsome]
    rfl
  have hsf : generatePayFastSignature env.md5
      ((signed env data).filter fun kv => kv.1 != "signature") env.passphrase = some sig := by
    unfold signed
    rw [hf, hsome]
  unfold payfastNotify
  simp only [hsl, hsf, hc, Option.some_bind, hfind, hp, ne_eq, not_true_eq_false, if_false]
  by_cases hst : (data.lookup "payment_status").join = some "COMPLETE"
  · simp only [hst, if_true]
    have hsave := saveOrder_accepts env t db.orders (markCompleted t (signed env data) order)
      (validateOrder_statuses order "processing" "completed" _ hv (by decide) (by decide) rfl rfl)
      (huniq _ rfl rfl)
    simp only [hsave]
    refine ⟨trivial, ?_⟩
    have := paymentStatus_save env t db.orders _ order
      (markCompleted t (signed env data) order) _
      (updateProductSales db.products order.items)
      (findByIdAndUpdate Store._id db.stores order.store (incStore order))
      (creditAffiliate db.users order) db rfl hsave rfl id order.payment.status hps
    rw [this]
    simp [hoid, markCompleted]
  · simp only [hst, if_false]
    have hsave := saveOrder_accepts env t db.orders (markFailed order)
      (validateOrder_statuses order "cancelled" "failed" _ hv (by decide) (by decide) rfl rfl)
      (huniq _ rfl rfl)
    simp only [hsave]
    refine ⟨trivial, ?_⟩
    have := paymentStatus_save env t db.orders _ order (markFailed order) _
      db.products db.stores db.users db rfl hsave rfl id order.payment.status hps
    rw [this]
    simp [hoid, markFailed]

theorem storeGuard_body (db : Db) (userId : ObjectId) (storeId : String) (r : Response)
    (h : storeGuard db userId storeId = some r) : ∃ s, r.body = .message s := by
  unfold storeGuard at h
  split at h
  · split at h
    · simp only [Option.some.injEq] at h
      exact ⟨_, by rw [← h]⟩
    · split at h
      · simp only [Option.some.injEq] at h
        exact ⟨_, by rw [← h]⟩
      · exact absurd h (by simp)
  · simp only [Option.some.injEq] at h
    exact ⟨_, by rw [← h]⟩

theorem affiliateGuard_body (db : Db) (userId : ObjectId) (r : Response)
    (h : affiliateGuard db userId = some r) : ∃ s, r.body = .message s := by
  unfold affiliateGuard at h
  split at h
  · simp only [Option.some.injEq] at h
    exact ⟨_, by rw [← h]⟩
  · split at h
    · simp only [Option.some.injEq] at h
      exact ⟨_, by rw [← h]⟩
    · exact absurd h (by simp)

theorem getStoreOrders_error_body (db : Db) (userId : ObjectId) (storeId : String)
    (h : (getStoreOrders db userId storeId).status ≠ 200) :
    ∃ s, (getStoreOrders db userId storeId).body = .message s := by
  revert h
  unfold getStoreOrders
  cases hg : storeGuard db userId storeId with
  | none => exact fun h => absurd rfl h
  | some r => exact fun _ => storeGuard_body db userId storeId r hg

theorem getPaymentStoreOrders_error_body (db : Db) (userId : ObjectId) (storeId : String)
    (h : (getPaymentStoreOrders db userId storeId).status ≠ 200) :
    ∃ s, (getPaymentStoreOrders db userId storeId).body = .message s := by
  revert h
  unfold getPaymentStoreOrders
  cases hg : storeGuard db userId storeId with
  | none => exact fun h => absurd rfl h
  | some r => exact fun _ => storeGuard_body db userId storeId r hg

theorem getOrdersOverview_error_body (db : Db) (userId : ObjectId) (storeId : Option String)
    (h : (getOrdersOverview db userId storeId).status ≠ 200) :
    ∃ s, (getOrdersOverview db userId storeId).body = .message s := by
  revert h
  unfold getOrdersOverview
  split
  · exact fun _ => ⟨_, rfl⟩
  · cases hg : storeGuard db userId (strOr storeId "") with
    | none => exact fun h => absurd rfl h
    | some r => exact fun _ => storeGuard_body db userId _ r hg

theorem getPaymentOrder_error_body (db : Db) (orderId : String)
    (h : (getPaymentOrder db orderId).status ≠ 200) :
    ∃ s, (getPaymentOrder db orderId).body = .message s := by
  revert h
  unfold getPaymentOrder
  repeat' split
  all_goals first
    | exact fun _ => ⟨_, rfl⟩
    | exact fun h => absurd rfl h

theorem getDashboard_error_body (env : Env) (t : Tick) (db : Db) (userId : ObjectId)
    (h : (getDashboard env t db userId).1.status ≠ 200) :
    ∃ s, (getDashboard env t db userId).1.body = .message s := by
  revert h
  unfold getDashboard
  repeat' first
    | split
    | (dsimp only; split)
  all_goals first
    | exact fun _ => ⟨_, rfl⟩
    | exact fun h => absurd rfl h

theorem getReferrals_error_body (db : Db) (userId : ObjectId)
    (h : (getReferrals db userId).status ≠ 200) :
    ∃ s, (getReferrals db userId).body = .message s := by
  revert h
  unfold getReferrals
  cases hg : affiliateGuard db userId with
  | none => exact fun h => absurd rfl h
  | some r => exact fun _ => affiliateGuard_body db userId r hg

theorem generateLink_error_body (db : Db) (userId : ObjectId)
    (h : (generateLink db userId).status ≠ 200) :
    ∃ s, (generateLink db userId).body = .message s := by
  revert h
  unfold generateLink
  cases hg : affiliateGuard db userId with
  | none => exact fun h => absurd rfl h
  | some r => exact fun _ => affiliateGuard_body db userId r hg

theorem getAffiliateAnalytics_error_body (db : Db) (userId : ObjectId)
    (h : (getAffiliateAnalytics db userId).status ≠ 200) :
    ∃ s, (getAffiliateAnalytics db userId).body = .message s := by
  revert h
  unfold getAffiliateAnalytics
  cases hg : affiliateGuard db userId with
  | none => exact fun h => absurd rfl h
  | some r => exact fun _ => affiliateGuard_body db userId r hg

/-! ## Claims on the totals hook -/

/-- C1: after the totals hook every item keeps its product, name, price and
quantity and has `subtotal = price * quantity`; `pricing.subtotal` is the sum of
`price * quantity` over the items (0 for no item); `pricing.total` is
`subtotal + shipping + tax - discount`, with shipping, tax and discount as they
were. -/
theorem C1_totals_hook (o : Order) :
    (∀ i ∈ (calculateTotals o).items, i.subtotal = i.price * i.quantity) ∧
    (calculateTotals o).items.map (fun i => (i.product, i.name, i.price, i.quantity)) =
      o.items.map (fun i => (i.product, i.name, i.price, i.quantity)) ∧
    (calculateTotals o).pricing.subtotal =
      (o.items.map (fun i => i.price * i.quantity)).sum ∧
    (o.items = [] → (calculateTotals o).pricing.subtotal = 0) ∧
    (calculateTotals o).pricing.shipping = o.pricing.shipping ∧
    (calculateTotals o).pricing.tax = o.pricing.tax ∧
    (calculateTotals o).pricing.discount = o.pricing.discount ∧
    (calculateTotals o).pricing.total =
      (calculateTotals o).pricing.subtotal + (calculateTotals o).pricing.shipping +
        (calculateTotals o).pricing.tax - (calculateTotals o).pricing.discount := by
  refine ⟨?_, ?_, calculateTotals_subtotal o, ?_, rfl, rfl, rfl, rfl⟩
  · intro i hi
    rw [calculateTotals_items] at hi
    obtain ⟨j, _, rfl⟩ := List.mem_map.1 hi
    rfl
  · rw [calculateTotals_items, List.map_map]
    rfl
  · intro h
    rw [calculateTotals_subtotal, h]
    rfl

/-- C3: the totals hook is idempotent; a second run leaves the whole order, so in
particular the item subtotals, `pricing.subtotal` and `pricing.total`, as the
first run left it. -/
theorem C3_totals_hook_idempotent (o : Order) :
    calculateTotals (calculateTotals o) = calculateTotals o ∧
    (calculateTotals (calculateTotals o)).items.map (fun i => i.subtotal) =
      (calculateTotals o).items.map (fun i => i.subtotal) ∧
    (calculateTotals (calculateTotals o)).pricing.subtotal =
      (calculateTotals o).pricing.subtotal ∧
    (calculateTotals (calculateTotals o)).pricing.total =
      (calculateTotals o).pricing.total := by
  rw [calculateTotals_idem]
  exact ⟨rfl, rfl, rfl, rfl⟩

/-! ## Claims on order creation -/

/-- C2, at the failing input: a guest orders 2 × Widget (50.00) in the store
"Acme", which has no shipping rate and no tax. The handler builds the document
the claim describes (one line with the name and price of the product, quantity 2
and subtotal 100; `pricing.subtotal` 100 and `pricing.total` 100), but the
document has no order number: the validation that precedes the pre-save hooks
rejects it and the answer is 500 with nothing stored. No request at all is
answered 201 or changes the database. -/
theorem C2_create_order_rejected :
    (draftOrder tHex dbHex none reqAcme).toOption = some (customer0, acmeHex, 100, draftAcme) ∧
    draftAcme.orderNumber = "" ∧ validateOrder draftAcme = false ∧
    saveOrder env0 tHex dbHex.orders draftAcme = none ∧
    createOrder env0 tHex dbHex none reqAcme = (⟨500, .message "Server error"⟩, dbHex) ∧
    (∀ env t db user body,
      (createOrder env t db user body).1.status ≠ 201 ∧
        (createOrder env t db user body).2 = db) :=
  ⟨by decide!, by decide!, by decide!, by decide!, by decide!,
    fun env t db user body =>
      ⟨(createOrder_error_body env t db user body).1, createOrder_db env t db user body⟩⟩

/-- C8, at the failing input: the same order with the referral code of the
affiliate. The handler attaches the referrer with rate 5/100 and amount 5, which
is 5% of the total 100, to its document (and no attribution when the code is
unknown or absent), but the document is rejected like every new order: answer
500, no order stored, the users as they were. -/
theorem C8_affiliate_not_stored :
    (draftOrder tHex dbHex none reqReferred).toOption.map (fun d => d.2.2.2.affiliate) =
      some (some { referrer := "650b00000000000000000002",
                   commission := { rate := 5 / 100, amount := 5 } }) ∧
    (draftOrder tHex dbHex none reqUnknownCode).toOption.map (fun d => d.2.2.2.affiliate) =
      some none ∧
    (draftOrder tHex dbHex none reqAcme).toOption.map (fun d => d.2.2.2.affiliate) =
      some none ∧
    createOrder env0 tHex dbHex none reqReferred = (⟨500, .message "Server error"⟩, dbHex) ∧
    createOrder env0 tHex dbHex none reqUnknownCode =
      (⟨500, .message "Server error"⟩, dbHex) ∧
    (∀ t db user body customer store total o,
      draftOrder t db user body = .ok (customer, store, total, o) →
        o.pricing.total = total ∧
        o.affiliate = resolveAffiliate db.users body.referralCode total ∧
        (∀ a, o.affiliate = some a →
          a.commission.rate = 5 / 100 ∧ a.commission.amount = total * (5 / 100) ∧
          ∃ u ∈ db.users, u.affiliate.referralCode = body.referralCode ∧
            a.referrer = u._id)) := by
  refine ⟨by decide!, by decide!, by decide!, by decide!, by decide!, ?_⟩
  intro t db user body customer store total o h
  obtain ⟨_, _, _, _, lines, _, htot, ho⟩ := draftOrder_ok t db user body customer store total o h
  have haff : o.affiliate = resolveAffiliate db.users body.referralCode total := by rw [ho]; rfl
  refine ⟨?_, haff, ?_⟩
  · rw [ho, htot]
    rfl
  · intro a ha
    rw [haff] at ha
    unfold resolveAffiliate at ha
    split at ha
    · exact absurd ha (by simp)
    · next code hcode =>
      split at ha
      · exact absurd ha (by simp)
      · split at ha
        · exact absurd ha (by simp)
        · next referrer hfind =>
          simp only [Option.some.injEq] at ha
          rw [← ha]
          refine ⟨rfl, rfl, referrer, List.mem_of_find?_eq_some hfind, ?_, rfl⟩
          have := List.find?_some hfind
          rw [hcode]
          simpa using this

/-- C17, at the failing input: an order for 2 × Widget in the store "Bolt", whose
shipping is enabled with a first rate of 60. The handler puts
`pricing.shipping = 60` in its document (0 for the store "Acme", which has no
rate), and for every request the shipping of the document is the price of the
first rate when shipping is enabled and that price is set, else 0; but the
document is rejected like every new order: answer 500, nothing stored. -/
theorem C17_shipping_not_stored :
    (draftOrder tHex dbHex none reqBolt).toOption.map (fun d => d.2.2.2.pricing.shipping) =
      some 60 ∧
    (draftOrder tHex dbHex none reqAcme).toOption.map (fun d => d.2.2.2.pricing.shipping) =
      some 0 ∧
    createOrder env0 tHex dbHex none reqBolt = (⟨500, .message "Server error"⟩, dbHex) ∧
    (∀ t db user body customer store total o,
      draftOrder t db user body = .ok (customer, store, total, o) →
        (store.settings.shipping.enabled = false → o.pricing.shipping = 0) ∧
        (store.settings.shipping.enabled = true →
          (store.settings.shipping.rates = [] → o.pricing.shipping = 0) ∧
          (∀ r rest, store.settings.shipping.rates = r :: rest →
            (r.price = none → o.pricing.shipping = 0) ∧
            (∀ p, r.price = some p → o.pricing.shipping = p)))) := by
  refine ⟨by decide!, by decide!, by decide!, ?_⟩
  intro t db user body customer store total o h
  obtain ⟨_, _, _, _, lines, _, _, ho⟩ := draftOrder_ok t db user body customer store total o h
  have hs : o.pricing.shipping = shippingCost store := by rw [ho]; rfl
  rw [hs]
  refine ⟨fun hd => by simp [shippingCost, hd], fun he => ⟨fun hr => ?_, fun r rest hr => ⟨?_, ?_⟩⟩⟩
  · simp [shippingCost, he, hr, numOr]
  · intro hp
    simp [shippingCost, he, hr, hp, numOr]
  · intro p hp
    by_cases h0 : p = 0
    · simp [shippingCost, he, hr, hp, numOr, h0]
    · simp [shippingCost, he, hr, hp, numOr, h0]

/-- C18, at the failing input: an order for 3 × Widget in the store "Bolt", whose
taxes are enabled at 15 percent and not included in the prices. The handler puts
`pricing.tax = 150 × 15 / 100 = 45/2` in its document (0 for the store "Acme"),
and for every request the tax of the document is the subtotal times the rate in
percent when taxes are enabled, not included and a rate is set, else 0; but the
document is rejected like every new order: answer 500, nothing stored. -/
theorem C18_tax_not_stored :
    (draftOrder tHex dbHex none reqBoltThree).toOption.map
        (fun d => (d.2.2.2.pricing.subtotal, d.2.2.2.pricing.tax)) = some (150, 45 / 2) ∧
    (draftOrder tHex dbHex none reqAcme).toOption.map (fun d => d.2.2.2.pricing.tax) =
      some 0 ∧
    createOrder env0 tHex dbHex none reqBoltThree =
      (⟨500, .message "Server error"⟩, dbHex) ∧
    (∀ t db user body customer store total o,
      draftOrder t db user body = .ok (customer, store, total, o) →
        (store.settings.taxes.includeInPrice = true → o.pricing.tax = 0) ∧
        (store.settings.taxes.enabled = false → o.pricing.tax = 0) ∧
        (store.settings.taxes.rate = none → o.pricing.tax = 0) ∧
        (∀ rate, store.settings.taxes.enabled = true →
          store.settings.taxes.includeInPrice = false → store.settings.taxes.rate = some rate →
          o.pricing.tax = o.pricing.subtotal * (rate / 100))) := by
  refine ⟨by decide!, by decide!, by decide!, ?_⟩
  intro t db user body customer store total o h
  obtain ⟨_, _, _, _, lines, _, _, ho⟩ := draftOrder_ok t db user body customer store total o h
  have hs : o.pricing.tax = taxAmount store o.pricing.subtotal := by rw [ho]; rfl
  rw [hs]
  refine ⟨fun hi => by simp [taxAmount, hi], fun hd => ?_, fun hn => ?_, fun rate he hi hr => ?_⟩
  · simp [taxAmount, taxRate, hd]
  · simp [taxAmount, taxRate, hn, numOr]
  · by_cases h0 : rate = 0
    · simp [taxAmount, taxRate, he, hi, hr, numOr, h0]
    · simp [taxAmount, taxRate, he, hi, hr, numOr, h0]

/-! ## Claims on the payment notification -/

/-- C4: when the signature recomputed over the fields other than `signature` is
`sig` and the `signature` field differs from it, or is absent, the handler
answers 400 `Invalid signature` and returns the database as it was: orders,
products, stores and users are identical before and after. -/
theorem C4_invalid_signature (env : Env) (t : Tick) (db : Db) (data : Fields) (sig : String)
    (hcalc : generatePayFastSignature env.md5 (data.filter fun kv => kv.1 != "signature")
      env.passphrase = some sig) :
    ((data.lookup "signature").join ≠ some sig →
      payfastNotify env t db data = (⟨400, .text "Invalid signature"⟩, db)) ∧
    (data.lookup "signature" = none →
      payfastNotify env t db data = (⟨400, .text "Invalid signature"⟩, db)) := by
  have key : (data.lookup "signature").join ≠ some sig →
      payfastNotify env t db data = (⟨400, .text "Invalid signature"⟩, db) := by
    intro hne
    unfold payfastNotify
    simp only [hcalc, ne_eq, hne, not_false_eq_true, if_true]
  refine ⟨key, fun hnone => key ?_⟩
  rw [hnone]
  simp

/-- Witness of C4: the forged completion notification for `o1` is answered 400
and leaves the database as it was. -/
theorem C4_invalid_signature_witness :
    generatePayFastSignature env0.md5 (noteForged.filter fun kv => kv.1 != "signature")
      env0.passphrase = some sig0 ∧
    (noteForged.lookup "signature").join ≠ some sig0 ∧
    payfastNotify env0 t1 db1 noteForged = (⟨400, .text "Invalid signature"⟩, db1) :=
  ⟨by decide!, by decide!,
    (C4_invalid_signature env0 t1 db1 noteForged sig0 (by decide!)).1 (by decide!)⟩

/-- C5, as stated, fails: the order of `db2` has two lines on the product `p1`
(quantities 2 and 1); after the completion notification the sales of `p1` have
grown by 3 and its revenue by 150, not by the quantity and subtotal of either
line. -/
theorem C5_counterexample :
    (payfastNotify env0 t1 db2 noteComplete).1.status = 200 ∧
    db2.orders.map (fun o => (o._id, o.payment.status,
      o.items.map fun i => (i.product, i.quantity, i.subtotal))) =
        [("o1", "pending", [("p1", 2, 100), ("p1", 1, 50)])] ∧
    db2.products.map (fun p => (p._id, p.sales, p.revenue)) = [("p1", 0, 0)] ∧
    (payfastNotify env0 t1 db2 noteComplete).2.products.map
      (fun p => (p._id, p.sales, p.revenue)) = [("p1", 3, 150)] ∧
    ¬ (∀ item ∈ db2.orders.flatMap (fun o => o.items), ∀ p q,
        findById Product._id db2.products item.product = some p →
        findById Product._id (payfastNotify env0 t1 db2 noteComplete).2.products
          item.product = some q →
        q.sales = p.sales + item.quantity ∧ q.revenue = p.revenue + item.subtotal) :=
  ⟨by decide!, by decide!, by decide!, by decide!, fun h =>
    absurd (h ⟨"p1", "Widget", 50, 2, 100⟩ (by decide!) widget
      { widget with sales := 3, revenue := 150 } (by decide!) (by decide!)).1 (by decide!)⟩

/-- C5, amended: a correctly signed `COMPLETE` notification for a stored order,
answered 200, leaves the order with `payment.status = "completed"`,
`transactionId` and `payfastPaymentId` equal to `pf_payment_id` and
`status = "processing"`; every product has its sales grown by the total quantity
and its revenue by the total of the subtotals of the lines that reference it (by
the quantity and subtotal of the line when it is the only one on its product);
the store of the order has `analytics.orders` grown by 1 and `analytics.revenue`
by `pricing.total`; the referrer, if any, has `totalEarnings` and
`pendingPayouts` grown by the commission amount. -/
theorem C5_notify_complete (env : Env) (t : Tick) (db : Db) (data : Fields) (sig : String)
    (order : Order)
    (hcalc : generatePayFastSignature env.md5 (data.filter fun kv => kv.1 != "signature")
      env.passphrase = some sig)
    (hsig : (data.lookup "signature").join = some sig)
    (hid : (data.lookup "custom_str1").join.bind (findById Order._id db.orders) = some order)
    (hst : (data.lookup "payment_status").join = some "COMPLETE")
    (hok : (payfastNotify env t db data).1.status = 200) :
    (∃ o, findById Order._id (payfastNotify env t db data).2.orders order._id = some o ∧
      o.payment.status = "completed" ∧
      o.payment.transactionId = (data.lookup "pf_payment_id").join ∧
      o.payment.payfastPaymentId = (data.lookup "pf_payment_id").join ∧
      o.status = "processing") ∧
    (∀ pid p, findById Product._id db.products pid = some p →
      ∃ q, findById Product._id (payfastNotify env t db data).2.products pid = some q ∧
        q.sales = p.sales + soldQuantity order.items pid ∧
        q.revenue = p.revenue + soldRevenue order.items pid) ∧
    (∀ item ∈ order.items,
      (order.items.filter fun i => i.product == item.product) = [item] →
      ∀ p, findById Product._id db.products item.product = some p →
      ∃ q, findById Product._id (payfastNotify env t db data).2.products item.product =
          some q ∧
        q.sales = p.sales + item.quantity ∧ q.revenue = p.revenue + item.subtotal) ∧
    (∀ s, findById Store._id db.stores order.store = some s →
      ∃ s1, findById Store._id (payfastNotify env t db data).2.stores order.store = some s1 ∧
        s1.analytics.orders = s.analytics.orders + 1 ∧
        s1.analytics.revenue = s.analytics.revenue + order.pricing.total) ∧
    (∀ a u, order.affiliate = some a → findById User._id db.users a.referrer = some u →
      ∃ u1, findById User._id (payfastNotify env t db data).2.users a.referrer = some u1 ∧
        u1.affiliate.totalEarnings = u.affiliate.totalEarnings + a.commission.amount ∧
        u1.affiliate.pendingPayouts = u.affiliate.pendingPayouts + a.commission.amount) := by
  obtain ⟨hp, hs, hu, ho⟩ :=
    payfastNotify_complete_effects env t db data sig order hcalc hsig hid hst
  refine ⟨⟨_, ho hok, ?_, ?_, ?_, ?_⟩, ?_, ?_, ?_, ?_⟩
  · rw [hooks_payment]
    rfl
  · rw [hooks_payment]
    rfl
  · rw [hooks_payment]
    rfl
  · rw [hooks_status]
    rfl
  · intro pid p hfind
    exact ⟨_, hp pid p hfind, rfl, rfl⟩
  · intro item _ hone p hfind
    obtain ⟨h1, h2⟩ := soldQuantity_single order.items item hone
    refine ⟨_, hp item.product p hfind, ?_, ?_⟩
    · simp only [h1]
    · simp only [h2]
  · intro s hfind
    exact ⟨_, hs s hfind, rfl, rfl⟩
  · intro a u ha hfind
    exact ⟨_, hu a u ha hfind, rfl, rfl⟩

/-- Witness of C5: the signed completion notification for the stored order `o1`
of `db1`; afterwards the store counts 1 order and a revenue of 100, the product 2
sales and the referrer earnings of 5. -/
theorem C5_notify_complete_witness :
    (generatePayFastSignature env0.md5 (noteComplete.filter fun kv => kv.1 != "signature")
        env0.passphrase = some sig0 ∧
      (noteComplete.lookup "signature").join = some sig0 ∧
      (noteComplete.lookup "custom_str1").join.bind (findById Order._id db1.orders) =
        some order1 ∧
      (noteComplete.lookup "payment_status").join = some "COMPLETE" ∧
      (payfastNotify env0 t1 db1 noteComplete).1.status = 200) ∧
    (∃ o, findById Order._id (payfastNotify env0 t1 db1 noteComplete).2.orders order1._id =
        some o ∧
      o.payment.status = "completed" ∧
      o.payment.transactionId = (noteComplete.lookup "pf_payment_id").join ∧
      o.payment.payfastPaymentId = (noteComplete.lookup "pf_payment_id").join ∧
      o.status = "processing") ∧
    (payfastNotify env0 t1 db1 noteComplete).2.stores.map
      (fun s => (s.analytics.orders, s.analytics.revenue)) = [(1, 100)] ∧
    (payfastNotify env0 t1 db1 noteComplete).2.products.map
      (fun p => (p.sales, p.revenue)) = [(2, 100)] ∧
    (payfastNotify env0 t1 db1 noteComplete).2.users.map
      (fun u => (u.affiliate.totalEarnings, u.affiliate.pendingPayouts)) = [(0, 0), (5, 5)] :=
  ⟨⟨by decide!, by decide!, by decide!, by decide!, by decide!⟩,
    (C5_notify_complete env0 t1 db1 noteComplete sig0 order1 (by decide!) (by decide!)
      (by decide!) (by decide!) (by decide!)).1,
    by decide!, by decide!, by decide!⟩

/-- C6, as stated, fails: processing the signed completion notification for `o1`
a second time is answered 200 and increments again; the store goes from 1 order
and revenue 100 to 2 orders and revenue 200, the product from 2 sales to 4, and
the referrer from earnings of 5 to 10. -/
theorem C6_counterexample :
    (payfastNotify env0 t1 db1 noteComplete).1.status = 200 ∧
    (payfastNotify env0 t2 dbPaid noteComplete).1.status = 200 ∧
    dbPaid.orders.map (fun o => (o._id, o.payment.status)) = [("o1", "completed")] ∧
    dbPaid.stores.map (fun s => (s.analytics.orders, s.analytics.revenue)) = [(1, 100)] ∧
    dbPaidTwice.stores.map (fun s => (s.analytics.orders, s.analytics.revenue)) =
      [(2, 200)] ∧
    dbPaid.products.map (fun p => (p.sales, p.revenue)) = [(2, 100)] ∧
    dbPaidTwice.products.map (fun p => (p.sales, p.revenue)) = [(4, 200)] ∧
    dbPaid.users.map (fun u => (u.affiliate.totalEarnings, u.affiliate.pendingPayouts)) =
      [(0, 0), (5, 5)] ∧
    dbPaidTwice.users.map (fun u => (u.affiliate.totalEarnings, u.affiliate.pendingPayouts)) =
      [(0, 0), (10, 10)] ∧
    dbPaidTwice.stores ≠ dbPaid.stores ∧
    dbPaidTwice.products ≠ dbPaid.products ∧
    dbPaidTwice.users ≠ dbPaid.users :=
  ⟨by decide!, by decide!, by decide!, by decide!, by decide!, by decide!, by decide!,
    by decide!, by decide!, by decide!, by decide!, by decide!⟩

/-- C6, amended: when a correctly signed `COMPLETE` notification for a stored
order has been processed (answered 200), the order is stored with
`payment.status = "completed"`, and processing the same notification again
applies the increments again: relative to the state after the first processing
the store of the order has `analytics.orders` grown by 1 and `analytics.revenue`
by `pricing.total`, every product has its sales and revenue grown by the
quantities and subtotals of the lines that reference it, and the referrer, if
any, has `totalEarnings` and `pendingPayouts` grown by the commission amount;
when the second processing is answered 200 the order keeps its status, its
`payment.status` and its transaction identifiers. -/
theorem C6_second_processing (env : Env) (t1 t2 : Tick) (db : Db) (data : Fields)
    (sig : String) (order : Order)
    (hcalc : generatePayFastSignature env.md5 (data.filter fun kv => kv.1 != "signature")
      env.passphrase = some sig)
    (hsig : (data.lookup "signature").join = some sig)
    (hid : (data.lookup "custom_str1").join.bind (findById Order._id db.orders) = some order)
    (hst : (data.lookup "payment_status").join = some "COMPLETE")
    (hok : (payfastNotify env t1 db data).1.status = 200) :
    ∃ o1, findById Order._id (payfastNotify env t1 db data).2.orders order._id = some o1 ∧
      o1.payment.status = "completed" ∧
      (∀ s1, findById Store._id (payfastNotify env t1 db data).2.stores o1.store = some s1 →
        ∃ s2, findById Store._id
            (payfastNotify env t2 (payfastNotify env t1 db data).2 data).2.stores o1.store =
              some s2 ∧
          s2.analytics.orders = s1.analytics.orders + 1 ∧
          s2.analytics.revenue = s1.analytics.revenue + o1.pricing.total) ∧
      (∀ pid p1,
        findById Product._id (payfastNotify env t1 db data).2.products pid = some p1 →
        ∃ p2, findById Product._id
            (payfastNotify env t2 (payfastNotify env t1 db data).2 data).2.products pid =
              some p2 ∧
          p2.sales = p1.sales + soldQuantity o1.items pid ∧
          p2.revenue = p1.revenue + soldRevenue o1.items pid) ∧
      (∀ a u1, o1.affiliate = some a →
        findById User._id (payfastNotify env t1 db data).2.users a.referrer = some u1 →
        ∃ u2, findById User._id
            (payfastNotify env t2 (payfastNotify env t1 db data).2 data).2.users a.referrer =
              some u2 ∧
          u2.affiliate.totalEarnings = u1.affiliate.totalEarnings + a.commission.amount ∧
          u2.affiliate.pendingPayouts = u1.affiliate.pendingPayouts + a.commission.amount) ∧
      ((payfastNotify env t2 (payfastNotify env t1 db data).2 data).1.status = 200 →
        ∃ o2, findById Order._id
            (payfastNotify env t2 (payfastNotify env t1 db data).2 data).2.orders order._id =
              some o2 ∧
          o2.status = o1.status ∧ o2.payment.status = o1.payment.status ∧
          o2.payment.transactionId = o1.payment.transactionId ∧
          o2.payment.payfastPaymentId = o1.payment.payfastPaymentId) := by
  obtain ⟨_, _, _, ho⟩ :=
    payfastNotify_complete_effects env t1 db data sig order hcalc hsig hid hst
  obtain ⟨hx, _⟩ := bind_findById_key db.orders _ order hid
  have hfind1 := ho hok
  have hid1 : (data.lookup "custom_str1").join.bind
      (findById Order._id (payfastNotify env t1 db data).2.orders) =
        some (calculateTotals (generateOrderNumber t1 (markCompleted t1 data order))) := by
    rw [hx]
    simpa using hfind1
  obtain ⟨hp2, hs2, hu2, ho2⟩ :=
    payfastNotify_complete_effects env t2 (payfastNotify env t1 db data).2 data sig
      (calculateTotals (generateOrderNumber t1 (markCompleted t1 data order)))
      hcalc hsig hid1 hst
  have hpay1 : (calculateTotals (generateOrderNumber t1 (markCompleted t1 data order))).payment =
      (markCompleted t1 data order).payment := hooks_payment t1 _
  have hid2 : (calculateTotals (generateOrderNumber t1 (markCompleted t1 data order)))._id =
      order._id := by
    rw [hooks_id]
    rfl
  refine ⟨_, hfind1, ?_, ?_, ?_, ?_, ?_⟩
  · rw [hpay1]
    rfl
  · intro s1 h
    exact ⟨_, hs2 s1 h, rfl, rfl⟩
  · intro pid p1 h
    exact ⟨_, hp2 pid p1 h, rfl, rfl⟩
  · intro a u1 ha h
    exact ⟨_, hu2 a u1 ha h, rfl, rfl⟩
  · intro hok2
    have h2 := ho2 hok2
    rw [hid2] at h2
    refine ⟨_, h2, ?_, ?_, ?_, ?_⟩
    · rw [hooks_status, hooks_status]
      rfl
    · rw [hooks_payment, hpay1]
      rfl
    · rw [hooks_payment, hpay1]
      rfl
    · rw [hooks_payment, hpay1]
      rfl

/-- Witness of C6: the signed completion notification for `o1`, processed on
`db1` and then once more. -/
theorem C6_second_processing_witness :
    (generatePayFastSignature env0.md5 (noteComplete.filter fun kv => kv.1 != "signature")
        env0.passphrase = some sig0 ∧
      (noteComplete.lookup "signature").join = some sig0 ∧
      (noteComplete.lookup "custom_str1").join.bind (findById Order._id db1.orders) =
        some order1 ∧
      (noteComplete.lookup "payment_status").join = some "COMPLETE" ∧
      (payfastNotify env0 t1 db1 noteComplete).1.status = 200) ∧
    (∃ o1, findById Order._id (payfastNotify env0 t1 db1 noteComplete).2.orders order1._id =
        some o1 ∧
      o1.payment.status = "completed" ∧
      (∀ s1, findById Store._id (payfastNotify env0 t1 db1 noteComplete).2.stores o1.store =
          some s1 →
        ∃ s2, findById Store._id
            (payfastNotify env0 t2 (payfastNotify env0 t1 db1 noteComplete).2
              noteComplete).2.stores o1.store = some s2 ∧
          s2.analytics.orders = s1.analytics.orders + 1 ∧
          s2.analytics.revenue = s1.analytics.revenue + o1.pricing.total)) :=
  ⟨⟨by decide!, by decide!, by decide!, by decide!, by decide!⟩,
    (C6_second_processing env0 t1 t2 db1 noteComplete sig0 order1 (by decide!) (by decide!)
      (by decide!) (by decide!) (by decide!)).imp fun _ h => ⟨h.1, h.2.1, h.2.2.1⟩⟩

/-! ## Claims on the payment status -/

/-- C7, as stated, fails: on the order `o1` of `db1` a signed notification that
reports a failure, arriving after the completion notification, moves
`payment.status` from `completed` to `failed`; in the other order of arrival it
moves from `failed` to `completed`. -/
theorem C7_counterexample :
    paymentStatus db1 "o1" = some "pending" ∧
    paymentStatus (run env0 db1 [(t1, .notify noteComplete)]) "o1" = some "completed" ∧
    paymentStatus (run env0 db1 [(t1, .notify noteComplete), (t2, .notify noteFailed)]) "o1" =
      some "failed" ∧
    paymentStatus (run env0 db1 [(t1, .notify noteFailed)]) "o1" = some "failed" ∧
    paymentStatus (run env0 db1 [(t1, .notify noteFailed), (t2, .notify noteComplete)]) "o1" =
      some "completed" :=
  ⟨by decide!, by decide!, by decide!, by decide!, by decide!⟩

/-- C7, amended: for a stored order with `payment.status = s`, a status update
(either route) and a refund request leave `payment.status` as it was; a
correctly signed notification that names the order (taken to be valid, among
distinct order numbers) is answered 200 and sets it to `completed` when
`payment_status` is `COMPLETE` and to `failed` otherwise, whatever it was; no
other notification changes it to anything else. Hence after every sequence of
requests the status is `s`, `completed` or `failed`, and an order whose status
is not `pending` is never moved back to `pending`. -/
theorem C7_payment_status_transitions (env : Env) (db : Db) (id : ObjectId) (s : String)
    (hs : paymentStatus db id = some s) :
    (∀ t r, ∃ s1, paymentStatus (handle env t db r).2 id = some s1 ∧
      (s1 = s ∨ ((∃ data, r = .notify data) ∧ (s1 = "completed" ∨ s1 = "failed")))) ∧
    (∀ t userId oid body,
      paymentStatus (updateOrderStatus env t db userId oid body).2 id = some s ∧
      paymentStatus (updatePaymentOrderStatus env t db userId oid body).2 id = some s) ∧
    (∀ t userId oid body, paymentStatus (refundOrder env t db userId oid body).2 id = some s) ∧
    (∀ t data order, (∀ kv ∈ data, kv.1 ≠ "signature") →
      generatePayFastSignature env.md5 data env.passphrase ≠ none →
      (data.lookup "custom_str1").join = some id →
      findById Order._id db.orders id = some order →
      validateOrder order = true → uniqueOrderNumbers db.orders →
      (payfastNotify env t db (signed env data)).1 = ⟨200, .text "OK"⟩ ∧
      paymentStatus (payfastNotify env t db (signed env data)).2 id =
        some (if (data.lookup "payment_status").join = some "COMPLETE" then "completed"
          else "failed")) ∧
    (∀ reqs, ∃ s1, paymentStatus (run env db reqs) id = some s1 ∧
      (s1 = s ∨ s1 = "completed" ∨ s1 = "failed")) ∧
    (s ≠ "pending" → ∀ reqs, paymentStatus (run env db reqs) id ≠ some "pending") := by
  have step : ∀ (t : Tick) (r : Request) (d : Db) (x : String), paymentStatus d id = some x →
      ∃ s1, paymentStatus (handle env t d r).2 id = some s1 ∧
        (s1 = x ∨ ((∃ data, r = .notify data) ∧ (s1 = "completed" ∨ s1 = "failed"))) := by
    intro t r d x hx
    cases r with
    | notify data =>
      obtain ⟨s1, h1, h2⟩ := payfastNotify_status env t d data id x hx
      refine ⟨s1, h1, ?_⟩
      rcases h2 with h | h
      · exact Or.inl h
      · exact Or.inr ⟨⟨data, rfl⟩, h⟩
    | updateStatus userId oid body =>
      exact ⟨x, updateOrderStatus_status env t d userId oid body id x hx, Or.inl rfl⟩
    | updatePaymentStatus userId oid body =>
      exact ⟨x, updatePaymentOrderStatus_status env t d userId oid body id x hx, Or.inl rfl⟩
    | refund userId oid body =>
      exact ⟨x, refundOrder_status env t d userId oid body id x hx, Or.inl rfl⟩
  have seq : ∀ (reqs : List (Tick × Request)) (d : Db) (x : String),
      paymentStatus d id = some x →
      ∃ s1, paymentStatus (run env d reqs) id = some s1 ∧
        (s1 = x ∨ s1 = "completed" ∨ s1 = "failed") := by
    intro reqs
    induction reqs with
    | nil =>
      intro d x hx
      exact ⟨x, hx, Or.inl rfl⟩
    | cons tr rest ih =>
      intro d x hx
      obtain ⟨t, r⟩ := tr
      obtain ⟨y, hy, hyx⟩ := step t r d x hx
      obtain ⟨z, hz, hzy⟩ := ih (handle env t d r).2 y hy
      refine ⟨z, hz, ?_⟩
      rcases hzy with h | h
      · rcases hyx with h2 | ⟨_, h2⟩
        · exact Or.inl (h.trans h2)
        · exact Or.inr (h ▸ h2)
      · exact Or.inr h
  refine ⟨fun t r => step t r db s hs,
    fun t userId oid body =>
      ⟨updateOrderStatus_status env t db userId oid body id s hs,
        updatePaymentOrderStatus_status env t db userId oid body id s hs⟩,
    fun t userId oid body => refundOrder_status env t db userId oid body id s hs,
    fun t data order hkey hsig hid hfind hv hu =>
      payfastNotify_sets env t db data id order hkey hsig hid hfind hv hu,
    fun reqs => seq reqs db s hs, ?_⟩
  intro hne reqs hp
  obtain ⟨z, hz, hzs⟩ := seq reqs db s hs
  rw [hz] at hp
  have hzp : z = "pending" := by simpa using hp
  rcases hzs with h | h | h
  · exact hne (h ▸ hzp)
  · rw [hzp] at h
    exact absurd h (by decide)
  · rw [hzp] at h
    exact absurd h (by decide)

/-- Witness of C7: the pending order `o1` of `db1`; the signed completion
notification is answered 200 and makes it `completed`, a refund by the store
owner then leaves it `completed`. -/
theorem C7_payment_status_transitions_witness :
    paymentStatus db1 "o1" = some "pending" ∧
    ((∀ kv ∈ note0, kv.1 ≠ "signature") ∧
      generatePayFastSignature env0.md5 note0 env0.passphrase ≠ none ∧
      (note0.lookup "custom_str1").join = some "o1" ∧
      findById Order._id db1.orders "o1" = some order1 ∧
      validateOrder order1 = true ∧ uniqueOrderNumbers db1.orders) ∧
    ((payfastNotify env0 t1 db1 (signed env0 note0)).1 = ⟨200, .text "OK"⟩ ∧
      paymentStatus (payfastNotify env0 t1 db1 (signed env0 note0)).2 "o1" =
        some (if (note0.lookup "payment_status").join = some "COMPLETE" then "completed"
          else "failed")) ∧
    (∀ reqs, ∃ s1, paymentStatus (run env0 db1 reqs) "o1" = some s1 ∧
      (s1 = "pending" ∨ s1 = "completed" ∨ s1 = "failed")) ∧
    paymentStatus (run env0 db1 [(t1, .notify noteComplete), (t2, .refund "u1" "o1" {})]) "o1" =
      some "completed" :=
  ⟨by decide!, ⟨by decide, by decide, by decide, by decide!, by decide!, by decide⟩,
    (C7_payment_status_transitions env0 db1 "o1" "pending" (by decide!)).2.2.2.1 t1 note0 order1
      (by decide) (by decide) (by decide) (by decide!) (by decide!) (by decide),
    (C7_payment_status_transitions env0 db1 "o1" "pending" (by decide!)).2.2.2.2.1,
    by decide!⟩

/-! ## Claims on the refund -/

/-- C9, as stated, fails: a refund request by `u2`, who does not own the store
of `o1`, is answered 403, not 400, both when the payment of `o1` is still
pending and when the requested amount exceeds the total of the paid order. -/
theorem C9_counterexample :
    paymentStatus db1 "o1" = some "pending" ∧
    (refundOrder env0 t2 db1 "u2" "o1" {}).1.status = 403 ∧
    paymentStatus dbPaid "o1" = some "completed" ∧
    dbPaid.orders.map (fun o => o.pricing.total) = [100] ∧
    (refundOrder env0 t2 dbPaid "u2" "o1" { amount := some 1000 }).1.status = 403 :=
  ⟨by decide!, by decide!, by decide!, by decide!, by decide!⟩

/-- C9, amended: for a stored order, a refund request by the owner of the store
of the order is answered 400 whenever `payment.status` is not `completed`, and
whenever a non-zero requested amount is greater than `pricing.total`; for every
requester such a request is answered 400, 403 or 500, and in all these cases the
database, so the status, payment sub-record and notes of the order, is left as it
was. -/
theorem C9_refund_rejected (env : Env) (t : Tick) (db : Db) (userId id : ObjectId)
    (body : RefundBody) (order : Order)
    (hfind : findById Order._id db.orders id = some order) :
    (∀ store, findById Store._id db.stores order.store = some store → store.owner = userId →
      (order.payment.status ≠ "completed" →
        refundOrder env t db userId id body =
          (⟨400, .message "Cannot refund unpaid order"⟩, db)) ∧
      (∀ a, body.amount = some a → a ≠ 0 → a > order.pricing.total →
        (refundOrder env t db userId id body).1.status = 400 ∧
        (refundOrder env t db userId id body).2 = db)) ∧
    ((order.payment.status ≠ "completed" ∨
        ∃ a, body.amount = some a ∧ a ≠ 0 ∧ a > order.pricing.total) →
      (refundOrder env t db userId id body).2 = db ∧
      ((refundOrder env t db userId id body).1.status = 400 ∨
        (refundOrder env t db userId id body).1.status = 403 ∨
        (refundOrder env t db userId id body).1.status = 500)) := by
  have hamount : ∀ a, body.amount = some a → a ≠ 0 → a > order.pricing.total →
      refundAmountOf body order > order.pricing.total := by
    intro a ha hne hgt
    simp only [refundAmountOf, numOr, ha, hne, if_false]
    exact hgt
  refine ⟨?_, ?_⟩
  · intro store hstore howner
    refine ⟨?_, ?_⟩
    · intro hstatus
      unfold refundOrder
      simp [hfind, hstore, howner, hstatus]
    · intro a ha hne hgt
      have hgt2 := hamount a ha hne hgt
      unfold refundOrder
      by_cases hstatus : order.payment.status = "completed"
      · simp [hfind, hstore, howner, hstatus, hgt2]
      · simp [hfind, hstore, howner, hstatus]
  · intro h
    unfold refundOrder
    simp only [hfind]
    cases hstore : findById Store._id db.stores order.store with
    | none => simp
    | some store =>
      by_cases howner : store.owner = userId
      · by_cases hstatus : order.payment.status = "completed"
        · rcases h with h | ⟨a, ha, hne, hgt⟩
          · exact absurd hstatus h
          · have hgt2 := hamount a ha hne hgt
            simp [howner, hstatus, hgt2]
        · simp [howner, hstatus]
      · simp [howner]

/-- Witness of C9: the owner `u1` asks a refund of the pending order `o1`. -/
theorem C9_refund_rejected_witness :
    findById Order._id db1.orders "o1" = some order1 ∧
    findById Store._id db1.stores order1.store = some acme ∧ acme.owner = "u1" ∧
    order1.payment.status ≠ "completed" ∧
    refundOrder env0 t2 db1 "u1" "o1" {} =
      (⟨400, .message "Cannot refund unpaid order"⟩, db1) :=
  ⟨by decide!, by decide!, rfl, by decide,
    ((C9_refund_rejected env0 t2 db1 "u1" "o1" {} order1 (by decide!)).1 acme (by decide!)
      rfl).1 (by decide)⟩

/-- C10, as stated, fails: the owner `u1` requests a refund of amount 0 on the
paid order `o1` (total 100); the request succeeds and records a refund amount of
100, not the requested 0. -/
theorem C10_counterexample :
    paymentStatus dbPaid "o1" = some "completed" ∧
    dbPaid.orders.map (fun o => o.pricing.total) = [100] ∧
    (refundOrder env0 t2 dbPaid "u1" "o1" { amount := some 0 }).1.status = 200 ∧
    (refundOrder env0 t2 dbPaid "u1" "o1" { amount := some 0 }).2.orders.map
      (fun o => o.payment.refundAmount) = [some 100] :=
  ⟨by decide!, by decide!, by decide!, by decide!⟩

/-- C10, amended: a refund request answered 200 stores the order with a
`payment.refundAmount` that equals the requested amount when a non-zero one is
given and the full `pricing.total` when none is given, and that never exceeds
`pricing.total`. -/
theorem C10_refund_amount (env : Env) (t : Tick) (db : Db) (userId id : ObjectId)
    (body : RefundBody) (hok : (refundOrder env t db userId id body).1.status = 200) :
    ∃ order saved,
      findById Order._id db.orders id = some order ∧
      findById Order._id (refundOrder env t db userId id body).2.orders id = some saved ∧
      (∀ a, body.amount = some a → a ≠ 0 → saved.payment.refundAmount = some a) ∧
      (body.amount = none → saved.payment.refundAmount = some order.pricing.total) ∧
      (∃ r, saved.payment.refundAmount = some r ∧ r ≤ order.pricing.total) := by
  obtain ⟨order, store, saved, orders1, hfind, _, _, _, hle, hsave, hdb⟩ :=
    refundOrder_ok env t db userId id body hok
  have hkey := findById_key Order._id db.orders id order hfind
  have h1 := (saveOrder_some env t db.orders _ saved orders1 hsave).1
  have h2 := saveOrder_find env t db.orders _ saved orders1 hsave id
  have hid : (markRefunded t body order)._id = order._id := rfl
  rw [hid, hkey, if_pos rfl] at h2
  have hamt : saved.payment.refundAmount = some (refundAmountOf body order) := by
    rw [h1, hooks_payment]
    rfl
  refine ⟨order, saved, hfind, ?_, ?_, ?_, ?_⟩
  · rw [hdb]
    exact h2
  · intro a ha hne
    rw [hamt]
    simp [refundAmountOf, numOr, ha, hne]
  · intro hnone
    rw [hamt]
    simp [refundAmountOf, numOr, hnone]
  · exact ⟨_, hamt, hle⟩

/-- Witness of C10: the owner `u1` refunds 40 of the paid order `o1`. -/
theorem C10_refund_amount_witness :
    (refundOrder env0 t2 dbPaid "u1" "o1" { amount := some 40 }).1.status = 200 ∧
    (∃ order saved,
      findById Order._id dbPaid.orders "o1" = some order ∧
      findById Order._id
        (refundOrder env0 t2 dbPaid "u1" "o1" { amount := some 40 }).2.orders "o1" =
          some saved ∧
      (∀ a, (some 40 : Option Num) = some a → a ≠ 0 → saved.payment.refundAmount = some a) ∧
      ((some 40 : Option Num) = none → saved.payment.refundAmount = some order.pricing.total) ∧
      (∃ r, saved.payment.refundAmount = some r ∧ r ≤ order.pricing.total)) ∧
    (refundOrder env0 t2 dbPaid "u1" "o1" { amount := some 40 }).2.orders.map
      (fun o => (o.payment.refundAmount, o.pricing.total)) = [(some 40, 100)] :=
  ⟨by decide!,
    C10_refund_amount env0 t2 dbPaid "u1" "o1" { amount := some 40 } (by decide!),
    by decide!⟩

/-- C11, as stated, fails: the full refund of the paid order `o1` sets
`order.status` to `refunded` and leaves `payment.status` at `completed`, and a
second refund request on the same order is answered 200 again. -/
theorem C11_counterexample :
    paymentStatus dbPaid "o1" = some "completed" ∧
    (refundOrder env0 t2 dbPaid "u1" "o1" {}).1.status = 200 ∧
    dbRefunded.orders.map (fun o => (o.status, o.payment.status, o.payment.refundAmount,
      o.payment.refundedAt)) = [("refunded", "completed", some 100, some 1700000300000)] ∧
    paymentStatus dbRefunded "o1" ≠ some "refunded" ∧
    (refundOrder env0 t3 dbRefunded "u1" "o1" {}).1.status = 200 :=
  ⟨by decide!, by decide!, by decide!, by decide!, by decide!⟩

/-- C11, amended: a refund request answered 200 stores the order with
`status = "refunded"`, with `payment.status` still `completed`, and with
`payment.refundAmount` and `payment.refundedAt` recorded; a second refund request
by the same user on the same order is therefore not rejected by the check on
`payment.status`: it is answered 200 or 500 whenever its amount does not exceed
the total, and is never answered `Cannot refund unpaid order`. -/
theorem C11_refund_marks (env : Env) (t : Tick) (db : Db) (userId id : ObjectId)
    (body : RefundBody) (hok : (refundOrder env t db userId id body).1.status = 200) :
    ∃ order saved,
      findById Order._id db.orders id = some order ∧
      findById Order._id (refundOrder env t db userId id body).2.orders id = some saved ∧
      saved.status = "refunded" ∧
      saved.payment.status = "completed" ∧
      saved.payment.refundAmount = some (refundAmountOf body order) ∧
      saved.payment.refundedAt = some t.now ∧
      (∀ (t2 : Tick) (body2 : RefundBody),
        (refundOrder env t2 (refundOrder env t db userId id body).2 userId id body2).1 ≠
          ⟨400, .message "Cannot refund unpaid order"⟩ ∧
        (refundAmountOf body2 saved ≤ saved.pricing.total →
          (refundOrder env t2 (refundOrder env t db userId id body).2 userId id body2).1.status
              = 200 ∨
          (refundOrder env t2 (refundOrder env t db userId id body).2 userId id body2).1.status
              = 500)) := by
  obtain ⟨order, store, saved, orders1, hfind, hstore, howner, hstatus, _, hsave, hdb⟩ :=
    refundOrder_ok env t db userId id body hok
  have hkey := findById_key Order._id db.orders id order hfind
  have h1 := (saveOrder_some env t db.orders _ saved orders1 hsave).1
  have h2 := saveOrder_find env t db.orders _ saved orders1 hsave id
  have hid : (markRefunded t body order)._id = order._id := rfl
  rw [hid, hkey, if_pos rfl] at h2
  have hpay : saved.payment = (markRefunded t body order).payment := by
    rw [h1, hooks_payment]
  have hst2 : saved.payment.status = "completed" := by
    rw [hpay]
    exact hstatus
  have hstore2 : saved.store = order.store := by
    rw [h1, hooks_store]
    rfl
  refine ⟨order, saved, hfind, ?_, ?_, hst2, ?_, ?_, ?_⟩
  · rw [hdb]
    exact h2
  · rw [h1, hooks_status]
    rfl
  · rw [hpay]
    rfl
  · rw [hpay]
    rfl
  · intro t2 body2
    rw [hdb]
    unfold refundOrder
    simp only [h2, hstore2, hstore, howner, hst2, ne_eq, not_true_eq_false, if_false]
    by_cases hgt : refundAmountOf body2 saved > saved.pricing.total
    · simp only [hgt, if_true]
      refine ⟨by simp, fun hle => absurd hgt (not_lt.2 hle)⟩
    · simp only [hgt, if_false]
      cases saveOrder env t2 orders1 (markRefunded t2 body2 saved) with
      | none => exact ⟨by simp, fun _ => Or.inr rfl⟩
      | some r => exact ⟨by simp, fun _ => Or.inl rfl⟩

/-- Witness of C11: the full refund of the paid order `o1` by its store owner. -/
theorem C11_refund_marks_witness :
    (refundOrder env0 t2 dbPaid "u1" "o1" {}).1.status = 200 ∧
    (∃ order saved,
      findById Order._id dbPaid.orders "o1" = some order ∧
      findById Order._id (refundOrder env0 t2 dbPaid "u1" "o1" {}).2.orders "o1" =
        some saved ∧
      saved.status = "refunded" ∧
      saved.payment.status = "completed" ∧
      saved.payment.refundAmount = some (refundAmountOf {} order) ∧
      saved.payment.refundedAt = some t2.now) :=
  ⟨by decide!,
    (C11_refund_marks env0 t2 dbPaid "u1" "o1" {} (by decide!)).imp fun _ h =>
      h.imp fun _ h => ⟨h.1, h.2.1, h.2.2.1, h.2.2.2.1, h.2.2.2.2.1, h.2.2.2.2.2.1⟩⟩

/-- C12, as stated, fails: the order `o1` carries the note "gift wrap"; after a
successful refund with reason "damaged" its notes are "Refund: damaged" and the
earlier note is gone. -/
theorem C12_counterexample :
    dbNoted.orders.map (fun o => o.notes) = [some "gift wrap"] ∧
    (refundOrder env0 t3 dbNoted "u1" "o1" { reason := some "damaged" }).1.status = 200 ∧
    (refundOrder env0 t3 dbNoted "u1" "o1" { reason := some "damaged" }).2.orders.map
      (fun o => o.notes) = [some "Refund: damaged"] ∧
    ¬ ("gift wrap".toList <+: "Refund: damaged".toList) :=
  ⟨by decide!, by decide!, by decide!, by decide⟩

/-- C12, amended: a refund request answered 200 replaces the notes of the order:
whatever the notes were, afterwards they are exactly `Refund: <reason>`, or
`Refund: No reason provided` when no reason (or an empty one) is given. -/
theorem C12_refund_note (env : Env) (t : Tick) (db : Db) (userId id : ObjectId)
    (body : RefundBody) (hok : (refundOrder env t db userId id body).1.status = 200) :
    ∃ saved,
      findById Order._id (refundOrder env t db userId id body).2.orders id = some saved ∧
      saved.notes = some ("Refund: " ++ strOr body.reason "No reason provided") ∧
      (∀ reason, body.reason = some reason → reason ≠ "" →
        saved.notes = some ("Refund: " ++ reason)) ∧
      (body.reason = none → saved.notes = some "Refund: No reason provided") := by
  obtain ⟨order, store, saved, orders1, hfind, _, _, _, _, hsave, hdb⟩ :=
    refundOrder_ok env t db userId id body hok
  have hkey := findById_key Order._id db.orders id order hfind
  have h1 := (saveOrder_some env t db.orders _ saved orders1 hsave).1
  have h2 := saveOrder_find env t db.orders _ saved orders1 hsave id
  have hid : (markRefunded t body order)._id = order._id := rfl
  rw [hid, hkey, if_pos rfl] at h2
  have hnotes : saved.notes = some ("Refund: " ++ strOr body.reason "No reason provided") := by
    rw [h1, hooks_notes]
    rfl
  refine ⟨saved, ?_, hnotes, ?_, ?_⟩
  · rw [hdb]
    exact h2
  · intro reason hr hne
    rw [hnotes]
    simp [strOr, hr, hne]
  · intro hr
    rw [hnotes]
    simp [strOr, hr]

/-- Witness of C12: the refund of the noted order `o1` with reason "damaged". -/
theorem C12_refund_note_witness :
    (refundOrder env0 t3 dbNoted "u1" "o1" { reason := some "damaged" }).1.status = 200 ∧
    (∃ saved,
      findById Order._id
        (refundOrder env0 t3 dbNoted "u1" "o1" { reason := some "damaged" }).2.orders "o1" =
          some saved ∧
      saved.notes = some ("Refund: " ++ strOr (some "damaged") "No reason provided")) :=
  ⟨by decide!,
    (C12_refund_note env0 t3 dbNoted "u1" "o1" { reason := some "damaged" } (by decide!)).imp
      fun _ h => ⟨h.1, h.2.1⟩⟩

/-! ## Claims on the pricing of a new order and on bad lines -/

/-- C27, at the failing input: an order for 2 × Widget and 1 × Widget. On the
document of every request the totals hook would recompute the subtotal and total
that the handler computed, the commission is 5% of that total and the amount
written for PayFast is its `toFixed(2)`; but the document is rejected before the
hooks run, so no pricing is stored, no total is returned and no amount is sent:
answer 500, nothing stored. -/
theorem C27_pricing_not_stored :
    (draftOrder tHex dbHex none reqTwoLines).toOption.map
        (fun d => (d.2.2.1, d.2.2.2.pricing.subtotal, d.2.2.2.pricing.total)) =
      some (150, 150, 150) ∧
    createOrder env0 tHex dbHex none reqTwoLines = (⟨500, .message "Server error"⟩, dbHex) ∧
    (∀ t db user body customer store total o,
      draftOrder t db user body = .ok (customer, store, total, o) →
        (calculateTotals (generateOrderNumber t o)).pricing.subtotal = o.pricing.subtotal ∧
        (calculateTotals (generateOrderNumber t o)).pricing.total = total ∧
        (calculateTotals (generateOrderNumber t o)).items = o.items ∧
        o.pricing.total = total ∧
        (∀ a, o.affiliate = some a → a.commission.amount = total * (5 / 100)) ∧
        (∀ env saved, (payfastData env customer store body.storeId saved total).lookup "amount" =
          some (some (env.toFixed2 total)))) := by
  refine ⟨by decide!, by decide!, ?_⟩
  intro t db user body customer store total o h
  obtain ⟨_, _, _, _, lines, hl, htot, ho⟩ := draftOrder_ok t db user body customer store total o h
  have hcons := lines_consistent db.products body.items lines hl
  obtain ⟨hmap, hsum⟩ := rederive_consistent lines hcons
  have hpr := hooks_pricing t o
  have hitems : o.items = lines := by rw [ho]; rfl
  have hsub : o.pricing.subtotal = (lines.map fun l => l.subtotal).sum := by rw [ho]; rfl
  have hship : o.pricing.shipping = shippingCost store := by rw [ho]; rfl
  have htax : o.pricing.tax = taxAmount store (lines.map fun l => l.subtotal).sum := by
    rw [ho]
    rfl
  have hdisc : o.pricing.discount = 0 := by rw [ho]; rfl
  have htotal : o.pricing.total = total := by
    rw [ho, htot]
    rfl
  rw [hitems, hsum] at hpr
  refine ⟨?_, ?_, ?_, htotal, ?_, ?_⟩
  · rw [hpr, hsub]
  · rw [hpr, htot, hship, htax, hdisc]
    simp
  · rw [hooks_items, hitems]
    exact hmap
  · intro a ha
    have haff : o.affiliate = resolveAffiliate db.users body.referralCode total := by
      rw [ho]
      rfl
    rw [haff] at ha
    unfold resolveAffiliate at ha
    split at ha
    · exact absurd ha (by simp)
    · split at ha
      · exact absurd ha (by simp)
      · split at ha
        · exact absurd ha (by simp)
        · simp only [Option.some.injEq] at ha
          rw [← ha]
  · intro env saved
    simp [payfastData, List.lookup]

/-- C19 as stated fails: a request whose second line names a product that does
not exist is answered 404 when it names a store that does not exist, and 500 when
an earlier line carries an id that is no `ObjectId`, although its second line
names an inactive product; not 400. -/
theorem C19_counterexample :
    reqMissingStore.items.map (fun i => findById Product._id dbHex.products i.productId) =
      [some widgetHex, none] ∧
    createOrder env0 tHex dbHex none reqMissingStore =
      (⟨404, .message "Store not found"⟩, dbHex) ∧
    reqMalformed.items.map (fun i => findById Product._id dbHex.products i.productId) =
      [none, some retiredHex] ∧
    retiredHex.isActive = false ∧
    createOrder env0 tHex dbHex none reqMalformed = (⟨500, .message "Server error"⟩, dbHex) := by
  decide!

/-- C19, amended: when some requested item, at any position, names a product
that does not exist or is inactive, the handler answers 400, 404 (the named store
does not exist) or 500 (the `storeId`, or the `productId` of a line up to the bad
one, is no `ObjectId`) and returns the database as it was: no order is stored and
no product, store or user is modified. The answer is 400 when the named store
exists and the `storeId` and every `productId` are well formed; with a customer
in the request it then names a bad line of the request. -/
theorem C19_bad_item_rejected (env : Env) (t : Tick) (db : Db) (user : Option ObjectId)
    (body : CreateOrderBody) (item : ItemReq) (hmem : item ∈ body.items)
    (hbad : findById Product._id db.products item.productId = none ∨
      ∃ p, findById Product._id db.products item.productId = some p ∧ p.isActive = false) :
    (createOrder env t db user body).2 = db ∧
    ((createOrder env t db user body).1.status = 400 ∨
      (createOrder env t db user body).1.status = 404 ∨
      (createOrder env t db user body).1.status = 500) ∧
    (∀ store, findById Store._id db.stores body.storeId = some store →
      isObjectId body.storeId = true → (∀ i ∈ body.items, isObjectId i.productId = true) →
      (createOrder env t db user body).1.status = 400 ∧
      (body.customer ≠ none → ∃ bad ∈ body.items,
        (createOrder env t db user body).1 = badProduct bad.productId)) := by
  obtain ⟨r, hres, hr1, hr2⟩ := resolveItems_bad db.products body.items item hmem hbad 0 []
  refine ⟨createOrder_db env t db user body, ?_, ?_⟩
  · rw [createOrder_eq]
    unfold draftOrder
    cases hc : body.customer with
    | none => exact Or.inl rfl
    | some customer =>
      simp only
      by_cases hf : (body.items.isEmpty || body.storeId == "") = true
      · rw [if_pos hf]
        exact Or.inl rfl
      · rw [if_neg hf]
        by_cases hid : isObjectId body.storeId = true
        · rw [if_pos hid]
          cases hstore : findById Store._id db.stores body.storeId with
          | none => exact Or.inr (Or.inl rfl)
          | some store =>
            simp only [hres]
            rcases hr1 with e | ⟨bad, _, e⟩
            · rw [e]
              exact Or.inr (Or.inr rfl)
            · rw [e]
              exact Or.inl rfl
        · rw [if_neg hid]
          exact Or.inr (Or.inr rfl)
  · intro store hstore hid hall
    obtain ⟨bad, hb, e⟩ := hr2 hall
    rw [createOrder_eq]
    unfold draftOrder
    cases hc : body.customer with
    | none => exact ⟨rfl, fun h => absurd rfl h⟩
    | some customer =>
      simp only
      by_cases hf : (body.items.isEmpty || body.storeId == "") = true
      · rw [if_pos hf]
        have hne : body.items ≠ [] := List.ne_nil_of_mem hmem
        have hs : body.storeId ≠ "" := by
          intro he
          rw [he] at hid
          exact absurd hid (by decide)
        have : (body.items.isEmpty || body.storeId == "") = false := by
          cases hi : body.items with
          | nil => exact absurd hi hne
          | cons a as => simpa using hs
        rw [this] at hf
        exact absurd hf (by simp)
      · rw [if_neg hf, if_pos hid]
        simp only [hstore, hres, e]
        exact ⟨rfl, fun _ => ⟨bad, hb, rfl⟩⟩

/-- Witness of C19: the second line of the request names a product that does
not exist; the store exists and the ids are well formed, the answer is 400 with
the id of that product and the database is as it was. -/
theorem C19_bad_item_rejected_witness :
    (({ productId := "650c00000000000000000009", quantity := 1 } : ItemReq) ∈ reqMissing.items ∧
      findById Product._id dbHex.products "650c00000000000000000009" = none) ∧
    ((createOrder env0 tHex dbHex none reqMissing).2 = dbHex ∧
    ((createOrder env0 tHex dbHex none reqMissing).1.status = 400 ∨
      (createOrder env0 tHex dbHex none reqMissing).1.status = 404 ∨
      (createOrder env0 tHex dbHex none reqMissing).1.status = 500) ∧
    (∀ store, findById Store._id dbHex.stores reqMissing.storeId = some store →
      isObjectId reqMissing.storeId = true →
      (∀ i ∈ reqMissing.items, isObjectId i.productId = true) →
      (createOrder env0 tHex dbHex none reqMissing).1.status = 400 ∧
      (reqMissing.customer ≠ none → ∃ bad ∈ reqMissing.items,
        (createOrder env0 tHex dbHex none reqMissing).1 = badProduct bad.productId))) ∧
    createOrder env0 tHex dbHex none reqMissing =
      (⟨400, .message "Product 650c00000000000000000009 not found or inactive"⟩, dbHex) :=
  ⟨⟨by decide!, by decide!⟩,
    C19_bad_item_rejected env0 tHex dbHex none reqMissing
      { productId := "650c00000000000000000009", quantity := 1 } (by decide!)
      (Or.inl (by decide!)),
    by decide!⟩

/-! ## Claims on the order number -/

/-- C14, at the failing input: a signed-in user orders 2 × Widget. The hook that
generates the order number runs inside `save`, after the validation that requires
an order number: a document without number is rejected, a document that is saved
keeps the number it came with, and the request is answered 500 without any number
generated. Called on its own, the hook gives `M7R-123456-4FZY` for the draw
`0.4fzyo82mvyr`, but `M7R-123456-I` when `Math.random()` returns 0.5 (rendering
`0.i`) and `M7R-123456-` when it returns 0. -/
theorem C14_number_not_generated :
    (∀ env t orders o, o.orderNumber = "" → saveOrder env t orders o = none) ∧
    (∀ env t orders o saved orders1, saveOrder env t orders o = some (saved, orders1) →
      o.orderNumber ≠ "" ∧ saved.orderNumber = o.orderNumber) ∧
    createOrder env0 tHex dbHex (some "650b00000000000000000001") reqAcme =
      (⟨500, .message "Server error"⟩, dbHex) ∧
    (generateOrderNumber t0 draft0).orderNumber = "M7R-123456-4FZY" ∧
    orderNumberFormat (generateOrderNumber t0 draft0).orderNumber = true ∧
    (generateOrderNumber tHalf draft0).orderNumber = "M7R-123456-I" ∧
    orderNumberFormat (generateOrderNumber tHalf draft0).orderNumber = false ∧
    (generateOrderNumber tZero draft0).orderNumber = "M7R-123456-" ∧
    orderNumberFormat (generateOrderNumber tZero draft0).orderNumber = false := by
  refine ⟨fun env t orders o h => saveOrder_unnumbered env t orders o h, ?_, by decide!,
    by decide!, by decide!, by decide!, by decide!, by decide!, by decide!⟩
  intro env t orders o saved orders1 h
  have hne := saveOrder_numbered env t orders o saved orders1 h
  obtain ⟨hs, _⟩ := saveOrder_some env t orders o saved orders1 h
  exact ⟨hne, by rw [hs, hooks_orderNumber t o hne]⟩

/-- C15: for an order that has a non-empty order number, the pre-save hooks
leave the number as it is, and when the order is stored every payment
notification, status update (either route) and refund request, and every
sequence of them, leaves it stored with the same order number. -/
theorem C15_order_number_immutable (o : Order) (hne : o.orderNumber ≠ "") :
    (∀ t, (generateOrderNumber t o).orderNumber = o.orderNumber ∧
      (calculateTotals (generateOrderNumber t o)).orderNumber = o.orderNumber) ∧
    (∀ env t db r id, findById Order._id db.orders id = some o →
      ∃ o1, findById Order._id (handle env t db r).2.orders id = some o1 ∧
        o1.orderNumber = o.orderNumber) ∧
    (∀ env db reqs id, findById Order._id db.orders id = some o →
      ∃ o1, findById Order._id (run env db reqs).orders id = some o1 ∧
        o1.orderNumber = o.orderNumber) := by
  refine ⟨fun t => ⟨?_, hooks_orderNumber t o hne⟩, ?_, ?_⟩
  · unfold generateOrderNumber
    simp [hne]
  · intro env t db r id hx
    exact handle_orderNumber env t db r id o hx hne
  · intro env db reqs id hx
    exact run_orderNumber env reqs db id o hx hne

/-- Witness of C15: the stored order `o1`, numbered `M7R-123456-4FZY`, through a
completion notification, a status update and a refund. -/
theorem C15_order_number_immutable_witness :
    order1.orderNumber ≠ "" ∧
    (∀ env db reqs id, findById Order._id db.orders id = some order1 →
      ∃ o1, findById Order._id (run env db reqs).orders id = some o1 ∧
        o1.orderNumber = order1.orderNumber) ∧
    (run env0 db1 [(t1, .notify noteComplete),
        (t2, .updateStatus "u1" "o1" { status := "shipped" }),
        (t3, .refund "u1" "o1" {})]).orders.map (fun o => (o.orderNumber, o.status)) =
      [("M7R-123456-4FZY", "refunded")] :=
  ⟨by decide, (C15_order_number_immutable order1 (by decide)).2.2, by decide!⟩

/-- C16: when no two stored orders with different `_id` carry the same order
number, this still holds after every save that is accepted, whatever the
document, the timestamp and the random draw, and so after every sequence of
order creations, payment notifications, status updates and refunds: a save whose
order number another order carries is rejected by the unique index. -/
theorem C16_order_numbers_unique (env : Env) (db : Db)
    (h : uniqueOrderNumbers db.orders) :
    (∀ t o saved orders1, saveOrder env t db.orders o = some (saved, orders1) →
      uniqueOrderNumbers orders1) ∧
    (∀ t a, uniqueOrderNumbers (act env t db a).2.orders) ∧
    (∀ actions, uniqueOrderNumbers (runActions env db actions).orders) := by
  refine ⟨fun t o saved orders1 hsave => saveOrder_unique env t db.orders orders1 o saved h hsave,
    fun t a => act_unique env t db a h, ?_⟩
  intro actions
  induction actions generalizing db with
  | nil => exact h
  | cons ta rest ih =>
    obtain ⟨t, a⟩ := ta
    exact ih (act env t db a).2 (act_unique env t db a h)

/-- Witness of C16: the stored order `o1`. A new document with its own number is
saved and the two numbers differ; a new document that carries the number of `o1`
is rejected. -/
theorem C16_order_numbers_unique_witness :
    uniqueOrderNumbers db1.orders ∧
    ((∀ t o saved orders1, saveOrder env0 t db1.orders o = some (saved, orders1) →
      uniqueOrderNumbers orders1) ∧
    (∀ t a, uniqueOrderNumbers (act env0 t db1 a).2.orders) ∧
    (∀ actions, uniqueOrderNumbers (runActions env0 db1 actions).orders)) ∧
    (saveOrder env0 t1 db1.orders orderNew).map
        (fun r => r.2.map fun o => (o._id, o.orderNumber)) =
      some [("o1", "M7R-123456-4FZY"), ("o2", "M7R-200000-8KQ2")] ∧
    orderDup.orderNumber = order1.orderNumber ∧ orderDup._id ≠ order1._id ∧
    saveOrder env0 t1 db1.orders orderDup = none :=
  ⟨by decide, C16_order_numbers_unique env0 db1 (by decide), by decide!, by decide!, by decide!,
    by decide!⟩

/-! ## Claims on the signature -/

/-- C20: on a parameter object whose values are strings,
`generatePayFastSignature` returns the MD5 digest of the string the
specification describes (`signatureSpec`: the keys in ascending order, keys with
an empty value skipped, each written `key=encodeURIComponent(trimmed value)`,
joined with `&`, and `&passphrase=` with the encoded trimmed passphrase appended
exactly when the passphrase is not empty); and for an object with distinct keys
the signature is the same for every order of insertion of the keys. -/
theorem C20_signature (md5 : String → String) (data data2 : List (String × String))
    (passphrase : String) (hperm : data.Perm data2) (hnodup : (data.map Prod.fst).Nodup) :
    generatePayFastSignature md5 (ofStrings data) passphrase =
      some (signatureSpec md5 data passphrase) ∧
    generatePayFastSignature md5 (ofStrings data2) passphrase =
      some (signatureSpec md5 data2 passphrase) ∧
    generatePayFastSignature md5 (ofStrings data2) passphrase =
      generatePayFastSignature md5 (ofStrings data) passphrase := by
  haveI : IsTotal String jsStrLe := ⟨jsStrLe_total⟩
  haveI : IsTrans String jsStrLe := ⟨jsStrLe_trans⟩
  haveI : IsAntisymm String jsStrLe := ⟨jsStrLe_antisymm⟩
  refine ⟨generatePayFastSignature_spec md5 data passphrase,
    generatePayFastSignature_spec md5 data2 passphrase, ?_⟩
  rw [generatePayFastSignature_spec, generatePayFastSignature_spec]
  have hkeys : (data2.map Prod.fst).insertionSort jsStrLe =
      (data.map Prod.fst).insertionSort jsStrLe :=
    List.eq_of_perm_of_sorted
      (((List.perm_insertionSort jsStrLe _).trans (hperm.map Prod.fst).symm).trans
        (List.perm_insertionSort jsStrLe _).symm)
      (List.sorted_insertionSort jsStrLe _) (List.sorted_insertionSort jsStrLe _)
  have hpar : paramOf data2 = paramOf data := by
    funext k
    unfold paramOf
    rw [lookup_perm data data2 hperm hnodup k]
  unfold signatureSpec
  simp only [hkeys, hpar]

/-- Witness of C20: a parameter set and the same set with its keys inserted in
another order; the value of `amount` is trimmed and the empty `custom_str2` is
skipped. -/
theorem C20_signature_witness :
    (params0.Perm params1 ∧ (params0.map Prod.fst).Nodup) ∧
    (generatePayFastSignature env0.md5 (ofStrings params0) "secret" =
        some (signatureSpec env0.md5 params0 "secret") ∧
      generatePayFastSignature env0.md5 (ofStrings params1) "secret" =
        some (signatureSpec env0.md5 params1 "secret") ∧
      generatePayFastSignature env0.md5 (ofStrings params1) "secret" =
        generatePayFastSignature env0.md5 (ofStrings params0) "secret") ∧
    generatePayFastSignature env0.md5 (ofStrings params0) "secret" =
      some ("amount=100.00&item_name=Order%20M7R%20%26%20co&payment_status=COMPLETE" ++
        "&passphrase=secret") ∧
    generatePayFastSignature env0.md5 (ofStrings params0) "" =
      some "amount=100.00&item_name=Order%20M7R%20%26%20co&payment_status=COMPLETE" :=
  ⟨⟨by decide, by decide⟩,
    C20_signature env0.md5 params0 params1 "secret" (by decide) (by decide),
    by decide!, by decide!⟩

/-! ## Claims on the ownership guard -/

/-- C13: a user who does not own the target is answered 403 and the database is
returned as it was, so the target and every reference list are unchanged: by the
update, delete and page-save handlers of a store whose `owner` is another user,
by the update and delete handlers of a product whose `creator` is another user,
and by the status-update handlers (both routes) and the refund handler of an
order whose store is owned by another user. -/
theorem C13_ownership_guard (env : Env) (t : Tick) (db : Db) (userId : ObjectId) :
    (∀ id store, findById Store._id db.stores id = some store → store.owner ≠ userId →
      (∀ body, updateStore env t db userId id body =
        (⟨403, .message "Not authorized to update this store"⟩, db)) ∧
      deleteStore db userId id =
        (⟨403, .message "Not authorized to delete this store"⟩, db) ∧
      (∀ body, savePage env t db userId id body =
        (⟨403, .message "Not authorized to edit this store"⟩, db))) ∧
    (∀ id product, findById Product._id db.products id = some product →
      product.creator ≠ userId →
      (∀ body, updateProduct env t db userId id body =
        (⟨403, .message "Not authorized to update this product"⟩, db)) ∧
      deleteProduct db userId id =
        (⟨403, .message "Not authorized to delete this product"⟩, db)) ∧
    (∀ id order store, findById Order._id db.orders id = some order →
      findById Store._id db.stores order.store = some store → store.owner ≠ userId →
      (∀ body, updateOrderStatus env t db userId id body =
        (⟨403, .message "Not authorized"⟩, db)) ∧
      (∀ body, updatePaymentOrderStatus env t db userId id body =
        (⟨403, .message "Not authorized"⟩, db)) ∧
      (∀ body, refundOrder env t db userId id body =
        (⟨403, .message "Not authorized"⟩, db))) := by
  refine ⟨?_, ?_, ?_⟩
  · intro id store hfind howner
    refine ⟨?_, ?_, ?_⟩
    · intro body
      unfold updateStore
      simp [hfind, howner]
    · unfold deleteStore
      simp [hfind, howner]
    · intro body
      unfold savePage
      simp [hfind, howner]
  · intro id product hfind hcreator
    refine ⟨?_, ?_⟩
    · intro body
      unfold updateProduct
      simp [hfind, hcreator]
    · unfold deleteProduct
      simp [hfind, hcreator]
  · intro id order store hfind hstore howner
    refine ⟨?_, ?_, ?_⟩
    · intro body
      unfold updateOrderStatus
      simp [hfind, hstore, howner]
    · intro body
      unfold updatePaymentOrderStatus
      simp [hfind, hstore, howner]
    · intro body
      unfold refundOrder
      simp [hfind, hstore, howner]

/-- Witness of C13: the user `u2` owns neither the store `s1`, nor its product
`p1`, nor the store of the order `o1`. -/
theorem C13_ownership_guard_witness :
    (findById Store._id db1.stores "s1" = some acme ∧ acme.owner ≠ "u2" ∧
      findById Product._id db1.products "p1" = some widget ∧ widget.creator ≠ "u2" ∧
      findById Order._id db1.orders "o1" = some order1 ∧
      findById Store._id db1.stores order1.store = some acme) ∧
    updateStore env0 t1 db1 "u2" "s1" { name := some "Mine" } =
      (⟨403, .message "Not authorized to update this store"⟩, db1) ∧
    deleteStore db1 "u2" "s1" =
      (⟨403, .message "Not authorized to delete this store"⟩, db1) ∧
    deleteProduct db1 "u2" "p1" =
      (⟨403, .message "Not authorized to delete this product"⟩, db1) ∧
    refundOrder env0 t1 db1 "u2" "o1" {} = (⟨403, .message "Not authorized"⟩, db1) :=
  ⟨⟨by decide!, by decide, by decide!, by decide, by decide!, by decide!⟩,
    ((C13_ownership_guard env0 t1 db1 "u2").1 "s1" acme (by decide!) (by decide)).1 _,
    ((C13_ownership_guard env0 t1 db1 "u2").1 "s1" acme (by decide!) (by decide)).2.1,
    ((C13_ownership_guard env0 t1 db1 "u2").2.1 "p1" widget (by decide!) (by decide)).2,
    ((C13_ownership_guard env0 t1 db1 "u2").2.2 "o1" order1 acme (by decide!) (by decide!)
      (by decide)).2.2 _⟩

/-! ## Claims on the signature round trip -/

/-- C21: for every parameter set without a `signature` key and every
configuration (passphrase included), the notification formed by adding the
signature computed by `generatePayFastSignature` passes the check of the notify
handler: the signature the handler reads equals the one it recomputes from the
other fields, and the answer is neither status 400 nor the body
`Invalid signature`. -/
theorem C21_signature_round_trip (env : Env) (t : Tick) (db : Db) (data : Fields)
    (h : ∀ kv ∈ data, kv.1 ≠ "signature") :
    ((signed env data).lookup "signature").join =
        generatePayFastSignature env.md5
          ((signed env data).filter fun kv => kv.1 != "signature") env.passphrase ∧
      (payfastNotify env t db (signed env data)).1.status ≠ 400 ∧
      (payfastNotify env t db (signed env data)).1.body ≠ .text "Invalid signature" := by
  have hl := lookup_append_fresh data "signature"
    (generatePayFastSignature env.md5 data env.passphrase) h
  have hf := filter_append_fresh data "signature"
    (generatePayFastSignature env.md5 data env.passphrase) h
  have heq : ((signed env data).lookup "signature").join =
      generatePayFastSignature env.md5
        ((signed env data).filter fun kv => kv.1 != "signature") env.passphrase := by
    unfold signed
    rw [hl, hf]
    rfl
  exact ⟨heq, payfastNotify_verified env t db (signed env data) heq⟩

/-- Witness of C21: the completion notification for `o1`, signed under the
passphrase `secret`, is accepted and answered 200. -/
theorem C21_signature_round_trip_witness :
    (∀ kv ∈ note0, kv.1 ≠ "signature") ∧
    (((signed env0 note0).lookup "signature").join =
        generatePayFastSignature env0.md5
          ((signed env0 note0).filter fun kv => kv.1 != "signature") env0.passphrase ∧
      (payfastNotify env0 t1 db1 (signed env0 note0)).1.status ≠ 400 ∧
      (payfastNotify env0 t1 db1 (signed env0 note0)).1.body ≠ .text "Invalid signature") ∧
    (payfastNotify env0 t1 db1 (signed env0 note0)).1 = ⟨200, .text "OK"⟩ :=
  ⟨by decide, C21_signature_round_trip env0 t1 db1 note0 (by decide), by decide!⟩

/-! ## Claims on the slug of a renamed store -/

/-- C28: the owner `u1` renames the store "Acme" (slug `acme`) to "Acme Two"; no
other store has the slug `acme-two` derived from the new name, the update is
answered 200 and the name is stored, but the slug is still `acme`: the handler
compares the sent name with the name it has just assigned. -/
theorem C28_rename_keeps_slug :
    findById Store._id dbCo.stores "s1" = some acmeCo ∧ acmeCo.owner = "u1" ∧
    renameBody.name = some "Acme Two" ∧ acmeCo.name = "Acme" ∧ acmeCo.slug = "acme" ∧
    slugify "Acme Two" = "acme-two" ∧
    (dbCo.stores.find? fun s => s.slug == "acme-two" && s._id != "s1") = none ∧
    (updateStore env0 t1 dbCo "u1" "s1" renameBody).1.status = 200 ∧
    findById Store._id (updateStore env0 t1 dbCo "u1" "s1" renameBody).2.stores "s1" =
      some { acmeCo with name := "Acme Two", slug := "acme", updatedAt := t1.now } := by
  decide!

/-! ## Claims on the home page of a store -/

/-- C22: if the page list of a store has at most one page marked as the home
page, then after any `POST /api/stores/:id/pages` request (whatever its answer,
new page or existing one, `isHomePage` set or not) the stored page list still has
at most one; and when the request sets `isHomePage` and is answered 200, the one
home page is the page the request wrote, with the name and content of the
request: in place of the page that carried the slug (it is then stored without
slug), or pushed with the slug and returned in the response. -/
theorem C22_single_home_page (env : Env) (t : Tick) (db : Db) (userId id : ObjectId)
    (body : PageBody) (store : Store)
    (hfind : findById Store._id db.stores id = some store)
    (hone : (homePages store.pages).length ≤ 1) :
    ∃ saved, findById Store._id (savePage env t db userId id body).2.stores id = some saved ∧
      (homePages saved.pages).length ≤ 1 ∧
      ((savePage env t db userId id body).1.status = 200 → body.isHomePage = true →
        ∃ pageSlug, pageSlugFor body = some pageSlug ∧
          (store.pages.any (fun p => p.slug == some pageSlug) = true →
            homePages saved.pages =
              [{ name := body.name, slug := none, content := body.content,
                 isHomePage := true, isPublished := true }]) ∧
          (store.pages.any (fun p => p.slug == some pageSlug) = false →
            homePages saved.pages =
              [{ name := body.name, slug := some pageSlug, content := body.content,
                 isHomePage := true, isPublished := true }] ∧
            (savePage env t db userId id body).1.body =
              .page "Page saved successfully"
                (some { name := body.name, slug := some pageSlug, content := body.content,
                        isHomePage := true, isPublished := true }))) := by
  have hid : store._id = id := findById_key Store._id db.stores id store hfind
  unfold savePage
  simp only [hfind]
  by_cases hown : store.owner ≠ userId
  · rw [if_pos hown]
    exact ⟨store, hfind, hone, fun h => absurd h (by simp)⟩
  · rw [if_neg hown]
    cases hslug : pageSlugFor body with
    | none =>
      exact ⟨store, hfind, hone, fun h => absurd h (by simp)⟩
    | some pageSlug =>
      simp only
      cases hsave : saveStore env t db.stores false
          { store with pages := (putPage
              (if body.isHomePage = true then store.pages.map fun p => { p with isHomePage := false }
               else store.pages) pageSlug body) } with
      | none =>
        exact ⟨store, hfind, hone, fun h => absurd h (by simp)⟩
      | some r =>
        obtain ⟨saved, stores⟩ := r
        obtain ⟨h1, h2⟩ := saveStore_plain env t db.stores _ saved stores hsave
        have hpages : saved.pages = putPage
            (if body.isHomePage = true then store.pages.map fun p => { p with isHomePage := false }
             else store.pages) pageSlug body := by
          rw [h1]
        have hsid : saved._id = id := by
          rw [h1]
          exact hid
        refine ⟨saved, ?_, ?_, ?_⟩
        · simp only [h2, findById_upsert, hsid, if_true]
        · rw [hpages]
          by_cases hb : body.isHomePage = true
          · simp only [hb, if_true]
            have hput := putPage_home
              (store.pages.map fun p => { p with isHomePage := false }) pageSlug body hb
              (homePages_unset store.pages)
            cases hany : (store.pages.map fun p => ({ p with isHomePage := false } : Page)).any
                (fun p => p.slug == some pageSlug) with
            | true =>
              rw [hput.1 hany]
              exact le_refl 1
            | false =>
              rw [(hput.2 hany).1]
              exact le_refl 1
          · have hb2 : body.isHomePage = false := by simpa using hb
            simp only [hb2, Bool.false_eq_true, if_false]
            exact le_trans (putPage_not_home store.pages pageSlug body hb2) hone
        · intro _ hb
          have hput := putPage_home
            (store.pages.map fun p => { p with isHomePage := false }) pageSlug body hb
            (homePages_unset store.pages)
          rw [any_slug_unset] at hput
          refine ⟨pageSlug, rfl, fun hany => ?_, fun hany => ?_⟩
          · rw [hpages]
            simp only [hb, if_true]
            exact hput.1 hany
          · refine ⟨?_, ?_⟩
            · rw [hpages]
              simp only [hb, if_true]
              exact (hput.2 hany).1
            · simp only [hpages, hb, if_true, (hput.2 hany).2]

/-- Witness of C22: the store "Acme" has the home page "about". Making the
existing page "shop" the home page is answered 200 without a page in the
response and leaves the rewritten page, now without slug, as the only home page;
making a new page "News" the home page leaves that page as the only one and
returns it. -/
theorem C22_single_home_page_witness :
    (findById Store._id dbPages.stores "s1" = some acmePages ∧
      (homePages acmePages.pages).length ≤ 1) ∧
    (∃ saved, findById Store._id (savePage env0 t1 dbPages "u1" "s1" shopHome).2.stores "s1" =
        some saved ∧
      (homePages saved.pages).length ≤ 1 ∧
      ((savePage env0 t1 dbPages "u1" "s1" shopHome).1.status = 200 →
        shopHome.isHomePage = true →
        ∃ pageSlug, pageSlugFor shopHome = some pageSlug ∧
          (acmePages.pages.any (fun p => p.slug == some pageSlug) = true →
            homePages saved.pages =
              [{ name := shopHome.name, slug := none, content := shopHome.content,
                 isHomePage := true, isPublished := true }]) ∧
          (acmePages.pages.any (fun p => p.slug == some pageSlug) = false →
            homePages saved.pages =
              [{ name := shopHome.name, slug := some pageSlug, content := shopHome.content,
                 isHomePage := true, isPublished := true }] ∧
            (savePage env0 t1 dbPages "u1" "s1" shopHome).1.body =
              .page "Page saved successfully"
                (some { name := shopHome.name, slug := some pageSlug,
                        content := shopHome.content, isHomePage := true,
                        isPublished := true })))) ∧
    (savePage env0 t1 dbPages "u1" "s1" shopHome).1 = ⟨200, .page "Page saved successfully" none⟩ ∧
    (findById Store._id (savePage env0 t1 dbPages "u1" "s1" shopHome).2.stores "s1").map
        (fun s => s.pages.map fun p => (p.name, p.slug, p.isHomePage)) =
      some [(some "About", some "about", false), (some "Shop", none, true)] ∧
    (savePage env0 t1 dbPages "u1" "s1" newsHome).1 =
      ⟨200, .page "Page saved successfully"
        (some { name := some "News", slug := some "news", content := some "<h1>News</h1>",
                isHomePage := true, isPublished := true })⟩ ∧
    (findById Store._id (savePage env0 t1 dbPages "u1" "s1" newsHome).2.stores "s1").map
        (fun s => s.pages.map fun p => (p.name, p.slug, p.isHomePage)) =
      some [(some "About", some "about", false), (some "Shop", some "shop", false),
            (some "News", some "news", true)] :=
  ⟨⟨by decide!, by decide!⟩,
    C22_single_home_page env0 t1 dbPages "u1" "s1" shopHome acmePages (by decide!) (by decide!),
    by decide!, by decide!, by decide!, by decide!⟩

/-! ## Claims on product creation -/

/-- C24: the body of the test "should create a new product with valid data"
(name, description, price 99.99, category `Electronics`, stock 10), sent by the
authenticated user `u1`, is answered 400 `Please provide all required fields`
and creates nothing, because it has neither `type` nor `storeId`; the test
expects 201. -/
theorem C24_test_body_rejected :
    testProductBody.type = none ∧ testProductBody.storeId = none ∧
    createProduct env0 t1 db0 "u1" testProductBody =
      (⟨400, .message "Please provide all required fields"⟩, db0) := by
  decide!

/-- C25: a product-creation request that lacks at least one of `name`,
`description`, `category`, `type`, `price` and `storeId` is answered 400 with a
JSON message, and the database (products and stores included) is unchanged. -/
theorem C25_missing_field_rejected (env : Env) (t : Tick) (db : Db) (userId : ObjectId)
    (body : CreateProductBody)
    (h : body.name = none ∨ body.description = none ∨ body.category = none ∨
      body.type = none ∨ body.price = none ∨ body.storeId = none) :
    (createProduct env t db userId body).1 =
        ⟨400, .message "Please provide all required fields"⟩ ∧
      hasMessage (createProduct env t db userId body).1.body = true ∧
      (createProduct env t db userId body).2 = db ∧
      (createProduct env t db userId body).2.products = db.products ∧
      (createProduct env t db userId body).2.stores = db.stores := by
  have hres : createProduct env t db userId body =
      (⟨400, .message "Please provide all required fields"⟩, db) := by
    unfold createProduct
    apply if_pos
    rcases h with h | h | h | h | h | h
    · exact Or.inl (by simp [h, strOr])
    · exact Or.inr (Or.inl (by simp [h, strOr]))
    · exact Or.inr (Or.inr (Or.inl (by simp [h, strOr])))
    · exact Or.inr (Or.inr (Or.inr (Or.inl (by simp [h, strOr]))))
    · exact Or.inr (Or.inr (Or.inr (Or.inr (Or.inl (by simp [h, priceMissing])))))
    · exact Or.inr (Or.inr (Or.inr (Or.inr (Or.inr (by simp [h, strOr])))))
  rw [hres]
  exact ⟨rfl, rfl, rfl, rfl, rfl⟩

/-- Witness of C25: the body of the test "should not create product with missing
required fields" (a description and a price only) is answered 400; a complete
request by the owner is answered 201. -/
theorem C25_missing_field_rejected_witness :
    testMissingBody.name = none ∧
    ((createProduct env0 t1 db0 "u1" testMissingBody).1 =
        ⟨400, .message "Please provide all required fields"⟩ ∧
      hasMessage (createProduct env0 t1 db0 "u1" testMissingBody).1.body = true ∧
      (createProduct env0 t1 db0 "u1" testMissingBody).2 = db0 ∧
      (createProduct env0 t1 db0 "u1" testMissingBody).2.products = db0.products ∧
      (createProduct env0 t1 db0 "u1" testMissingBody).2.stores = db0.stores) ∧
    (createProduct env0 t1 db0 "u1" gadgetBody).1.status = 201 :=
  ⟨rfl, C25_missing_field_rejected env0 t1 db0 "u1" testMissingBody (Or.inl rfl), by decide!⟩

/-! ## Claims on the JSON form of a user -/

/-- C26: for every user document, `toJSON` returns the plain object without the
keys `password`, `emailVerificationToken`, `passwordResetToken` and
`passwordResetExpires`, every other key keeps the value of the document, and
replacing the four fields by any other values does not change the output: two
users that differ only in them have the same JSON form. -/
theorem C26_toJSON_hides_credentials :
    (∀ (u : User) (k : String), k ∈ secretKeys → k ∉ (toJSON u).map Prod.fst) ∧
    (∀ (u : User) (k : String), k ∉ secretKeys →
      (toJSON u).lookup k = (toObject u).lookup k) ∧
    (∀ (u : User) (pw : String) (evt prt : Option String) (pre : Option Date),
      toJSON { u with password := pw, emailVerificationToken := evt,
                      passwordResetToken := prt, passwordResetExpires := pre } =
        toJSON u) := by
  refine ⟨?_, ?_, ?_⟩
  · intro u k hk hmem
    rw [toJSON_eq_filter] at hmem
    obtain ⟨kv, hkv, hfst⟩ := List.mem_map.1 hmem
    have hc := (List.mem_filter.1 hkv).2
    rw [hfst] at hc
    have hc2 : k ∉ secretKeys := by simpa using hc
    exact hc2 hk
  · intro u k hk
    rw [toJSON_eq_filter]
    apply lookup_filter_key (toObject u) (fun key => !secretKeys.contains key) k
    simpa using hk
  · intro u pw evt prt pre
    rw [toJSON_eq_filter, toJSON_eq_filter]
    unfold toObject
    simp only [List.filter_append,
      filter_optField_secret "emailVerificationToken" _ (by decide),
      filter_optField_secret "passwordResetToken" _ (by decide),
      filter_optField_secret "passwordResetExpires" _ (by decide)]
    simp [List.filter_cons, secretKeys]

/-- Witness of C26: the JSON form of the user `ann`, who has a password hash and
pending tokens, holds the other fields only, and is the JSON form of the same
user with an empty password and no token. -/
theorem C26_toJSON_hides_credentials_witness :
    ((∀ (u : User) (k : String), k ∈ secretKeys → k ∉ (toJSON u).map Prod.fst) ∧
    (∀ (u : User) (k : String), k ∉ secretKeys →
      (toJSON u).lookup k = (toObject u).lookup k) ∧
    (∀ (u : User) (pw : String) (evt prt : Option String) (pre : Option Date),
      toJSON { u with password := pw, emailVerificationToken := evt,
                      passwordResetToken := prt, passwordResetExpires := pre } =
        toJSON u)) ∧
    (toObject ann).lookup "password" = some (.str "$2a$12$hash") ∧
    (toJSON ann).map Prod.fst =
      ["_id", "username", "email", "stores", "affiliate", "isEmailVerified", "createdAt",
       "updatedAt"] ∧
    toJSON ann = toJSON { _id := "u7", username := "ann", email := "ann@b.c" } :=
  ⟨C26_toJSON_hides_credentials, by decide, by decide, by decide⟩

/-! ## Claims on reading an order -/

/-- C29: the order `o1` of the store "Acme" was placed without signing in; its
store owner `u1` asks for it through `GET /api/orders/:id` and is answered 403,
because the store is populated with `name slug logo contact` only and its
`owner` is absent. The customer `u3` of an order is answered 200. -/
theorem C29_store_owner_refused :
    findById Order._id db1.orders "o1" = some order1 ∧
    findById Store._id db1.stores order1.store = some acme ∧ acme.owner = "u1" ∧
    (selectStore ["name", "slug", "logo", "contact"] acme).owner = none ∧
    getOrder db1 "u1" "o1" = ⟨403, .message "Not authorized to view this order"⟩ ∧
    (getOrder dbOwned "u3" "o1").status = 200 ∧
    (getOrder dbOwned "u1" "o1").status = 403 := by
  decide!

/-! ## Claims on the payout request -/

/-- C30: a payout request is answered 200 only if the user is an affiliate and
`100 ≤ amount ≤ pendingPayouts`; then the stored `pendingPayouts` is the old one
minus the amount and is not negative, and `totalEarnings` is unchanged. Every
request that is not answered 200 (403, 400 or 500) leaves the database, and so
both balances, unchanged. -/
theorem C30_request_payout (env : Env) (t : Tick) (db : Db) (userId : ObjectId)
    (body : PayoutBody) :
    ((requestPayout env t db userId body).1.status = 200 →
      ∃ user amount saved,
        findById User._id db.users userId = some user ∧
        body.amount = some amount ∧
        user.affiliate.isAffiliate = true ∧
        100 ≤ amount ∧ amount ≤ user.affiliate.pendingPayouts ∧
        findById User._id (requestPayout env t db userId body).2.users userId = some saved ∧
        saved.affiliate.pendingPayouts = user.affiliate.pendingPayouts - amount ∧
        0 ≤ saved.affiliate.pendingPayouts ∧
        saved.affiliate.totalEarnings = user.affiliate.totalEarnings) ∧
    ((requestPayout env t db userId body).1.status ≠ 200 →
      (requestPayout env t db userId body).2 = db) := by
  unfold requestPayout
  cases hfind : findById User._id db.users userId with
  | none => exact ⟨fun h => absurd h (by simp), fun _ => rfl⟩
  | some user =>
    have hid : user._id = userId := findById_key User._id db.users userId user hfind
    simp only
    by_cases haff : user.affiliate.isAffiliate = false
    · rw [if_pos haff]
      exact ⟨fun h => absurd h (by simp), fun _ => rfl⟩
    · rw [if_neg haff]
      by_cases h0 : numOr body.amount 0 = 0 ∨ numOr body.amount 0 ≤ 0
      · rw [if_pos h0]
        exact ⟨fun h => absurd h (by simp), fun _ => rfl⟩
      · rw [if_neg h0]
        by_cases h1 : numOr body.amount 0 > user.affiliate.pendingPayouts
        · rw [if_pos h1]
          exact ⟨fun h => absurd h (by simp), fun _ => rfl⟩
        · rw [if_neg h1]
          by_cases h2 : numOr body.amount 0 < 100
          · rw [if_pos h2]
            exact ⟨fun h => absurd h (by simp), fun _ => rfl⟩
          · rw [if_neg h2]
            cases hsave : saveUser env t db.users
                { user with affiliate := { user.affiliate with
                    pendingPayouts := user.affiliate.pendingPayouts - numOr body.amount 0 } } with
            | none => exact ⟨fun h => absurd h (by simp), fun _ => rfl⟩
            | some r =>
              obtain ⟨saved, users⟩ := r
              obtain ⟨hs1, hs2⟩ := saveUser_some env t db.users _ saved users hsave
              have hle : numOr body.amount 0 ≤ user.affiliate.pendingPayouts := not_lt.1 h1
              refine ⟨fun _ => ⟨user, numOr body.amount 0, saved, rfl,
                numOr_zero_some body.amount (fun e => h0 (Or.inl e)), by simpa using haff,
                not_lt.1 h2, hle, ?_, ?_, ?_, ?_⟩, fun h => absurd rfl h⟩
              · have hsid : saved._id = userId := by
                  rw [hs1]
                  exact hid
                simp only [hs2, findById_upsert, hsid, if_true]
              · rw [hs1]
              · rw [hs1]
                exact sub_nonneg.2 hle
              · rw [hs1]

/-- Witness of C30: the affiliate `u2` with 500 earned and 250 pending asks for
150 and is answered 200, which leaves 100 pending and 500 earned; asking for 300
or for 50 is answered 400 and changes nothing. -/
theorem C30_request_payout_witness :
    (((requestPayout env0 t1 dbBalance "u2" { amount := some 150 }).1.status = 200 →
      ∃ user amount saved,
        findById User._id dbBalance.users "u2" = some user ∧
        ({ amount := some 150 } : PayoutBody).amount = some amount ∧
        user.affiliate.isAffiliate = true ∧
        100 ≤ amount ∧ amount ≤ user.affiliate.pendingPayouts ∧
        findById User._id (requestPayout env0 t1 dbBalance "u2" { amount := some 150 }).2.users
          "u2" = some saved ∧
        saved.affiliate.pendingPayouts = user.affiliate.pendingPayouts - amount ∧
        0 ≤ saved.affiliate.pendingPayouts ∧
        saved.affiliate.totalEarnings = user.affiliate.totalEarnings) ∧
    ((requestPayout env0 t1 dbBalance "u2" { amount := some 150 }).1.status ≠ 200 →
      (requestPayout env0 t1 dbBalance "u2" { amount := some 150 }).2 = dbBalance)) ∧
    (requestPayout env0 t1 dbBalance "u2" { amount := some 150 }).1.status = 200 ∧
    ((findById User._id (requestPayout env0 t1 dbBalance "u2" { amount := some 150 }).2.users
        "u2").map fun u => (u.affiliate.pendingPayouts, u.affiliate.totalEarnings)) =
      some (100, 500) ∧
    requestPayout env0 t1 dbBalance "u2" { amount := some 300 } =
      (⟨400, .message "Requested amount exceeds available balance"⟩, dbBalance) ∧
    requestPayout env0 t1 dbBalance "u2" { amount := some 50 } =
      (⟨400, .message "Minimum payout amount is R100"⟩, dbBalance) ∧
    requestPayout env0 t1 dbBalance "u1" { amount := some 150 } =
      (⟨403, .message "Affiliate program not enabled"⟩, dbBalance) :=
  ⟨C30_request_payout env0 t1 dbBalance "u2" { amount := some 150 }, by decide!, by decide!,
    by decide!, by decide!, by decide!⟩

/-! ## Claims on the bodies of error responses -/

/-- C23 as stated fails for the payment notification: the completion notification
for `o1` with a forged signature is answered 400 with the plain-text body
`Invalid signature`, which is not a JSON object with a `message`. -/
theorem C23_counterexample :
    (payfastNotify env0 t1 db1 noteForged).1 = ⟨400, .text "Invalid signature"⟩ ∧
    hasMessage (payfastNotify env0 t1 db1 noteForged).1.body = false := by
  decide!

/-- C23, amended: every answer with status 400, 403, 404 or 500 of a handler of
`orders.js`, `payments.js` and `affiliates.js` other than the payment
notification is a JSON body that holds a `message` string and nothing else; the
payment notification answers every request with a plain-text body. -/
theorem C23_error_bodies (env : Env) (t : Tick) (db : Db) :
    (∀ call : ApiCall, (respond env t db call).status ∈ [400, 403, 404, 500] →
      (∃ s, (respond env t db call).body = .message s) ∧
        hasMessage (respond env t db call).body = true) ∧
    (∀ data : Fields,
      (∃ s, (payfastNotify env t db data).1.body = .text s) ∧
        hasMessage (payfastNotify env t db data).1.body = false) := by
  refine ⟨?_, ?_⟩
  · intro call hst
    have h200 : (respond env t db call).status ≠ 200 := by
      intro e
      rw [e] at hst
      exact absurd hst (by decide)
    have hmsg : ∃ s, (respond env t db call).body = .message s := by
      cases call with
      | getOrders userId => exact absurd rfl h200
      | getOrder userId id => exact getOrder_error_body db userId id h200
      | getStoreOrders userId storeId => exact getStoreOrders_error_body db userId storeId h200
      | orderStatus userId id body =>
        exact updateOrderStatus_error_body env t db userId id body h200
      | refund userId id body => exact refundOrder_error_body env t db userId id body h200
      | getOrdersOverview userId storeId =>
        exact getOrdersOverview_error_body db userId storeId h200
      | createOrder user body => exact (createOrder_error_body env t db user body).2
      | getPaymentOrder orderId => exact getPaymentOrder_error_body db orderId h200
      | getPaymentOrders userId => exact absurd rfl h200
      | getPaymentStoreOrders userId storeId =>
        exact getPaymentStoreOrders_error_body db userId storeId h200
      | paymentOrderStatus userId id body =>
        exact updatePaymentOrderStatus_error_body env t db userId id body h200
      | getDashboard userId => exact getDashboard_error_body env t db userId h200
      | getReferrals userId => exact getReferrals_error_body db userId h200
      | getCommissions userId => exact absurd rfl h200
      | generateLink userId => exact generateLink_error_body db userId h200
      | requestPayout userId body => exact requestPayout_error_body env t db userId body h200
      | getAffiliateAnalytics userId => exact getAffiliateAnalytics_error_body db userId h200
    obtain ⟨s, hs⟩ := hmsg
    exact ⟨⟨s, hs⟩, by rw [hs]; rfl⟩
  · intro data
    obtain ⟨s, hs⟩ := payfastNotify_text env t db data
    exact ⟨⟨s, hs⟩, by rw [hs]; rfl⟩

/-- Witness of C23: a refund of the unpaid order `o1` by its store owner is
answered 400 with the message `Cannot refund unpaid order`, the store listing of
a user who does not own the store 403 `Not authorized`, the order page of an
unknown order 404 `Order not found`, the referral page of a missing user 500
`Server error`; a notification for an unknown order is answered 404 with the
plain text `Order not found`. -/
theorem C23_error_bodies_witness :
    ((∀ call : ApiCall, (respond env0 t1 db1 call).status ∈ [400, 403, 404, 500] →
      (∃ s, (respond env0 t1 db1 call).body = .message s) ∧
        hasMessage (respond env0 t1 db1 call).body = true) ∧
    (∀ data : Fields,
      (∃ s, (payfastNotify env0 t1 db1 data).1.body = .text s) ∧
        hasMessage (payfastNotify env0 t1 db1 data).1.body = false)) ∧
    respond env0 t1 db1 (.refund "u1" "o1" {}) = ⟨400, .message "Cannot refund unpaid order"⟩ ∧
    respond env0 tHex dbHex (.getStoreOrders "650b00000000000000000002"
      "650a00000000000000000001") = ⟨403, .message "Not authorized"⟩ ∧
    respond env0 tHex dbHex (.getPaymentOrder "650d00000000000000000001") =
      ⟨404, .message "Order not found"⟩ ∧
    respond env0 tHex dbHex (.getReferrals "650b00000000000000000009") =
      ⟨500, .message "Server error"⟩ ∧
    (payfastNotify env0 t1 db0 noteComplete).1 = ⟨404, .text "Order not found"⟩ :=
  ⟨C23_error_bodies env0 t1 db1, by decide!, by decide!, by decide!, by decide!, by decide!⟩

end M7R
